import Mathlib

/-!
Parsing of audio_policy.conf: `ConfigParsingUtils.cpp`.

A shallow embedding of
`services/audiopolicy/common/managerdefinitions/src/ConfigParsingUtils.cpp`.

* The configuration tree (`cnode`) is a name, a value and the ordered list of
  children; `first_child` / `next` chains are Lean lists, walked with folds.
* Objects held through `sp<>` are plain values. The loader never mutates a
  device descriptor after it has been shared, so sharing is value equality.
* The token converters, `atoi`, `sscanf` and the device-type predicates are
  black boxes, collected in `Converters`.
* `uint32_t` values are naturals reduced modulo `2^32` where they are produced.
* A null-pointer dereference is the result `none`.
-/

namespace android

/-! ## Constants -/

abbrev status_t := Int

def NO_ERROR : status_t := 0
def NAME_NOT_FOUND : status_t := -2
def BAD_VALUE : status_t := -22
def ENODEV : Int := 19

def AUDIO_OUTPUT_FLAG_DIRECT : Nat := 0x1
def AUDIO_OUTPUT_FLAG_COMPRESS_OFFLOAD : Nat := 0x10
def AUDIO_DEVICE_NONE : Nat := 0x0
def AUDIO_DEVICE_OUT_REMOTE_SUBMIX : Nat := 0x8000
def AUDIO_DEVICE_IN_REMOTE_SUBMIX : Nat := 0x80000100

def UINT32_SIZE : Nat := 2 ^ 32

/-- Modelled from the spec: the tag strings of `ConfigParsingUtils.h`, the
header of this file, which the spec calls "a contract with the file format". -/
def GLOBAL_CONFIG_TAG : String := "global_configuration"
def ATTACHED_OUTPUT_DEVICES_TAG : String := "attached_output_devices"
def DEFAULT_OUTPUT_DEVICE_TAG : String := "default_output_device"
def ATTACHED_INPUT_DEVICES_TAG : String := "attached_input_devices"
def SPEAKER_DRC_ENABLED_TAG : String := "speaker_drc_enabled"
def AUDIO_HAL_VERSION_TAG : String := "audio_hal_version"
def AUDIO_HW_MODULE_TAG : String := "audio_hw_modules"
def OUTPUTS_TAG : String := "outputs"
def INPUTS_TAG : String := "inputs"
def SAMPLING_RATES_TAG : String := "sampling_rates"
def FORMATS_TAG : String := "formats"
def CHANNELS_TAG : String := "channel_masks"
def DEVICES_TAG : String := "devices"
def FLAGS_TAG : String := "flags"
def APM_DEVICE_TYPE : String := "type"
def APM_DEVICE_ADDRESS : String := "address"
def GAINS_TAG : String := "gains"
def GAIN_MODE : String := "mode"
def GAIN_CHANNELS : String := "channel_mask"
def GAIN_MIN_VALUE : String := "min_value_mB"
def GAIN_MAX_VALUE : String := "max_value_mB"
def GAIN_DEFAULT_VALUE : String := "default_value_mB"
def GAIN_STEP_VALUE : String := "step_value_mB"
def GAIN_MIN_RAMP_MS : String := "min_ramp_ms"
def GAIN_MAX_RAMP_MS : String := "max_ramp_ms"
def AUDIO_HARDWARE_MODULE_ID_PRIMARY : String := "primary"

/-! ## The configuration tree -/

/-- A node of the tree provider: name, value, children in document order. -/
inductive cnode where
  | mk (name : String) (value : String) (children : List cnode)

def cnode.name : cnode → String
  | .mk n _ _ => n

def cnode.value : cnode → String
  | .mk _ v _ => v

def cnode.children : cnode → List cnode
  | .mk _ _ cs => cs

/-- Modelled from the spec: `config_find` of the tree provider, "locate the
first immediate child with a given name (depth-one lookup)". -/
def config_find (root : cnode) (name : String) : Option cnode :=
  root.children.find? (fun n => decide (n.name = name))

/-! ## Black boxes -/

/-- The external collaborators of the translation layer. Each converter returns
a decoded value or a failure (`none`); the mask converters return a mask. -/
structure Converters where
  outputFlagMask : String → Nat
  inputFlagMask : String → Nat
  gainModeMask : String → Nat
  inputChannel : String → Option Nat
  outputChannel : String → Option Nat
  deviceType : String → Option Nat
  samplingRates : String → List Nat
  formats : String → List Nat
  inputChannelMasks : String → List Nat
  outputChannelMasks : String → List Nat
  atoi : String → Int
  audio_is_input_device : Nat → Bool
  audio_is_output_device : Nat → Bool
  convertToBool : String → Option Bool
  halVersion : String → Nat
  config_load : String → List cnode

/-- `OutputFlagConverter::maskFromString`, a `uint32_t`. -/
def OutputFlagConverter.maskFromString (cv : Converters) (str : String) : Nat :=
  cv.outputFlagMask str % UINT32_SIZE

/-- `InputFlagConverter::maskFromString`, a `uint32_t`. -/
def InputFlagConverter.maskFromString (cv : Converters) (str : String) : Nat :=
  cv.inputFlagMask str % UINT32_SIZE

/-- `GainModeConverter::maskFromString`, a `uint32_t`. -/
def GainModeConverter.maskFromString (cv : Converters) (str : String) : Nat :=
  cv.gainModeMask str % UINT32_SIZE

/-- `InputChannelConverter::fromString`: `some mask` when it returns true. -/
def InputChannelConverter.fromString (cv : Converters) (str : String) : Option Nat :=
  (cv.inputChannel str).map (fun m => m % UINT32_SIZE)

/-- `OutputChannelConverter::fromString`: `some mask` when it returns true. -/
def OutputChannelConverter.fromString (cv : Converters) (str : String) : Option Nat :=
  (cv.outputChannel str).map (fun m => m % UINT32_SIZE)

/-- `DeviceConverter::fromString`: `some type` when it returns true; on
failure the caller's variable keeps its value. -/
def DeviceConverter.fromString (cv : Converters) (str : String) : Option Nat :=
  (cv.deviceType str).map (fun t => t % UINT32_SIZE)

/-! ## `strtok` -/

/-- The tokens that successive calls `strtok(s, "|")`, `strtok(NULL, "|")`, ...
return until the first `NULL`: the maximal runs of characters other than the
delimiter, in order. `cur` is the token being scanned, reversed. -/
def strtokScan (cur : List Char) : List Char → List String
  | [] => if cur = [] then [] else [String.mk cur.reverse]
  | c :: cs =>
    if c = '|' then
      if cur = [] then strtokScan [] cs
      else String.mk cur.reverse :: strtokScan [] cs
    else strtokScan (c :: cur) cs

def strtokAll (s : String) : List String :=
  strtokScan [] s.data

/-! ## The data model -/

/-- The gain description held by an `AudioGain`. -/
structure AudioGain where
  mIndex : Int
  mUseInChannelMask : Bool
  mode : Nat
  channel_mask : Nat
  min_value : Int
  max_value : Int
  default_value : Int
  step_value : Int
  min_ramp_ms : Int
  max_ramp_ms : Int
deriving DecidableEq, Repr

/-- Modelled from the spec: the constructor `AudioGain(index, useInChannelMask)`
of `AudioGain.cpp`; every field of the description starts at "its default
(zero)". -/
def AudioGain.new (index : Int) (useInChannelMask : Bool) : AudioGain :=
  { mIndex := index, mUseInChannelMask := useInChannelMask, mode := 0,
    channel_mask := 0, min_value := 0, max_value := 0, default_value := 0,
    step_value := 0, min_ramp_ms := 0, max_ramp_ms := 0 }

/-- The part of `AudioPort` the loader reads and writes ("PortCapabilities"). -/
structure AudioPort where
  mName : String
  useInputChannelMask : Bool
  mSamplingRates : List Nat
  mFormats : List Nat
  mChannelMasks : List Nat
  mGains : List AudioGain
deriving DecidableEq, Repr

structure DeviceDescriptor extends AudioPort where
  mDeviceType : Nat
  mTag : String
  mAddress : String
  mGain : Option AudioGain
deriving DecidableEq, Repr

/-- Modelled from the spec: the constructor `DeviceDescriptor(type)` of
`DeviceDescriptor.cpp`: no tag, "address: string, default empty", no
capabilities, no gains, "defaultGain ... absent"; the channel-mask kind is the
direction of the device. -/
def DeviceDescriptor.new (cv : Converters) (type : Nat) : DeviceDescriptor :=
  { mName := "", useInputChannelMask := cv.audio_is_input_device type,
    mSamplingRates := [], mFormats := [], mChannelMasks := [], mGains := [],
    mDeviceType := type, mTag := "", mAddress := "", mGain := none }

abbrev DeviceVector := List DeviceDescriptor

/-- Modelled from the spec: `DeviceVector::add` of `DeviceDescriptor.cpp`:
"append, no dedup". -/
def DeviceVector.add (devices : DeviceVector) (item : DeviceDescriptor) : DeviceVector :=
  devices ++ [item]

/-- Modelled from the spec: `DeviceVector::add(const DeviceVector &)` of
`DeviceDescriptor.cpp`, adding each item in turn. -/
def DeviceVector.addAll (devices : DeviceVector) (items : DeviceVector) : DeviceVector :=
  items.foldl DeviceVector.add devices

/-- Modelled from the spec: `DeviceVector::getDeviceFromTag` of
`DeviceDescriptor.cpp`: "first match wins on lookup"; `none` is the null
pointer. -/
def DeviceVector.getDeviceFromTag (devices : DeviceVector) (tag : String) :
    Option DeviceDescriptor :=
  devices.find? (fun d => decide (d.mTag = tag))

structure IOProfile extends AudioPort where
  mFlags : Nat
  mSupportedDevices : DeviceVector
deriving DecidableEq, Repr

/-- Modelled from the spec: the constructor `InputProfile(name)` of
`IOProfile.h`: every capability set empty, channel-mask kind input. -/
def InputProfile.new (name : String) : IOProfile :=
  { mName := name, useInputChannelMask := true, mSamplingRates := [],
    mFormats := [], mChannelMasks := [], mGains := [], mFlags := 0,
    mSupportedDevices := [] }

/-- Modelled from the spec: the constructor `OutputProfile(name)` of
`IOProfile.h`: every capability set empty, channel-mask kind output. -/
def OutputProfile.new (name : String) : IOProfile :=
  { mName := name, useInputChannelMask := false, mSamplingRates := [],
    mFormats := [], mChannelMasks := [], mGains := [], mFlags := 0,
    mSupportedDevices := [] }

structure HwModule where
  mName : String
  mDeclaredDevices : DeviceVector
  mInputProfiles : List IOProfile
  mOutputProfiles : List IOProfile
  mHalVersion : Nat
deriving DecidableEq, Repr

/-- Modelled from the spec: the constructor `HwModule(name)` of `HwModule.cpp`:
"Name comes from the subtree's node name", nothing declared or attached. -/
def HwModule.new (name : String) : HwModule :=
  { mName := name, mDeclaredDevices := [], mInputProfiles := [],
    mOutputProfiles := [], mHalVersion := 0 }

/-- Modelled from the spec: `HwModule::setDeclaredDevices` of `HwModule.cpp`. -/
def HwModule.setDeclaredDevices (module : HwModule) (devices : DeviceVector) : HwModule :=
  { module with mDeclaredDevices := devices }

/-- Modelled from the spec: `HwModule::addOutputProfile` of `HwModule.cpp`:
"the profile is appended to the module's input or output profile sequence and
the build reports success". -/
def HwModule.addOutputProfile (module : HwModule) (profile : IOProfile) : status_t × HwModule :=
  (NO_ERROR, { module with mOutputProfiles := module.mOutputProfiles ++ [profile] })

/-- Modelled from the spec: `HwModule::addInputProfile` of `HwModule.cpp`:
"the profile is appended to the module's input or output profile sequence and
the build reports success". -/
def HwModule.addInputProfile (module : HwModule) (profile : IOProfile) : status_t × HwModule :=
  (NO_ERROR, { module with mInputProfiles := module.mInputProfiles ++ [profile] })

/-- Modelled from the spec: `HwModule::setHalVersion` of `HwModule.h`. -/
def HwModule.setHalVersion (module : HwModule) (halVersion : Nat) : HwModule :=
  { module with mHalVersion := halVersion }

abbrev HwModuleCollection := List HwModule

/-- Modelled from the spec: `HwModuleCollection::getModuleFromName` of
`HwModule.cpp`: the first module of that name, `none` for the null pointer. -/
def HwModuleCollection.getModuleFromName (hwModules : HwModuleCollection) (name : String) :
    Option HwModule :=
  hwModules.find? (fun m => decide (m.mName = name))

/-- The write-back of a module shared through `sp<HwModule>`: the module
returned by `getModuleFromName` is the first of that name. -/
def HwModuleCollection.putModule : HwModuleCollection → String → HwModule → HwModuleCollection
  | [], _, _ => []
  | m :: ms, name, m' =>
    if m.mName = name then m' :: ms else m :: HwModuleCollection.putModule ms name m'

/-- The aggregate ("PolicyConfig"). -/
structure AudioPolicyConfig where
  mHwModules : HwModuleCollection
  mAvailableOutputDevices : DeviceVector
  mAvailableInputDevices : DeviceVector
  mDefaultOutputDevices : Option DeviceDescriptor
  mSpeakerDrcEnabled : Bool
deriving DecidableEq, Repr

/-- Modelled from the spec: `AudioPolicyConfig::addAvailableOutputDevices` of
`AudioPolicyConfig.h`: "added to the aggregate's available-output set". -/
def AudioPolicyConfig.addAvailableOutputDevices (config : AudioPolicyConfig)
    (devices : DeviceVector) : AudioPolicyConfig :=
  { config with mAvailableOutputDevices := config.mAvailableOutputDevices.addAll devices }

/-- Modelled from the spec: `AudioPolicyConfig::addAvailableInputDevices` of
`AudioPolicyConfig.h`: "same as outputs, input set". -/
def AudioPolicyConfig.addAvailableInputDevices (config : AudioPolicyConfig)
    (devices : DeviceVector) : AudioPolicyConfig :=
  { config with mAvailableInputDevices := config.mAvailableInputDevices.addAll devices }

/-- Modelled from the spec: `AudioPolicyConfig::setDefaultOutputDevice` of
`AudioPolicyConfig.h`. -/
def AudioPolicyConfig.setDefaultOutputDevice (config : AudioPolicyConfig)
    (device : DeviceDescriptor) : AudioPolicyConfig :=
  { config with mDefaultOutputDevices := some device }

/-- Modelled from the spec: `AudioPolicyConfig::setSpeakerDrcEnabled` of
`AudioPolicyConfig.h`. -/
def AudioPolicyConfig.setSpeakerDrcEnabled (config : AudioPolicyConfig)
    (enabled : Bool) : AudioPolicyConfig :=
  { config with mSpeakerDrcEnabled := enabled }

/-- Modelled from the spec: `AudioPolicyConfig::setHwModules` of
`AudioPolicyConfig.h`. -/
def AudioPolicyConfig.setHwModules (config : AudioPolicyConfig)
    (hwModules : HwModuleCollection) : AudioPolicyConfig :=
  { config with mHwModules := hwModules }

/-! ## The loader -/

/-- `ConfigParsingUtils::parseOutputFlagNames`. -/
def parseOutputFlagNames (cv : Converters) (name : String) : Nat :=
  let flag := OutputFlagConverter.maskFromString cv name
  if (flag &&& AUDIO_OUTPUT_FLAG_COMPRESS_OFFLOAD) ≠ 0 then
    flag ||| AUDIO_OUTPUT_FLAG_DIRECT
  else flag

/-- One turn of the `while (node)` loop of `loadAudioPortGain`. -/
def loadAudioPortGainNode (cv : Converters) (useInputChannelMask : Bool) (gain : AudioGain)
    (node : cnode) : AudioGain :=
  if node.name = GAIN_MODE then
    { gain with mode := GainModeConverter.maskFromString cv node.value }
  else if node.name = GAIN_CHANNELS then
    if useInputChannelMask then
      match InputChannelConverter.fromString cv node.value with
      | some mask => { gain with channel_mask := mask }
      | none => gain
    else
      match OutputChannelConverter.fromString cv node.value with
      | some mask => { gain with channel_mask := mask }
      | none => gain
  else if node.name = GAIN_MIN_VALUE then
    { gain with min_value := cv.atoi node.value }
  else if node.name = GAIN_MAX_VALUE then
    { gain with max_value := cv.atoi node.value }
  else if node.name = GAIN_DEFAULT_VALUE then
    { gain with default_value := cv.atoi node.value }
  else if node.name = GAIN_STEP_VALUE then
    { gain with step_value := cv.atoi node.value }
  else if node.name = GAIN_MIN_RAMP_MS then
    { gain with min_ramp_ms := cv.atoi node.value }
  else if node.name = GAIN_MAX_RAMP_MS then
    { gain with max_ramp_ms := cv.atoi node.value }
  else gain

/-- The gain that `loadAudioPortGain` holds after its walk over the children. -/
def loadAudioPortGainWalk (cv : Converters) (root : cnode) (audioPort : AudioPort)
    (index : Int) : AudioGain :=
  root.children.foldl (loadAudioPortGainNode cv audioPort.useInputChannelMask)
    (AudioGain.new index audioPort.useInputChannelMask)

/-- `ConfigParsingUtils::loadAudioPortGain`. -/
def loadAudioPortGain (cv : Converters) (root : cnode) (audioPort : AudioPort)
    (index : Int) : AudioPort :=
  let gain := loadAudioPortGainWalk cv root audioPort index
  if gain.mode = 0 then audioPort
  else { audioPort with mGains := audioPort.mGains ++ [gain] }

/-- The loop of `loadAudioPortGains` from a given port and index. -/
def loadAudioPortGainsFrom (cv : Converters) (nodes : List cnode) (audioPort : AudioPort)
    (index : Int) : AudioPort × Int :=
  nodes.foldl (fun st node => (loadAudioPortGain cv node st.1 st.2, st.2 + 1))
    (audioPort, index)

/-- `ConfigParsingUtils::loadAudioPortGains`. -/
def loadAudioPortGains (cv : Converters) (root : cnode) (audioPort : AudioPort) : AudioPort :=
  (loadAudioPortGainsFrom cv root.children audioPort 0).1

/-- `ConfigParsingUtils::loadDeviceDescriptorGains`; the default gain
configuration is the snapshot of the first gain. -/
def loadDeviceDescriptorGains (cv : Converters) (root : cnode)
    (deviceDesc : DeviceDescriptor) : DeviceDescriptor :=
  let deviceDesc :=
    { deviceDesc with toAudioPort := loadAudioPortGains cv root deviceDesc.toAudioPort }
  match deviceDesc.mGains with
  | g :: _ => { deviceDesc with mGain := some g }
  | [] => deviceDesc

/-- The first loop of `loadHwModuleDevice`: the type read from the first child
named `APM_DEVICE_TYPE`, `AUDIO_DEVICE_NONE` when there is none or when the
conversion fails. -/
def loadHwModuleDeviceType (cv : Converters) : List cnode → Nat
  | [] => AUDIO_DEVICE_NONE
  | node :: rest =>
    if node.name = APM_DEVICE_TYPE then
      match DeviceConverter.fromString cv node.value with
      | some type => type
      | none => AUDIO_DEVICE_NONE
    else loadHwModuleDeviceType cv rest

/-- One turn of the second loop of `loadHwModuleDevice`. -/
def loadHwModuleDeviceNode (cv : Converters) (type : Nat) (deviceDesc : DeviceDescriptor)
    (node : cnode) : DeviceDescriptor :=
  if node.name = APM_DEVICE_ADDRESS then
    { deviceDesc with mAddress := node.value }
  else if node.name = CHANNELS_TAG then
    if cv.audio_is_input_device type then
      { deviceDesc with mChannelMasks := cv.inputChannelMasks node.value }
    else
      { deviceDesc with mChannelMasks := cv.outputChannelMasks node.value }
  else if node.name = GAINS_TAG then
    loadDeviceDescriptorGains cv node deviceDesc
  else deviceDesc

/-- `ConfigParsingUtils::loadHwModuleDevice`. -/
def loadHwModuleDevice (cv : Converters) (root : cnode) (devices : DeviceVector) :
    status_t × DeviceVector :=
  let type := loadHwModuleDeviceType cv root.children
  if type = AUDIO_DEVICE_NONE ∨
      (cv.audio_is_input_device type = false ∧ cv.audio_is_output_device type = false) then
    (BAD_VALUE, devices)
  else
    let deviceDesc := { DeviceDescriptor.new cv type with mTag := root.name }
    let deviceDesc := root.children.foldl (loadHwModuleDeviceNode cv type) deviceDesc
    (NO_ERROR, devices.add deviceDesc)

/-- One turn of the `strtok` loop of `loadDevicesFromTag`. -/
def loadDevicesFromTagToken (cv : Converters) (declaredDevices : DeviceVector)
    (devices : DeviceVector) (devTag : String) : DeviceVector :=
  if devTag.length ≠ 0 then
    match DeviceConverter.fromString cv devTag with
    | some type =>
      let dev := DeviceDescriptor.new cv type
      let dev :=
        if type = AUDIO_DEVICE_IN_REMOTE_SUBMIX ∨ type = AUDIO_DEVICE_OUT_REMOTE_SUBMIX then
          { dev with mAddress := "0" }
        else dev
      devices.add dev
    | none =>
      match declaredDevices.getDeviceFromTag devTag with
      | some deviceDesc => devices.add deviceDesc
      | none => devices
  else devices

/-- `ConfigParsingUtils::loadDevicesFromTag`. -/
def loadDevicesFromTag (cv : Converters) (tag : String) (devices : DeviceVector)
    (declaredDevices : DeviceVector) : DeviceVector :=
  (strtokAll tag).foldl (loadDevicesFromTagToken cv declaredDevices) devices

/-- One turn of the `while (node)` loop of `loadHwModuleInput`. -/
def loadHwModuleInputNode (cv : Converters) (module : HwModule) (profile : IOProfile)
    (node : cnode) : IOProfile :=
  if node.name = SAMPLING_RATES_TAG then
    { profile with mSamplingRates := cv.samplingRates node.value }
  else if node.name = FORMATS_TAG then
    { profile with mFormats := cv.formats node.value }
  else if node.name = CHANNELS_TAG then
    { profile with mChannelMasks := cv.inputChannelMasks node.value }
  else if node.name = DEVICES_TAG then
    { profile with
      mSupportedDevices := loadDevicesFromTag cv node.value [] module.mDeclaredDevices }
  else if node.name = FLAGS_TAG then
    { profile with mFlags := InputFlagConverter.maskFromString cv node.value }
  else if node.name = GAINS_TAG then
    { profile with toAudioPort := loadAudioPortGains cv node profile.toAudioPort }
  else profile

/-- The profile that `loadHwModuleInput` holds after its walk. -/
def loadHwModuleInputWalk (cv : Converters) (root : cnode) (module : HwModule) : IOProfile :=
  root.children.foldl (loadHwModuleInputNode cv module) (InputProfile.new root.name)

/-- The test that `loadHwModuleInput` and `loadHwModuleOutput` apply to the
profile after the walk. -/
def profileComplete (profile : IOProfile) : Prop :=
  ¬ profile.mSupportedDevices.isEmpty = true ∧ profile.mChannelMasks.length ≠ 0 ∧
    profile.mSamplingRates.length ≠ 0 ∧ profile.mFormats.length ≠ 0

instance (profile : IOProfile) : Decidable (profileComplete profile) := by
  unfold profileComplete; infer_instance

/-- `ConfigParsingUtils::loadHwModuleInput`. -/
def loadHwModuleInput (cv : Converters) (root : cnode) (module : HwModule) :
    status_t × HwModule :=
  let profile := loadHwModuleInputWalk cv root module
  if profileComplete profile then module.addInputProfile profile
  else (BAD_VALUE, module)

/-- One turn of the `while (node)` loop of `loadHwModuleOutput`. -/
def loadHwModuleOutputNode (cv : Converters) (module : HwModule) (profile : IOProfile)
    (node : cnode) : IOProfile :=
  if node.name = SAMPLING_RATES_TAG then
    { profile with mSamplingRates := cv.samplingRates node.value }
  else if node.name = FORMATS_TAG then
    { profile with mFormats := cv.formats node.value }
  else if node.name = CHANNELS_TAG then
    { profile with mChannelMasks := cv.outputChannelMasks node.value }
  else if node.name = DEVICES_TAG then
    { profile with
      mSupportedDevices := loadDevicesFromTag cv node.value [] module.mDeclaredDevices }
  else if node.name = FLAGS_TAG then
    { profile with mFlags := parseOutputFlagNames cv node.value }
  else if node.name = GAINS_TAG then
    { profile with toAudioPort := loadAudioPortGains cv node profile.toAudioPort }
  else profile

/-- The profile that `loadHwModuleOutput` holds after its walk. -/
def loadHwModuleOutputWalk (cv : Converters) (root : cnode) (module : HwModule) : IOProfile :=
  root.children.foldl (loadHwModuleOutputNode cv module) (OutputProfile.new root.name)

/-- `ConfigParsingUtils::loadHwModuleOutput`. -/
def loadHwModuleOutput (cv : Converters) (root : cnode) (module : HwModule) :
    status_t × HwModule :=
  let profile := loadHwModuleOutputWalk cv root module
  if profileComplete profile then module.addOutputProfile profile
  else (BAD_VALUE, module)

/-- One turn of the `while (node)` loop of `loadModuleGlobalConfig`. Setting
the HAL version through a null `module` is a null-pointer dereference. -/
def loadModuleGlobalConfigNode (cv : Converters) (declaredDevices : DeviceVector)
    (st : Option HwModule × AudioPolicyConfig) (node : cnode) :
    Option (Option HwModule × AudioPolicyConfig) :=
  if ATTACHED_OUTPUT_DEVICES_TAG = node.name then
    let availableOutputDevices := loadDevicesFromTag cv node.value [] declaredDevices
    some (st.1, st.2.addAvailableOutputDevices availableOutputDevices)
  else if DEFAULT_OUTPUT_DEVICE_TAG = node.name then
    let device :=
      match DeviceConverter.fromString cv node.value with
      | some type => type
      | none => AUDIO_DEVICE_NONE
    if device ≠ AUDIO_DEVICE_NONE then
      some (st.1, st.2.setDefaultOutputDevice (DeviceDescriptor.new cv device))
    else some st
  else if ATTACHED_INPUT_DEVICES_TAG = node.name then
    let availableInputDevices := loadDevicesFromTag cv node.value [] declaredDevices
    some (st.1, st.2.addAvailableInputDevices availableInputDevices)
  else if AUDIO_HAL_VERSION_TAG = node.name then
    match st.1 with
    | some module => some (some (module.setHalVersion (cv.halVersion node.value)), st.2)
    | none => none
  else some st

/-- `ConfigParsingUtils::loadModuleGlobalConfig`; `module` is `none` for a null
pointer. Returns the module and the aggregate as they are left. -/
def loadModuleGlobalConfig (cv : Converters) (root : cnode) (module : Option HwModule)
    (config : AudioPolicyConfig) : Option (Option HwModule × AudioPolicyConfig) :=
  match config_find root GLOBAL_CONFIG_TAG with
  | none => some (module, config)
  | some node =>
    let declaredDevices : DeviceVector :=
      match module with
      | some m => m.mDeclaredDevices
      | none => []
    node.children.foldlM (loadModuleGlobalConfigNode cv declaredDevices) (module, config)

/-- The update `if (status == NAME_NOT_FOUND || status == NO_ERROR) status =
tmpStatus;` of `loadHwModule`. -/
def updateStatus (status tmpStatus : status_t) : status_t :=
  if status = NAME_NOT_FOUND ∨ status = NO_ERROR then tmpStatus else status

/-- The loop of `loadHwModule` over the children of the devices section. -/
def loadHwModuleDevices (cv : Converters) (nodes : List cnode) (status : status_t)
    (devices : DeviceVector) : status_t × DeviceVector :=
  nodes.foldl
    (fun st node =>
      let r := loadHwModuleDevice cv node st.2
      (updateStatus st.1 r.1, r.2))
    (status, devices)

/-- The loop of `loadHwModule` over the children of the outputs section. -/
def loadHwModuleOutputs (cv : Converters) (nodes : List cnode) (status : status_t)
    (module : HwModule) : status_t × HwModule :=
  nodes.foldl
    (fun st node =>
      let r := loadHwModuleOutput cv node st.2
      (updateStatus st.1 r.1, r.2))
    (status, module)

/-- The loop of `loadHwModule` over the children of the inputs section. -/
def loadHwModuleInputs (cv : Converters) (nodes : List cnode) (status : status_t)
    (module : HwModule) : status_t × HwModule :=
  nodes.foldl
    (fun st node =>
      let r := loadHwModuleInput cv node st.2
      (updateStatus st.1 r.1, r.2))
    (status, module)

/-- The three scans of `loadHwModule`, up to the call of
`loadModuleGlobalConfig`: the status and the module at that point. -/
def loadHwModuleScans (cv : Converters) (root : cnode) (module : HwModule) :
    status_t × HwModule :=
  let st : status_t × HwModule := (NAME_NOT_FOUND, module)
  let st : status_t × HwModule :=
    match config_find root DEVICES_TAG with
    | some node =>
      let r := loadHwModuleDevices cv node.children st.1 []
      (r.1, st.2.setDeclaredDevices r.2)
    | none => st
  let st : status_t × HwModule :=
    match config_find root OUTPUTS_TAG with
    | some node => loadHwModuleOutputs cv node.children st.1 st.2
    | none => st
  match config_find root INPUTS_TAG with
  | some node => loadHwModuleInputs cv node.children st.1 st.2
  | none => st

/-- `ConfigParsingUtils::loadHwModule`: the status, the module and the
aggregate as they are left. -/
def loadHwModule (cv : Converters) (root : cnode) (module : HwModule)
    (config : AudioPolicyConfig) : Option (status_t × HwModule × AudioPolicyConfig) :=
  let st := loadHwModuleScans cv root module
  match loadModuleGlobalConfig cv root (some st.2) config with
  | some (some module, config) => some (st.1, module, config)
  | _ => none

/-- One turn of the `while (node)` loop of `loadHwModules`. -/
def loadHwModulesNode (cv : Converters) (st : HwModuleCollection × AudioPolicyConfig)
    (node : cnode) : Option (HwModuleCollection × AudioPolicyConfig) :=
  match loadHwModule cv node (HwModule.new node.name) st.2 with
  | some (status, module, config) =>
    if status = NO_ERROR then some (st.1 ++ [module], config)
    else some (st.1, config)
  | none => none

/-- `ConfigParsingUtils::loadHwModules`. -/
def loadHwModules (cv : Converters) (root : cnode) (hwModules : HwModuleCollection)
    (config : AudioPolicyConfig) : Option (HwModuleCollection × AudioPolicyConfig) :=
  match config_find root AUDIO_HW_MODULE_TAG with
  | none => some (hwModules, config)
  | some node => node.children.foldlM (loadHwModulesNode cv) (hwModules, config)

/-- One turn of the `while (node)` loop of `loadGlobalConfig`. -/
def loadGlobalConfigNode (cv : Converters) (config : AudioPolicyConfig) (node : cnode) :
    AudioPolicyConfig :=
  if SPEAKER_DRC_ENABLED_TAG = node.name then
    match cv.convertToBool node.value with
    | some speakerDrcEnabled => config.setSpeakerDrcEnabled speakerDrcEnabled
    | none => config
  else config

/-- `ConfigParsingUtils::loadGlobalConfig`; `primaryModule` is `none` for a
null pointer. -/
def loadGlobalConfig (cv : Converters) (root : cnode) (config : AudioPolicyConfig)
    (primaryModule : Option HwModule) : Option (Option HwModule × AudioPolicyConfig) :=
  match config_find root GLOBAL_CONFIG_TAG with
  | none => some (primaryModule, config)
  | some node =>
    let config := node.children.foldl (loadGlobalConfigNode cv) config
    loadModuleGlobalConfig cv root primaryModule config

/-- `ConfigParsingUtils::loadConfig`; `data` is what `load_file` returns, `none`
for `NULL`. -/
def loadConfig (cv : Converters) (data : Option String) (config : AudioPolicyConfig) :
    Option (status_t × AudioPolicyConfig) :=
  match data with
  | none => some (-ENODEV, config)
  | some data =>
    let root := cnode.mk "" "" (cv.config_load data)
    match loadHwModules cv root [] config with
    | none => none
    | some (hwModules, config) =>
      match loadGlobalConfig cv root config
          (hwModules.getModuleFromName AUDIO_HARDWARE_MODULE_ID_PRIMARY) with
      | none => none
      | some (primaryModule, config) =>
        let hwModules :=
          match primaryModule with
          | some m => hwModules.putModule AUDIO_HARDWARE_MODULE_ID_PRIMARY m
          | none => hwModules
        some (NO_ERROR, config.setHwModules hwModules)

/-! ## A concrete converter table -/

/-- A small device table in the shape of `DeviceConverter::mTable`. -/
def sampleDeviceType (s : String) : Option Nat :=
  if s = "AUDIO_DEVICE_OUT_SPEAKER" then some 0x2
  else if s = "AUDIO_DEVICE_OUT_REMOTE_SUBMIX" then some 0x8000
  else if s = "AUDIO_DEVICE_IN_BUILTIN_MIC" then some 0x80000004
  else if s = "AUDIO_DEVICE_IN_REMOTE_SUBMIX" then some 0x80000100
  else none

def sampleOutputFlag (s : String) : Nat :=
  if s = "AUDIO_OUTPUT_FLAG_DIRECT" then 0x1
  else if s = "AUDIO_OUTPUT_FLAG_PRIMARY" then 0x2
  else if s = "AUDIO_OUTPUT_FLAG_COMPRESS_OFFLOAD" then 0x10
  else 0

def sampleGainMode (s : String) : Nat :=
  if s = "AUDIO_GAIN_MODE_JOINT" then 0x1
  else if s = "AUDIO_GAIN_MODE_CHANNELS" then 0x2
  else 0

/-- A mask converter over a table: the union of the values of the tokens. -/
def sampleMask (table : String → Nat) (s : String) : Nat :=
  (strtokAll s).foldl (fun value tok => value ||| table tok) 0

/-- A collection converter that keeps one entry per recognised token. -/
def sampleCollection (s : String) : List Nat :=
  (strtokAll s).filterMap
    (fun tok => if tok = "44100" then some 44100 else if tok = "48000" then some 48000
      else if tok = "AUDIO_FORMAT_PCM_16_BIT" then some 1
      else if tok = "AUDIO_CHANNEL_OUT_STEREO" then some 3
      else if tok = "AUDIO_CHANNEL_IN_MONO" then some 16
      else none)

def sampleConverters : Converters :=
  { outputFlagMask := sampleMask sampleOutputFlag,
    inputFlagMask := fun _ => 0,
    gainModeMask := sampleMask sampleGainMode,
    inputChannel := fun s => if s = "AUDIO_CHANNEL_IN_MONO" then some 16 else none,
    outputChannel := fun s => if s = "AUDIO_CHANNEL_OUT_STEREO" then some 3 else none,
    deviceType := sampleDeviceType,
    samplingRates := sampleCollection,
    formats := sampleCollection,
    inputChannelMasks := sampleCollection,
    outputChannelMasks := sampleCollection,
    atoi := fun s => if s = "-8400" then -8400 else if s = "4000" then 4000
      else if s = "100" then 100 else 0,
    audio_is_input_device := fun t => decide (t = 0x80000004 ∨ t = 0x80000100),
    audio_is_output_device := fun t => decide (t = 0x2 ∨ t = 0x8000),
    convertToBool := fun s => if s = "true" then some true
      else if s = "false" then some false else none,
    halVersion := fun s => if s = "3.0" then 0x300 else 0,
    config_load := fun _ => [] }

/-- The aggregate before the load. -/
def emptyConfig : AudioPolicyConfig :=
  { mHwModules := [], mAvailableOutputDevices := [], mAvailableInputDevices := [],
    mDefaultOutputDevices := none, mSpeakerDrcEnabled := false }

/-! ## Sample trees -/

/-- A port with one gain already attached. -/
def samplePort : AudioPort :=
  { mName := "primary", useInputChannelMask := false, mSamplingRates := [48000],
    mFormats := [1], mChannelMasks := [3],
    mGains := [{ AudioGain.new 0 false with mode := 1 }] }

/-- A gain subtree with every field but the mode. -/
def sampleGainNoMode : cnode :=
  .mk "gain_1" "" [.mk "channel_mask" "AUDIO_CHANNEL_OUT_STEREO" [],
    .mk "min_value_mB" "-8400" [], .mk "max_value_mB" "4000" [],
    .mk "default_value_mB" "0" [], .mk "step_value_mB" "100" []]

/-- A declared set whose only device, a microphone, is tagged with the literal
name of the speaker type. -/
def sampleDeclaredClash : DeviceVector :=
  [{ DeviceDescriptor.new sampleConverters 0x80000004 with
     mTag := "AUDIO_DEVICE_OUT_SPEAKER" }]

/-- A declared set with one speaker tagged `Speaker`. -/
def sampleDeclaredSpeaker : DeviceVector :=
  [{ DeviceDescriptor.new sampleConverters 0x2 with mTag := "Speaker" }]

/-- A device subtree declaring a speaker. -/
def sampleSpeakerNode : cnode :=
  .mk "Speaker" "" [.mk "type" "AUDIO_DEVICE_OUT_SPEAKER" [],
    .mk "address" "bus0" [],
    .mk "gains" "" [.mk "gain_1" "" [.mk "mode" "AUDIO_GAIN_MODE_JOINT" [],
      .mk "min_value_mB" "-8400" [], .mk "max_value_mB" "4000" []]]]

/-- An output profile subtree with the four keys and a flags key; its devices
value names the tag `Speaker`. -/
def sampleOutputProfile : cnode :=
  .mk "primary" "" [.mk "sampling_rates" "44100|48000" [],
    .mk "channel_masks" "AUDIO_CHANNEL_OUT_STEREO" [],
    .mk "formats" "AUDIO_FORMAT_PCM_16_BIT" [],
    .mk "devices" "Speaker" [],
    .mk "flags" "AUDIO_OUTPUT_FLAG_PRIMARY" []]

/-- An output profile subtree without the formats key. -/
def sampleOutputProfileNoFormats : cnode :=
  .mk "primary" "" [.mk "sampling_rates" "44100|48000" [],
    .mk "channel_masks" "AUDIO_CHANNEL_OUT_STEREO" [],
    .mk "devices" "AUDIO_DEVICE_OUT_SPEAKER" []]

/-- A module that declares the speaker tagged `Speaker`. -/
def sampleModule : HwModule :=
  { HwModule.new "primary" with mDeclaredDevices := sampleDeclaredSpeaker }

/-- A module subtree whose outputs section comes before its devices section. -/
def samplePrimaryNode : cnode :=
  .mk "primary" "" [.mk "outputs" "" [sampleOutputProfile],
    .mk "devices" "" [sampleSpeakerNode]]

/-- A module subtree whose only profile lacks the formats key. -/
def sampleUsbNode : cnode :=
  .mk "usb" "" [.mk "outputs" "" [sampleOutputProfileNoFormats]]

/-- The hardware-modules section of the sample file. -/
def sampleModulesNode : cnode :=
  .mk "audio_hw_modules" "" [sampleUsbNode, samplePrimaryNode]

/-- The root of the sample file. -/
def sampleRoot : cnode :=
  .mk "" "" [sampleModulesNode]

/-- A module subtree that holds only a global-config section. -/
def sampleGlobalOnlyNode : cnode :=
  .mk "r_submix" "" [.mk "global_configuration" ""
    [.mk "attached_output_devices" "AUDIO_DEVICE_OUT_SPEAKER" [],
      .mk "default_output_device" "AUDIO_DEVICE_OUT_SPEAKER" [],
      .mk "attached_input_devices" "AUDIO_DEVICE_IN_BUILTIN_MIC" []]]

/-- A module subtree whose sections are present and empty. -/
def sampleEmptySectionsNode : cnode :=
  .mk "hdmi" "" [.mk "devices" "" [], .mk "outputs" "" [], .mk "inputs" "" []]

/-- A gains subtree whose first child has no mode. -/
def sampleGainsNode : cnode :=
  .mk "gains" "" [sampleGainNoMode,
    .mk "gain_2" "" [.mk "mode" "AUDIO_GAIN_MODE_JOINT" [], .mk "max_value_mB" "4000" []],
    .mk "gain_3" "" [.mk "mode" "AUDIO_GAIN_MODE_CHANNELS" []]]

/-- A port with no gain. -/
def sampleBarePort : AudioPort :=
  { mName := "primary", useInputChannelMask := false, mSamplingRates := [],
    mFormats := [], mChannelMasks := [], mGains := [] }

/-! ## The statuses of the entries -/

/-- The devices loop of `loadHwModule`, recording each `tmpStatus` in order
instead of folding it into `status`. -/
def loadHwModuleDevicesTrace (cv : Converters) (nodes : List cnode) (trace : List status_t)
    (devices : DeviceVector) : List status_t × DeviceVector :=
  nodes.foldl
    (fun st node =>
      let r := loadHwModuleDevice cv node st.2
      (st.1 ++ [r.1], r.2))
    (trace, devices)

/-- The outputs loop of `loadHwModule`, recording each `tmpStatus` in order. -/
def loadHwModuleOutputsTrace (cv : Converters) (nodes : List cnode) (trace : List status_t)
    (module : HwModule) : List status_t × HwModule :=
  nodes.foldl
    (fun st node =>
      let r := loadHwModuleOutput cv node st.2
      (st.1 ++ [r.1], r.2))
    (trace, module)

/-- The inputs loop of `loadHwModule`, recording each `tmpStatus` in order. -/
def loadHwModuleInputsTrace (cv : Converters) (nodes : List cnode) (trace : List status_t)
    (module : HwModule) : List status_t × HwModule :=
  nodes.foldl
    (fun st node =>
      let r := loadHwModuleInput cv node st.2
      (st.1 ++ [r.1], r.2))
    (trace, module)

/-- The three scans of `loadHwModule` with the statuses reported by the
entries recorded in scan order (devices, outputs, inputs). -/
def loadHwModuleTrace (cv : Converters) (root : cnode) (module : HwModule) :
    List status_t × HwModule :=
  let st : List status_t × HwModule := ([], module)
  let st : List status_t × HwModule :=
    match config_find root DEVICES_TAG with
    | some node =>
      let r := loadHwModuleDevicesTrace cv node.children st.1 []
      (r.1, st.2.setDeclaredDevices r.2)
    | none => st
  let st : List status_t × HwModule :=
    match config_find root OUTPUTS_TAG with
    | some node => loadHwModuleOutputsTrace cv node.children st.1 st.2
    | none => st
  match config_find root INPUTS_TAG with
  | some node => loadHwModuleInputsTrace cv node.children st.1 st.2
  | none => st

/-- A definite error: a status other than `NO_ERROR` and `NAME_NOT_FOUND`. -/
def isDefiniteError (s : status_t) : Bool :=
  decide (s ≠ NO_ERROR ∧ s ≠ NAME_NOT_FOUND)

/-- A module subtree in which a good device is followed by a device without a
type, and an incomplete profile is followed by a complete one. -/
def sampleMixedNode : cnode :=
  .mk "primary" "" [.mk "devices" "" [sampleSpeakerNode, .mk "Broken" "" [.mk "address" "x" []]],
    .mk "outputs" "" [sampleOutputProfileNoFormats, sampleOutputProfile]]

/-- A module subtree that builds, with a global configuration whose default
output device is not a device-type name. -/
def sampleBadDefaultNode : cnode :=
  .mk "primary" "" [.mk "global_configuration" ""
      [.mk "attached_output_devices" "Speaker" [],
        .mk "default_output_device" "Loudspeaker" []],
    .mk "devices" "" [sampleSpeakerNode],
    .mk "outputs" "" [sampleOutputProfile]]

/-- A module subtree whose only profile is incomplete, with a global
configuration. -/
def sampleFailingGlobalNode : cnode :=
  .mk "usb" "" [.mk "outputs" "" [sampleOutputProfileNoFormats],
    .mk "global_configuration" ""
      [.mk "attached_output_devices" "AUDIO_DEVICE_OUT_SPEAKER" [],
        .mk "default_output_device" "AUDIO_DEVICE_OUT_SPEAKER" [],
        .mk "attached_input_devices" "AUDIO_DEVICE_IN_BUILTIN_MIC" []]]

/-- A legacy file: only a global-config section at the root, no module. -/
def sampleLegacyRoot : cnode :=
  .mk "" "" [.mk "global_configuration" ""
    [.mk "attached_output_devices" "AUDIO_DEVICE_OUT_SPEAKER" [],
      .mk "default_output_device" "AUDIO_DEVICE_OUT_SPEAKER" [],
      .mk "attached_input_devices" "AUDIO_DEVICE_IN_BUILTIN_MIC" [],
      .mk "speaker_drc_enabled" "true" []]]

/-- A legacy file whose global-config section names only device tags. -/
def sampleLegacyTagsRoot : cnode :=
  .mk "" "" [.mk "global_configuration" ""
    [.mk "attached_output_devices" "Speaker|Earpiece" [],
      .mk "default_output_device" "Speaker" [],
      .mk "attached_input_devices" "Mic" [],
      .mk "speaker_drc_enabled" "true" []]]

/-- The sample converters with a tree provider that parses one legacy file: a
file-root global-config section holding only an HAL-version key. -/
def sampleHalLegacyConverters : Converters :=
  { sampleConverters with
    config_load := fun data =>
      if data = "global_configuration \x7b audio_hal_version 3.0 \x7d" then
        [.mk "global_configuration" "" [.mk "audio_hal_version" "3.0" []]]
      else [] }

/-- The sample converters with a device table that also lists the none
sentinel by name. -/
def sampleNoneConverters : Converters :=
  { sampleConverters with
    deviceType := fun s => if s = "AUDIO_DEVICE_NONE" then some 0 else sampleDeviceType s }

end android

/-! # Theorems -/

namespace android

/-! ## Output flags -/

theorem or_direct_and_direct (flag : Nat) :
    (flag ||| AUDIO_OUTPUT_FLAG_DIRECT) &&& AUDIO_OUTPUT_FLAG_DIRECT
      = AUDIO_OUTPUT_FLAG_DIRECT := by
  apply Nat.eq_of_testBit_eq
  intro i
  simp only [Nat.testBit_and, Nat.testBit_or, AUDIO_OUTPUT_FLAG_DIRECT]
  cases h : Nat.testBit 1 i <;> simp

/-- C1: for every output-flags string, when the mask decoded by the output-flag
converter has the compress-offload bit, the mask returned by
`parseOutputFlagNames` is that mask with the direct bit added, so it has the
direct bit and still every decoded bit. -/
theorem parseOutputFlagNames_offload_implies_direct (cv : Converters) (s : String)
    (h : OutputFlagConverter.maskFromString cv s &&& AUDIO_OUTPUT_FLAG_COMPRESS_OFFLOAD ≠ 0) :
    parseOutputFlagNames cv s &&& AUDIO_OUTPUT_FLAG_DIRECT = AUDIO_OUTPUT_FLAG_DIRECT ∧
      parseOutputFlagNames cv s
        = OutputFlagConverter.maskFromString cv s ||| AUDIO_OUTPUT_FLAG_DIRECT := by
  have hr : parseOutputFlagNames cv s
      = OutputFlagConverter.maskFromString cv s ||| AUDIO_OUTPUT_FLAG_DIRECT := by
    unfold parseOutputFlagNames
    simp only [if_pos h]
  exact ⟨by rw [hr]; exact or_direct_and_direct _, hr⟩

theorem parseOutputFlagNames_offload_implies_direct_witness :
    (OutputFlagConverter.maskFromString sampleConverters
        "AUDIO_OUTPUT_FLAG_PRIMARY|AUDIO_OUTPUT_FLAG_COMPRESS_OFFLOAD"
        &&& AUDIO_OUTPUT_FLAG_COMPRESS_OFFLOAD ≠ 0) ∧
      parseOutputFlagNames sampleConverters
        "AUDIO_OUTPUT_FLAG_PRIMARY|AUDIO_OUTPUT_FLAG_COMPRESS_OFFLOAD" = 0x13 :=
  ⟨by decide,
    (parseOutputFlagNames_offload_implies_direct sampleConverters
      "AUDIO_OUTPUT_FLAG_PRIMARY|AUDIO_OUTPUT_FLAG_COMPRESS_OFFLOAD" (by decide)).2.trans
      (by decide)⟩

/-! ## Gains -/

theorem loadAudioPortGainNode_mode_of_ne (cv : Converters) (u : Bool) (gain : AudioGain)
    (node : cnode) (h : node.name ≠ GAIN_MODE) :
    (loadAudioPortGainNode cv u gain node).mode = gain.mode := by
  unfold loadAudioPortGainNode
  rw [if_neg h]
  repeat' split
  all_goals rfl

theorem loadAudioPortGainNode_mode_of_eq (cv : Converters) (u : Bool) (gain : AudioGain)
    (node : cnode) (h : node.name = GAIN_MODE) :
    (loadAudioPortGainNode cv u gain node).mode
      = GainModeConverter.maskFromString cv node.value := by
  unfold loadAudioPortGainNode
  rw [if_pos h]

theorem foldl_gain_mode_of_ne (cv : Converters) (u : Bool) (nodes : List cnode) :
    ∀ gain : AudioGain, (∀ n ∈ nodes, n.name ≠ GAIN_MODE) →
      (nodes.foldl (loadAudioPortGainNode cv u) gain).mode = gain.mode := by
  induction nodes with
  | nil => intro gain _; rfl
  | cons n rest ih =>
    intro gain h
    rw [List.foldl_cons, ih _ (fun m hm => h m (List.mem_cons_of_mem _ hm))]
    exact loadAudioPortGainNode_mode_of_ne cv u gain n (h n (List.mem_cons_self _ _))

/-- C4: `loadAudioPortGain` leaves the port as it is when the mode of the gain
after the walk is 0, and otherwise appends that one gain at the end of the gain
sequence and changes nothing else. The mode after the walk is 0 when no child
is named `mode`, and is the decoded value of the last child named `mode` when
there is one, so it is 0 when that value decodes to 0. -/
theorem loadAudioPortGain_discards_empty_mode (cv : Converters) (root : cnode)
    (audioPort : AudioPort) (index : Int) :
    ((loadAudioPortGainWalk cv root audioPort index).mode = 0 →
        loadAudioPortGain cv root audioPort index = audioPort) ∧
      ((loadAudioPortGainWalk cv root audioPort index).mode ≠ 0 →
        loadAudioPortGain cv root audioPort index
          = { audioPort with
              mGains := audioPort.mGains ++ [loadAudioPortGainWalk cv root audioPort index] }) ∧
      ((∀ n ∈ root.children, n.name ≠ GAIN_MODE) →
        (loadAudioPortGainWalk cv root audioPort index).mode = 0) ∧
      (∀ (before after : List cnode) (node : cnode),
        root.children = before ++ node :: after → node.name = GAIN_MODE →
        (∀ n ∈ after, n.name ≠ GAIN_MODE) →
        (loadAudioPortGainWalk cv root audioPort index).mode
          = GainModeConverter.maskFromString cv node.value) := by
  refine ⟨?_, ?_, ?_, ?_⟩
  · intro h
    unfold loadAudioPortGain
    simp only [if_pos h]
  · intro h
    unfold loadAudioPortGain
    simp only [if_neg h]
  · intro h
    unfold loadAudioPortGainWalk
    rw [foldl_gain_mode_of_ne cv _ _ _ h]
    rfl
  · intro before after node hc hn ha
    unfold loadAudioPortGainWalk
    rw [hc, List.foldl_append, List.foldl_cons, foldl_gain_mode_of_ne cv _ _ _ ha]
    exact loadAudioPortGainNode_mode_of_eq cv _ _ node hn

theorem loadAudioPortGain_discards_empty_mode_witness :
    (∀ n ∈ sampleGainNoMode.children, n.name ≠ GAIN_MODE) ∧
      loadAudioPortGain sampleConverters sampleGainNoMode samplePort 1 = samplePort :=
  ⟨by decide,
    (loadAudioPortGain_discards_empty_mode sampleConverters sampleGainNoMode samplePort 1).1
      ((loadAudioPortGain_discards_empty_mode sampleConverters sampleGainNoMode
        samplePort 1).2.2.1 (by decide))⟩

/-! ## Tokens -/

theorem strtokScan_append_delim (l1 l2 : List Char) :
    ∀ cur : List Char,
      strtokScan cur (l1 ++ '|' :: l2) = strtokScan cur l1 ++ strtokScan [] l2 := by
  induction l1 with
  | nil =>
    intro cur
    by_cases hc : cur = [] <;> simp [strtokScan, hc]
  | cons c cs ih =>
    intro cur
    by_cases hd : c = '|'
    · by_cases hc : cur = [] <;> simp [strtokScan, hd, hc, ih]
    · simp [strtokScan, hd, ih]

theorem strtokScan_no_delim (t : List Char) (ht : '|' ∉ t) :
    ∀ cur : List Char,
      strtokScan cur t
        = if cur.reverse ++ t = [] then [] else [String.mk (cur.reverse ++ t)] := by
  induction t with
  | nil =>
    intro cur
    by_cases hc : cur = [] <;> simp [strtokScan, hc]
  | cons c cs ih =>
    intro cur
    have hc : c ≠ '|' := fun h => ht (h ▸ List.mem_cons_self _ _)
    have hcs : '|' ∉ cs := fun h => ht (List.mem_cons_of_mem _ h)
    simp [strtokScan, hc, ih hcs]

theorem strtokAll_append_delim (a b : String) :
    strtokAll (a ++ "|" ++ b) = strtokAll a ++ strtokAll b := by
  unfold strtokAll
  have h : (a ++ "|" ++ b).data = a.data ++ '|' :: b.data := by
    simp [String.data_append]
  rw [h, strtokScan_append_delim]

theorem strtokAll_delim : strtokAll "|" = [] := by decide

theorem strtokAll_empty : strtokAll "" = [] := by decide

theorem strtokAll_token (t : String) (ht : '|' ∉ t.data) (hne : t.length ≠ 0) :
    strtokAll t = [t] := by
  unfold strtokAll
  rw [strtokScan_no_delim _ ht]
  have h : t.data ≠ [] := fun h => hne (List.length_eq_zero.mpr h)
  simp [h]

theorem strtokAll_token_or_nil (t : String) (ht : '|' ∉ t.data) :
    strtokAll t = [t] ∨ (strtokAll t = [] ∧ t.length = 0) := by
  by_cases hne : t.length = 0
  · right
    refine ⟨?_, hne⟩
    unfold strtokAll
    rw [strtokScan_no_delim _ ht]
    have h : t.data = [] := List.length_eq_zero.mp hne
    rw [h]
    rfl
  · exact Or.inl (strtokAll_token t ht hne)

theorem loadDevicesFromTag_append_delim (cv : Converters) (a b : String)
    (devices declaredDevices : DeviceVector) :
    loadDevicesFromTag cv (a ++ "|" ++ b) devices declaredDevices
      = loadDevicesFromTag cv b (loadDevicesFromTag cv a devices declaredDevices)
          declaredDevices := by
  unfold loadDevicesFromTag
  rw [strtokAll_append_delim, List.foldl_append]

theorem loadDevicesFromTag_token (cv : Converters) (t : String) (ht : '|' ∉ t.data)
    (devices declaredDevices : DeviceVector) :
    loadDevicesFromTag cv t devices declaredDevices
      = loadDevicesFromTagToken cv declaredDevices devices t := by
  unfold loadDevicesFromTag
  rcases strtokAll_token_or_nil t ht with h | ⟨h, h0⟩
  · rw [h]; rfl
  · rw [h]
    unfold loadDevicesFromTagToken
    simp [h0]

theorem strtokAll_double_delim (a b : String) :
    strtokAll (a ++ "||" ++ b) = strtokAll a ++ strtokAll b := by
  unfold strtokAll
  have h : (a ++ "||" ++ b).data = a.data ++ '|' :: ([] ++ '|' :: b.data) := by
    simp [String.data_append]
  rw [h, strtokScan_append_delim, strtokScan_append_delim]
  simp [strtokScan]

theorem strtokAll_leading_delim (a : String) : strtokAll ("|" ++ a) = strtokAll a := by
  unfold strtokAll
  have h : ("|" ++ a).data = [] ++ '|' :: a.data := by
    simp [String.data_append]
  rw [h, strtokScan_append_delim]
  simp [strtokScan]

theorem strtokAll_trailing_delim (a : String) : strtokAll (a ++ "|") = strtokAll a := by
  unfold strtokAll
  have h : (a ++ "|").data = a.data ++ '|' :: [] := by
    simp [String.data_append]
  rw [h, strtokScan_append_delim]
  simp [strtokScan]

/-! ## Device lists -/

theorem devices_tag_ne :
    DEVICES_TAG ≠ SAMPLING_RATES_TAG ∧ DEVICES_TAG ≠ FORMATS_TAG ∧
      DEVICES_TAG ≠ CHANNELS_TAG := by decide

theorem loadDevicesFromTagToken_literal (cv : Converters) (tok : String) (type : Nat)
    (hne : tok.length ≠ 0) (hconv : DeviceConverter.fromString cv tok = some type)
    (declaredDevices devices : DeviceVector) :
    loadDevicesFromTagToken cv declaredDevices devices tok
      = devices ++ [{ DeviceDescriptor.new cv type with
          mAddress := if type = AUDIO_DEVICE_IN_REMOTE_SUBMIX ∨
            type = AUDIO_DEVICE_OUT_REMOTE_SUBMIX then "0" else "" }] := by
  unfold loadDevicesFromTagToken
  simp only [if_pos hne, hconv, DeviceVector.add]
  split <;> rfl

theorem loadDevicesFromTagToken_unknown (cv : Converters) (tok : String)
    (hconv : DeviceConverter.fromString cv tok = none) (declaredDevices : DeviceVector)
    (htag : declaredDevices.getDeviceFromTag tok = none) (devices : DeviceVector) :
    loadDevicesFromTagToken cv declaredDevices devices tok = devices := by
  unfold loadDevicesFromTagToken
  simp only [hconv, htag]
  split <;> rfl

theorem foldl_token_congr (cv : Converters) (declared declared2 : DeviceVector)
    (toks : List String) :
    ∀ devices : DeviceVector,
      (∀ t ∈ toks, DeviceConverter.fromString cv t = none →
        declared.getDeviceFromTag t = declared2.getDeviceFromTag t) →
      toks.foldl (loadDevicesFromTagToken cv declared) devices
        = toks.foldl (loadDevicesFromTagToken cv declared2) devices := by
  induction toks with
  | nil => intro devices _; rfl
  | cons t rest ih =>
    intro devices h
    have hstep : loadDevicesFromTagToken cv declared devices t
        = loadDevicesFromTagToken cv declared2 devices t := by
      unfold loadDevicesFromTagToken
      cases hc : DeviceConverter.fromString cv t with
      | some type => rfl
      | none => simp only [h t (List.mem_cons_self _ _) hc]
    rw [List.foldl_cons, List.foldl_cons, hstep]
    exact ih _ (fun u hu => h u (List.mem_cons_of_mem _ hu))

/-- C5: a token that the device-type converter accepts resolves to a newly
made endpoint of the converted type with no tag (address "0" for the two
remote-submix types, empty otherwise), whatever the declared set holds, alone
or anywhere in a device list; and the declared set matters to a resolution only
through the lookups of the tokens that the converter rejects. -/
theorem loadDevicesFromTag_literal_precedence (cv : Converters) (tok : String) (type : Nat)
    (hne : tok.length ≠ 0) (hd : '|' ∉ tok.data)
    (hconv : DeviceConverter.fromString cv tok = some type)
    (declaredDevices devices : DeviceVector) (before after : String) :
    ({ DeviceDescriptor.new cv type with
        mAddress := if type = AUDIO_DEVICE_IN_REMOTE_SUBMIX ∨
          type = AUDIO_DEVICE_OUT_REMOTE_SUBMIX then "0" else "" } : DeviceDescriptor).mTag = "" ∧
      loadDevicesFromTag cv tok devices declaredDevices
        = devices ++ [{ DeviceDescriptor.new cv type with
            mAddress := if type = AUDIO_DEVICE_IN_REMOTE_SUBMIX ∨
              type = AUDIO_DEVICE_OUT_REMOTE_SUBMIX then "0" else "" }] ∧
      loadDevicesFromTag cv (before ++ "|" ++ tok ++ "|" ++ after) devices declaredDevices
        = loadDevicesFromTag cv after
            (loadDevicesFromTag cv before devices declaredDevices
              ++ [{ DeviceDescriptor.new cv type with
                mAddress := if type = AUDIO_DEVICE_IN_REMOTE_SUBMIX ∨
                  type = AUDIO_DEVICE_OUT_REMOTE_SUBMIX then "0" else "" }])
            declaredDevices ∧
      (∀ (s : String) (declared2 : DeviceVector),
        (∀ t ∈ strtokAll s, DeviceConverter.fromString cv t = none →
          declaredDevices.getDeviceFromTag t = declared2.getDeviceFromTag t) →
        loadDevicesFromTag cv s devices declaredDevices
          = loadDevicesFromTag cv s devices declared2) := by
  refine ⟨rfl, ?_, ?_, ?_⟩
  · rw [loadDevicesFromTag_token cv tok hd]
    exact loadDevicesFromTagToken_literal cv tok type hne hconv _ _
  · rw [loadDevicesFromTag_append_delim, loadDevicesFromTag_append_delim,
      loadDevicesFromTag_token cv tok hd]
    rw [loadDevicesFromTagToken_literal cv tok type hne hconv]
  · intro s declared2 h
    exact foldl_token_congr cv declaredDevices declared2 (strtokAll s) devices h

theorem loadDevicesFromTag_literal_precedence_witness :
    sampleDeclaredClash.getDeviceFromTag "AUDIO_DEVICE_OUT_SPEAKER"
        = some { DeviceDescriptor.new sampleConverters 0x80000004 with
            mTag := "AUDIO_DEVICE_OUT_SPEAKER" } ∧
      loadDevicesFromTag sampleConverters "AUDIO_DEVICE_OUT_SPEAKER" [] sampleDeclaredClash
        = [DeviceDescriptor.new sampleConverters 0x2] :=
  ⟨by decide,
    (loadDevicesFromTag_literal_precedence sampleConverters "AUDIO_DEVICE_OUT_SPEAKER" 0x2
      (by decide) (by decide) (by decide) sampleDeclaredClash [] "" "").2.1.trans (by decide)⟩

theorem loadDevicesFromTag_drop_unknown (cv : Converters) (tok : String) (hd : '|' ∉ tok.data)
    (hconv : DeviceConverter.fromString cv tok = none) (declaredDevices : DeviceVector)
    (htag : declaredDevices.getDeviceFromTag tok = none) (devices : DeviceVector)
    (before after : String) :
    loadDevicesFromTag cv (before ++ "|" ++ tok ++ "|" ++ after) devices declaredDevices
      = loadDevicesFromTag cv (before ++ "|" ++ after) devices declaredDevices := by
  rw [loadDevicesFromTag_append_delim, loadDevicesFromTag_append_delim,
    loadDevicesFromTag_append_delim, loadDevicesFromTag_token cv tok hd,
    loadDevicesFromTagToken_unknown cv tok hconv declaredDevices htag]

/-- C6: a token that the device-type converter rejects and that is not the tag
of a declared device contributes no entry: alone it leaves the list as it was,
and inside a device list the resolved entries are those of the list without
that token. The resolver has no failure result: an input or output profile
whose devices value holds the token is built, accepted or rejected, exactly as
with the token removed, and so is an attached-devices list of a global
configuration. -/
theorem loadDevicesFromTag_unknown_token_dropped (cv : Converters) (tok : String)
    (hd : '|' ∉ tok.data) (hconv : DeviceConverter.fromString cv tok = none)
    (declaredDevices : DeviceVector)
    (htag : declaredDevices.getDeviceFromTag tok = none) (before after : String) :
    (∀ devices : DeviceVector,
        loadDevicesFromTag cv tok devices declaredDevices = devices) ∧
      (∀ devices : DeviceVector,
        loadDevicesFromTag cv (before ++ "|" ++ tok ++ "|" ++ after) devices declaredDevices
          = loadDevicesFromTag cv (before ++ "|" ++ after) devices declaredDevices) ∧
      (∀ (name value : String) (cs1 cs2 sub : List cnode) (module : HwModule),
        module.mDeclaredDevices = declaredDevices →
        loadHwModuleOutput cv
            (.mk name value
              (cs1 ++ .mk DEVICES_TAG (before ++ "|" ++ tok ++ "|" ++ after) sub :: cs2)) module
          = loadHwModuleOutput cv
            (.mk name value (cs1 ++ .mk DEVICES_TAG (before ++ "|" ++ after) sub :: cs2)) module ∧
        loadHwModuleInput cv
            (.mk name value
              (cs1 ++ .mk DEVICES_TAG (before ++ "|" ++ tok ++ "|" ++ after) sub :: cs2)) module
          = loadHwModuleInput cv
            (.mk name value
              (cs1 ++ .mk DEVICES_TAG (before ++ "|" ++ after) sub :: cs2)) module) ∧
      (∀ (st : Option HwModule × AudioPolicyConfig) (sub : List cnode),
        loadModuleGlobalConfigNode cv declaredDevices st
            (.mk ATTACHED_OUTPUT_DEVICES_TAG (before ++ "|" ++ tok ++ "|" ++ after) sub)
          = loadModuleGlobalConfigNode cv declaredDevices st
            (.mk ATTACHED_OUTPUT_DEVICES_TAG (before ++ "|" ++ after) sub) ∧
        loadModuleGlobalConfigNode cv declaredDevices st
            (.mk ATTACHED_INPUT_DEVICES_TAG (before ++ "|" ++ tok ++ "|" ++ after) sub)
          = loadModuleGlobalConfigNode cv declaredDevices st
            (.mk ATTACHED_INPUT_DEVICES_TAG (before ++ "|" ++ after) sub)) := by
  refine ⟨?_, ?_, ?_, ?_⟩
  · intro devices
    rw [loadDevicesFromTag_token cv tok hd]
    exact loadDevicesFromTagToken_unknown cv tok hconv declaredDevices htag devices
  · intro devices
    exact loadDevicesFromTag_drop_unknown cv tok hd hconv declaredDevices htag devices
      before after
  · intro name value cs1 cs2 sub module hm
    have hdrop := loadDevicesFromTag_drop_unknown cv tok hd hconv declaredDevices htag []
      before after
    constructor
    · have hstep : ∀ profile : IOProfile,
          loadHwModuleOutputNode cv module profile
              (.mk DEVICES_TAG (before ++ "|" ++ tok ++ "|" ++ after) sub)
            = loadHwModuleOutputNode cv module profile
              (.mk DEVICES_TAG (before ++ "|" ++ after) sub) := by
        intro profile
        unfold loadHwModuleOutputNode
        simp only [cnode.name, cnode.value, hm, hdrop, if_neg devices_tag_ne.1,
          if_neg devices_tag_ne.2.1, if_neg devices_tag_ne.2.2, if_true]
      unfold loadHwModuleOutput loadHwModuleOutputWalk
      simp only [cnode.children, cnode.name, List.foldl_append, List.foldl_cons, hstep]
    · have hstep : ∀ profile : IOProfile,
          loadHwModuleInputNode cv module profile
              (.mk DEVICES_TAG (before ++ "|" ++ tok ++ "|" ++ after) sub)
            = loadHwModuleInputNode cv module profile
              (.mk DEVICES_TAG (before ++ "|" ++ after) sub) := by
        intro profile
        unfold loadHwModuleInputNode
        simp only [cnode.name, cnode.value, hm, hdrop, if_neg devices_tag_ne.1,
          if_neg devices_tag_ne.2.1, if_neg devices_tag_ne.2.2, if_true]
      unfold loadHwModuleInput loadHwModuleInputWalk
      simp only [cnode.children, cnode.name, List.foldl_append, List.foldl_cons, hstep]
  · intro st sub
    have hdrop := loadDevicesFromTag_drop_unknown cv tok hd hconv declaredDevices htag []
      before after
    have t1 : ¬ ATTACHED_OUTPUT_DEVICES_TAG = ATTACHED_INPUT_DEVICES_TAG := by decide
    have t2 : ¬ DEFAULT_OUTPUT_DEVICE_TAG = ATTACHED_INPUT_DEVICES_TAG := by decide
    constructor
    · unfold loadModuleGlobalConfigNode
      simp only [cnode.name, cnode.value, hdrop, if_true]
    · unfold loadModuleGlobalConfigNode
      simp only [cnode.name, cnode.value, hdrop, if_neg t1, if_neg t2, if_true]

theorem loadDevicesFromTag_unknown_token_dropped_witness :
    loadDevicesFromTag sampleConverters "AUDIO_DEVICE_OUT_SPEAKER|Earpiece|Speaker" []
        sampleDeclaredSpeaker
      = loadDevicesFromTag sampleConverters "AUDIO_DEVICE_OUT_SPEAKER|Speaker" []
        sampleDeclaredSpeaker ∧
      (loadDevicesFromTag sampleConverters "AUDIO_DEVICE_OUT_SPEAKER|Earpiece|Speaker" []
        sampleDeclaredSpeaker).length = 2 :=
  ⟨(loadDevicesFromTag_unknown_token_dropped sampleConverters "Earpiece" (by decide)
      (by decide) sampleDeclaredSpeaker (by decide) "AUDIO_DEVICE_OUT_SPEAKER" "Speaker").2.1 [],
    by decide⟩

/-- C7: empty tokens have no effect on `loadDevicesFromTag`. A doubled, a
leading or a trailing delimiter gives the entries of the string without it; and
for two tokens A and B, "A||B" gives what resolving A and then B gives, which
is exactly two entries when each of A and B is accepted by the converter or is
the tag of a declared device. -/
theorem loadDevicesFromTag_empty_tokens (cv : Converters)
    (devices declaredDevices : DeviceVector) (a b : String) :
    loadDevicesFromTag cv (a ++ "||" ++ b) devices declaredDevices
        = loadDevicesFromTag cv (a ++ "|" ++ b) devices declaredDevices ∧
      loadDevicesFromTag cv ("|" ++ a) devices declaredDevices
        = loadDevicesFromTag cv a devices declaredDevices ∧
      loadDevicesFromTag cv (a ++ "|") devices declaredDevices
        = loadDevicesFromTag cv a devices declaredDevices ∧
      ('|' ∉ a.data → '|' ∉ b.data →
        loadDevicesFromTag cv (a ++ "||" ++ b) devices declaredDevices
          = loadDevicesFromTagToken cv declaredDevices
              (loadDevicesFromTagToken cv declaredDevices devices a) b) ∧
      ('|' ∉ a.data → '|' ∉ b.data → a.length ≠ 0 → b.length ≠ 0 →
        ((DeviceConverter.fromString cv a).isSome = true ∨
          (declaredDevices.getDeviceFromTag a).isSome = true) →
        ((DeviceConverter.fromString cv b).isSome = true ∨
          (declaredDevices.getDeviceFromTag b).isSome = true) →
        (loadDevicesFromTag cv (a ++ "||" ++ b) devices declaredDevices).length
          = devices.length + 2) := by
  have h2 : loadDevicesFromTag cv (a ++ "||" ++ b) devices declaredDevices
      = loadDevicesFromTag cv (a ++ "|" ++ b) devices declaredDevices := by
    unfold loadDevicesFromTag
    rw [strtokAll_double_delim, strtokAll_append_delim]
  have hlen : ∀ (ds : DeviceVector) (t : String), t.length ≠ 0 →
      ((DeviceConverter.fromString cv t).isSome = true ∨
        (declaredDevices.getDeviceFromTag t).isSome = true) →
      (loadDevicesFromTagToken cv declaredDevices ds t).length = ds.length + 1 := by
    intro ds t ht hres
    unfold loadDevicesFromTagToken
    rw [if_pos ht]
    cases hc : DeviceConverter.fromString cv t with
    | some type => simp [DeviceVector.add]
    | none =>
      rw [hc] at hres
      cases hg : declaredDevices.getDeviceFromTag t with
      | some d => simp [DeviceVector.add]
      | none => rw [hg] at hres; simp at hres
  refine ⟨h2, ?_, ?_, ?_, ?_⟩
  · unfold loadDevicesFromTag
    rw [strtokAll_leading_delim]
  · unfold loadDevicesFromTag
    rw [strtokAll_trailing_delim]
  · intro ha hb
    rw [h2, loadDevicesFromTag_append_delim, loadDevicesFromTag_token cv a ha,
      loadDevicesFromTag_token cv b hb]
  · intro ha hb hane hbne hra hrb
    rw [h2, loadDevicesFromTag_append_delim, loadDevicesFromTag_token cv a ha,
      loadDevicesFromTag_token cv b hb, hlen _ b hbne hrb, hlen _ a hane hra]

theorem loadDevicesFromTag_empty_tokens_witness :
    loadDevicesFromTag sampleConverters "AUDIO_DEVICE_OUT_SPEAKER||Speaker" []
        sampleDeclaredSpeaker
      = [DeviceDescriptor.new sampleConverters 0x2,
          { DeviceDescriptor.new sampleConverters 0x2 with mTag := "Speaker" }] :=
  ((loadDevicesFromTag_empty_tokens sampleConverters [] sampleDeclaredSpeaker
    "AUDIO_DEVICE_OUT_SPEAKER" "Speaker").2.2.2.1 (by decide) (by decide)).trans (by decide)

/-! ## Declared devices -/

theorem loadHwModuleDeviceType_no_type (cv : Converters) (nodes : List cnode)
    (h : ∀ n ∈ nodes, n.name ≠ APM_DEVICE_TYPE) :
    loadHwModuleDeviceType cv nodes = AUDIO_DEVICE_NONE := by
  induction nodes with
  | nil => rfl
  | cons n rest ih =>
    unfold loadHwModuleDeviceType
    rw [if_neg (h n (List.mem_cons_self _ _))]
    exact ih (fun m hm => h m (List.mem_cons_of_mem _ hm))

theorem loadHwModuleDeviceType_first (cv : Converters) (before after : List cnode)
    (node : cnode) (hb : ∀ n ∈ before, n.name ≠ APM_DEVICE_TYPE)
    (hn : node.name = APM_DEVICE_TYPE) :
    loadHwModuleDeviceType cv (before ++ node :: after)
      = (DeviceConverter.fromString cv node.value).getD AUDIO_DEVICE_NONE := by
  induction before with
  | nil =>
    simp only [List.nil_append]
    unfold loadHwModuleDeviceType
    rw [if_pos hn]
    cases DeviceConverter.fromString cv node.value <;> rfl
  | cons n rest ih =>
    simp only [List.cons_append]
    unfold loadHwModuleDeviceType
    rw [if_neg (hb n (List.mem_cons_self _ _))]
    exact ih (fun m hm => hb m (List.mem_cons_of_mem _ hm))

theorem loadDeviceDescriptorGains_tag_type (cv : Converters) (node : cnode)
    (d : DeviceDescriptor) :
    (loadDeviceDescriptorGains cv node d).mTag = d.mTag ∧
      (loadDeviceDescriptorGains cv node d).mDeviceType = d.mDeviceType := by
  unfold loadDeviceDescriptorGains
  dsimp only
  split <;> exact ⟨rfl, rfl⟩

theorem loadHwModuleDeviceNode_tag_type (cv : Converters) (type : Nat) (d : DeviceDescriptor)
    (node : cnode) :
    (loadHwModuleDeviceNode cv type d node).mTag = d.mTag ∧
      (loadHwModuleDeviceNode cv type d node).mDeviceType = d.mDeviceType := by
  unfold loadHwModuleDeviceNode
  split
  · exact ⟨rfl, rfl⟩
  · split
    · split <;> exact ⟨rfl, rfl⟩
    · split
      · exact loadDeviceDescriptorGains_tag_type cv node d
      · exact ⟨rfl, rfl⟩

theorem foldl_deviceNode_tag_type (cv : Converters) (type : Nat) (nodes : List cnode) :
    ∀ d : DeviceDescriptor,
      (nodes.foldl (loadHwModuleDeviceNode cv type) d).mTag = d.mTag ∧
        (nodes.foldl (loadHwModuleDeviceNode cv type) d).mDeviceType = d.mDeviceType := by
  induction nodes with
  | nil => intro d; exact ⟨rfl, rfl⟩
  | cons n rest ih =>
    intro d
    rw [List.foldl_cons]
    have h1 := ih (loadHwModuleDeviceNode cv type d n)
    have h2 := loadHwModuleDeviceNode_tag_type cv type d n
    exact ⟨h1.1.trans h2.1, h1.2.trans h2.2⟩

theorem loadHwModuleDevice_of_type (cv : Converters) (root : cnode) (devices : DeviceVector) :
    ((loadHwModuleDeviceType cv root.children = AUDIO_DEVICE_NONE ∨
        (cv.audio_is_input_device (loadHwModuleDeviceType cv root.children) = false ∧
          cv.audio_is_output_device (loadHwModuleDeviceType cv root.children) = false)) →
      loadHwModuleDevice cv root devices = (BAD_VALUE, devices)) ∧
    (¬ (loadHwModuleDeviceType cv root.children = AUDIO_DEVICE_NONE ∨
        (cv.audio_is_input_device (loadHwModuleDeviceType cv root.children) = false ∧
          cv.audio_is_output_device (loadHwModuleDeviceType cv root.children) = false)) →
      ∃ d : DeviceDescriptor, loadHwModuleDevice cv root devices = (NO_ERROR, devices ++ [d]) ∧
        d.mTag = root.name ∧ d.mDeviceType = loadHwModuleDeviceType cv root.children) := by
  constructor
  · intro h
    unfold loadHwModuleDevice
    simp only [if_pos h]
  · intro h
    refine ⟨root.children.foldl
      (loadHwModuleDeviceNode cv (loadHwModuleDeviceType cv root.children))
      { DeviceDescriptor.new cv (loadHwModuleDeviceType cv root.children) with
        mTag := root.name }, ?_, ?_⟩
    · unfold loadHwModuleDevice
      simp only [if_neg h, DeviceVector.add]
    · exact foldl_deviceNode_tag_type cv _ root.children _

/-- C9: `loadHwModuleDevice` returns `BAD_VALUE` and leaves the collection as
it was when the subtree has no child named `type`, or when the value of its
first such child is rejected by the device-type converter or converts to a
value that is the none sentinel or is neither an input nor an output device
type. Otherwise it returns `NO_ERROR` and the collection is the old one
followed by exactly one endpoint, whose tag is the name of the subtree and
whose type is the converted type. -/
theorem loadHwModuleDevice_status (cv : Converters) (root : cnode) (devices : DeviceVector) :
    ((∀ n ∈ root.children, n.name ≠ APM_DEVICE_TYPE) →
        loadHwModuleDevice cv root devices = (BAD_VALUE, devices)) ∧
      (∀ (before after : List cnode) (node : cnode),
        root.children = before ++ node :: after →
        (∀ n ∈ before, n.name ≠ APM_DEVICE_TYPE) → node.name = APM_DEVICE_TYPE →
        (DeviceConverter.fromString cv node.value = none →
          loadHwModuleDevice cv root devices = (BAD_VALUE, devices)) ∧
        (∀ type : Nat, DeviceConverter.fromString cv node.value = some type →
          ((type = AUDIO_DEVICE_NONE ∨
              (cv.audio_is_input_device type = false ∧
                cv.audio_is_output_device type = false)) →
            loadHwModuleDevice cv root devices = (BAD_VALUE, devices)) ∧
          (type ≠ AUDIO_DEVICE_NONE →
            (cv.audio_is_input_device type = true ∨ cv.audio_is_output_device type = true) →
            ∃ d : DeviceDescriptor,
              loadHwModuleDevice cv root devices = (NO_ERROR, devices ++ [d]) ∧
                d.mTag = root.name ∧ d.mDeviceType = type))) := by
  have key := loadHwModuleDevice_of_type cv root devices
  constructor
  · intro h
    exact key.1 (Or.inl (loadHwModuleDeviceType_no_type cv _ h))
  · intro before after node hc hb hn
    have ht := loadHwModuleDeviceType_first cv before after node hb hn
    rw [← hc] at ht
    constructor
    · intro hnone
      rw [hnone] at ht
      exact key.1 (Or.inl ht)
    · intro type hsome
      rw [hsome] at ht
      simp only [Option.getD_some] at ht
      rw [ht] at key
      constructor
      · intro hbad
        exact key.1 hbad
      · intro hne hvalid
        apply key.2
        intro hbad
        rcases hbad with h0 | ⟨hi, ho⟩
        · exact hne h0
        · rcases hvalid with h | h
          · rw [hi] at h; exact Bool.noConfusion h
          · rw [ho] at h; exact Bool.noConfusion h

theorem loadHwModuleDevice_status_witness :
    (∃ d : DeviceDescriptor,
      loadHwModuleDevice sampleConverters sampleSpeakerNode [] = (NO_ERROR, [] ++ [d]) ∧
        d.mTag = sampleSpeakerNode.name ∧ d.mDeviceType = 0x2) ∧
      loadHwModuleDevice sampleConverters (.mk "Speaker" "" [.mk "address" "bus0" []]) []
        = (BAD_VALUE, []) :=
  ⟨((loadHwModuleDevice_status sampleConverters sampleSpeakerNode []).2 []
      [.mk "address" "bus0" [],
        .mk "gains" "" [.mk "gain_1" "" [.mk "mode" "AUDIO_GAIN_MODE_JOINT" [],
          .mk "min_value_mB" "-8400" [], .mk "max_value_mB" "4000" []]]]
      (.mk "type" "AUDIO_DEVICE_OUT_SPEAKER" []) rfl (by decide) (by decide)).2 0x2
      (by decide) |>.2 (by decide) (by decide),
    (loadHwModuleDevice_status sampleConverters (.mk "Speaker" "" [.mk "address" "bus0" []])
      []).1 (by decide)⟩

/-! ## Profiles -/

theorem foldl_keep {α β γ : Type} (f : α → β → α) (g : α → γ) (P : β → Prop)
    (hkeep : ∀ a b, ¬ P b → g (f a b) = g a) (l : List β) :
    ∀ a : α, (∀ b ∈ l, ¬ P b) → g (l.foldl f a) = g a := by
  induction l with
  | nil => intro a _; rfl
  | cons b rest ih =>
    intro a h
    rw [List.foldl_cons, ih _ (fun c hc => h c (List.mem_cons_of_mem _ hc))]
    exact hkeep a b (h b (List.mem_cons_self _ _))

theorem foldl_last_set {α β γ : Type} (f : α → β → α) (g : α → γ) (P : β → Prop)
    (v : β → γ) (hset : ∀ a b, P b → g (f a b) = v b)
    (hkeep : ∀ a b, ¬ P b → g (f a b) = g a) (l : List β) :
    ∀ a : α, (∃ b ∈ l, P b) → ∃ b ∈ l, P b ∧ g (l.foldl f a) = v b := by
  induction l with
  | nil =>
    intro a h
    obtain ⟨b, hb, _⟩ := h
    cases hb
  | cons b rest ih =>
    intro a h
    rw [List.foldl_cons]
    by_cases hr : ∃ c ∈ rest, P c
    · obtain ⟨c, hc, hP, hg⟩ := ih (f a b) hr
      exact ⟨c, List.mem_cons_of_mem _ hc, hP, hg⟩
    · have hall : ∀ c ∈ rest, ¬ P c := fun c hc hP => hr ⟨c, hc, hP⟩
      have hPb : P b := by
        obtain ⟨c, hc, hP⟩ := h
        rcases List.mem_cons.mp hc with h1 | h1
        · exact h1 ▸ hP
        · exact absurd hP (hall c h1)
      refine ⟨b, List.mem_cons_self _ _, hPb, ?_⟩
      rw [foldl_keep f g P hkeep rest _ hall]
      exact hset a b hPb

theorem loadAudioPortGain_frame (cv : Converters) (node : cnode) (p : AudioPort)
    (index : Int) :
    (loadAudioPortGain cv node p index).mSamplingRates = p.mSamplingRates ∧
      (loadAudioPortGain cv node p index).mFormats = p.mFormats ∧
      (loadAudioPortGain cv node p index).mChannelMasks = p.mChannelMasks ∧
      (loadAudioPortGain cv node p index).mName = p.mName ∧
      (loadAudioPortGain cv node p index).useInputChannelMask = p.useInputChannelMask := by
  unfold loadAudioPortGain
  dsimp only
  split <;> exact ⟨rfl, rfl, rfl, rfl, rfl⟩

theorem loadAudioPortGainsFrom_frame (cv : Converters) (nodes : List cnode) :
    ∀ (p : AudioPort) (index : Int),
      (loadAudioPortGainsFrom cv nodes p index).1.mSamplingRates = p.mSamplingRates ∧
        (loadAudioPortGainsFrom cv nodes p index).1.mFormats = p.mFormats ∧
        (loadAudioPortGainsFrom cv nodes p index).1.mChannelMasks = p.mChannelMasks ∧
        (loadAudioPortGainsFrom cv nodes p index).1.mName = p.mName ∧
        (loadAudioPortGainsFrom cv nodes p index).1.useInputChannelMask
          = p.useInputChannelMask := by
  induction nodes with
  | nil => intro p index; exact ⟨rfl, rfl, rfl, rfl, rfl⟩
  | cons n rest ih =>
    intro p index
    have h1 := ih (loadAudioPortGain cv n p index) (index + 1)
    have h2 := loadAudioPortGain_frame cv n p index
    unfold loadAudioPortGainsFrom at h1 ⊢
    rw [List.foldl_cons]
    exact ⟨h1.1.trans h2.1, h1.2.1.trans h2.2.1, h1.2.2.1.trans h2.2.2.1,
      h1.2.2.2.1.trans h2.2.2.2.1, h1.2.2.2.2.trans h2.2.2.2.2⟩

theorem loadAudioPortGains_frame (cv : Converters) (node : cnode) (p : AudioPort) :
    (loadAudioPortGains cv node p).mSamplingRates = p.mSamplingRates ∧
      (loadAudioPortGains cv node p).mFormats = p.mFormats ∧
      (loadAudioPortGains cv node p).mChannelMasks = p.mChannelMasks ∧
      (loadAudioPortGains cv node p).mName = p.mName ∧
      (loadAudioPortGains cv node p).useInputChannelMask = p.useInputChannelMask :=
  loadAudioPortGainsFrom_frame cv node.children p 0

theorem profile_tags_ne :
    FORMATS_TAG ≠ SAMPLING_RATES_TAG ∧ CHANNELS_TAG ≠ SAMPLING_RATES_TAG ∧
      CHANNELS_TAG ≠ FORMATS_TAG ∧ DEVICES_TAG ≠ SAMPLING_RATES_TAG ∧
      DEVICES_TAG ≠ FORMATS_TAG ∧ DEVICES_TAG ≠ CHANNELS_TAG := by decide

theorem loadHwModuleOutputNode_keep (cv : Converters) (module : HwModule) (p : IOProfile)
    (node : cnode) :
    (¬ node.name = DEVICES_TAG →
        (loadHwModuleOutputNode cv module p node).mSupportedDevices = p.mSupportedDevices) ∧
      (¬ node.name = CHANNELS_TAG →
        (loadHwModuleOutputNode cv module p node).mChannelMasks = p.mChannelMasks) ∧
      (¬ node.name = SAMPLING_RATES_TAG →
        (loadHwModuleOutputNode cv module p node).mSamplingRates = p.mSamplingRates) ∧
      (¬ node.name = FORMATS_TAG →
        (loadHwModuleOutputNode cv module p node).mFormats = p.mFormats) := by
  have hg := loadAudioPortGains_frame cv node p.toAudioPort
  unfold loadHwModuleOutputNode
  refine ⟨fun h => ?_, fun h => ?_, fun h => ?_, fun h => ?_⟩ <;> split_ifs <;>
    first
      | rfl
      | exact hg.1
      | exact hg.2.1
      | exact hg.2.2.1

theorem loadHwModuleInputNode_keep (cv : Converters) (module : HwModule) (p : IOProfile)
    (node : cnode) :
    (¬ node.name = DEVICES_TAG →
        (loadHwModuleInputNode cv module p node).mSupportedDevices = p.mSupportedDevices) ∧
      (¬ node.name = CHANNELS_TAG →
        (loadHwModuleInputNode cv module p node).mChannelMasks = p.mChannelMasks) ∧
      (¬ node.name = SAMPLING_RATES_TAG →
        (loadHwModuleInputNode cv module p node).mSamplingRates = p.mSamplingRates) ∧
      (¬ node.name = FORMATS_TAG →
        (loadHwModuleInputNode cv module p node).mFormats = p.mFormats) := by
  have hg := loadAudioPortGains_frame cv node p.toAudioPort
  unfold loadHwModuleInputNode
  refine ⟨fun h => ?_, fun h => ?_, fun h => ?_, fun h => ?_⟩ <;> split_ifs <;>
    first
      | rfl
      | exact hg.1
      | exact hg.2.1
      | exact hg.2.2.1

theorem profileComplete_iff (p : IOProfile) :
    profileComplete p ↔
      p.mSupportedDevices ≠ [] ∧ p.mChannelMasks ≠ [] ∧ p.mSamplingRates ≠ [] ∧
        p.mFormats ≠ [] := by
  unfold profileComplete
  simp [List.isEmpty_iff, List.length_eq_zero]

theorem loadHwModuleOutputWalk_missing_key (cv : Converters) (root : cnode) (module : HwModule)
    (h : (∀ n ∈ root.children, ¬ n.name = DEVICES_TAG) ∨
      (∀ n ∈ root.children, ¬ n.name = CHANNELS_TAG) ∨
      (∀ n ∈ root.children, ¬ n.name = SAMPLING_RATES_TAG) ∨
      (∀ n ∈ root.children, ¬ n.name = FORMATS_TAG)) :
    ¬ profileComplete (loadHwModuleOutputWalk cv root module) := by
  rw [profileComplete_iff]
  unfold loadHwModuleOutputWalk
  rintro ⟨h1, h2, h3, h4⟩
  rcases h with h | h | h | h
  · exact h1 (foldl_keep _ (fun p : IOProfile => p.mSupportedDevices) _
      (fun a b => (loadHwModuleOutputNode_keep cv module a b).1) _ _ h)
  · exact h2 (foldl_keep _ (fun p : IOProfile => p.mChannelMasks) _
      (fun a b => (loadHwModuleOutputNode_keep cv module a b).2.1) _ _ h)
  · exact h3 (foldl_keep _ (fun p : IOProfile => p.mSamplingRates) _
      (fun a b => (loadHwModuleOutputNode_keep cv module a b).2.2.1) _ _ h)
  · exact h4 (foldl_keep _ (fun p : IOProfile => p.mFormats) _
      (fun a b => (loadHwModuleOutputNode_keep cv module a b).2.2.2) _ _ h)

theorem loadHwModuleInputWalk_missing_key (cv : Converters) (root : cnode) (module : HwModule)
    (h : (∀ n ∈ root.children, ¬ n.name = DEVICES_TAG) ∨
      (∀ n ∈ root.children, ¬ n.name = CHANNELS_TAG) ∨
      (∀ n ∈ root.children, ¬ n.name = SAMPLING_RATES_TAG) ∨
      (∀ n ∈ root.children, ¬ n.name = FORMATS_TAG)) :
    ¬ profileComplete (loadHwModuleInputWalk cv root module) := by
  rw [profileComplete_iff]
  unfold loadHwModuleInputWalk
  rintro ⟨h1, h2, h3, h4⟩
  rcases h with h | h | h | h
  · exact h1 (foldl_keep _ (fun p : IOProfile => p.mSupportedDevices) _
      (fun a b => (loadHwModuleInputNode_keep cv module a b).1) _ _ h)
  · exact h2 (foldl_keep _ (fun p : IOProfile => p.mChannelMasks) _
      (fun a b => (loadHwModuleInputNode_keep cv module a b).2.1) _ _ h)
  · exact h3 (foldl_keep _ (fun p : IOProfile => p.mSamplingRates) _
      (fun a b => (loadHwModuleInputNode_keep cv module a b).2.2.1) _ _ h)
  · exact h4 (foldl_keep _ (fun p : IOProfile => p.mFormats) _
      (fun a b => (loadHwModuleInputNode_keep cv module a b).2.2.2) _ _ h)

theorem loadHwModuleOutput_complete (cv : Converters) (root : cnode) (module : HwModule)
    (h : profileComplete (loadHwModuleOutputWalk cv root module)) :
    loadHwModuleOutput cv root module
      = (NO_ERROR, { module with
          mOutputProfiles :=
            module.mOutputProfiles ++ [loadHwModuleOutputWalk cv root module] }) := by
  unfold loadHwModuleOutput
  simp only [if_pos h, HwModule.addOutputProfile]

theorem loadHwModuleOutput_incomplete (cv : Converters) (root : cnode) (module : HwModule)
    (h : ¬ profileComplete (loadHwModuleOutputWalk cv root module)) :
    loadHwModuleOutput cv root module = (BAD_VALUE, module) := by
  unfold loadHwModuleOutput
  simp only [if_neg h]

theorem loadHwModuleInput_complete (cv : Converters) (root : cnode) (module : HwModule)
    (h : profileComplete (loadHwModuleInputWalk cv root module)) :
    loadHwModuleInput cv root module
      = (NO_ERROR, { module with
          mInputProfiles :=
            module.mInputProfiles ++ [loadHwModuleInputWalk cv root module] }) := by
  unfold loadHwModuleInput
  simp only [if_pos h, HwModule.addInputProfile]

theorem loadHwModuleInput_incomplete (cv : Converters) (root : cnode) (module : HwModule)
    (h : ¬ profileComplete (loadHwModuleInputWalk cv root module)) :
    loadHwModuleInput cv root module = (BAD_VALUE, module) := by
  unfold loadHwModuleInput
  simp only [if_neg h]

/-- C2: `loadHwModuleOutput` and `loadHwModuleInput` hand the profile built by
the walk to the add-profile operation of the module, once, when its supported
devices, channel masks, sampling rates and formats are all non-empty: the
result is the status of that operation and the module with this one profile
appended to the output (input) sequence and nothing else changed. When one of
the four is empty they return `BAD_VALUE` and the module is the one they were
given. A subtree with no child named `devices`, or none named `channel_masks`,
or none named `sampling_rates`, or none named `formats`, is in the second
case. -/
theorem loadHwModuleProfile_attached_iff_complete (cv : Converters) (root : cnode)
    (module : HwModule) :
    (((loadHwModuleOutputWalk cv root module).mSupportedDevices ≠ [] ∧
          (loadHwModuleOutputWalk cv root module).mChannelMasks ≠ [] ∧
          (loadHwModuleOutputWalk cv root module).mSamplingRates ≠ [] ∧
          (loadHwModuleOutputWalk cv root module).mFormats ≠ [] →
        loadHwModuleOutput cv root module
            = module.addOutputProfile (loadHwModuleOutputWalk cv root module) ∧
          loadHwModuleOutput cv root module
            = (NO_ERROR, { module with
                mOutputProfiles :=
                  module.mOutputProfiles ++ [loadHwModuleOutputWalk cv root module] })) ∧
      (¬ ((loadHwModuleOutputWalk cv root module).mSupportedDevices ≠ [] ∧
          (loadHwModuleOutputWalk cv root module).mChannelMasks ≠ [] ∧
          (loadHwModuleOutputWalk cv root module).mSamplingRates ≠ [] ∧
          (loadHwModuleOutputWalk cv root module).mFormats ≠ []) →
        loadHwModuleOutput cv root module = (BAD_VALUE, module))) ∧
    (((loadHwModuleInputWalk cv root module).mSupportedDevices ≠ [] ∧
          (loadHwModuleInputWalk cv root module).mChannelMasks ≠ [] ∧
          (loadHwModuleInputWalk cv root module).mSamplingRates ≠ [] ∧
          (loadHwModuleInputWalk cv root module).mFormats ≠ [] →
        loadHwModuleInput cv root module
            = module.addInputProfile (loadHwModuleInputWalk cv root module) ∧
          loadHwModuleInput cv root module
            = (NO_ERROR, { module with
                mInputProfiles :=
                  module.mInputProfiles ++ [loadHwModuleInputWalk cv root module] })) ∧
      (¬ ((loadHwModuleInputWalk cv root module).mSupportedDevices ≠ [] ∧
          (loadHwModuleInputWalk cv root module).mChannelMasks ≠ [] ∧
          (loadHwModuleInputWalk cv root module).mSamplingRates ≠ [] ∧
          (loadHwModuleInputWalk cv root module).mFormats ≠ []) →
        loadHwModuleInput cv root module = (BAD_VALUE, module))) ∧
    (((∀ n ∈ root.children, ¬ n.name = DEVICES_TAG) ∨
        (∀ n ∈ root.children, ¬ n.name = CHANNELS_TAG) ∨
        (∀ n ∈ root.children, ¬ n.name = SAMPLING_RATES_TAG) ∨
        (∀ n ∈ root.children, ¬ n.name = FORMATS_TAG)) →
      loadHwModuleOutput cv root module = (BAD_VALUE, module) ∧
        loadHwModuleInput cv root module = (BAD_VALUE, module)) := by
  refine ⟨⟨?_, ?_⟩, ⟨?_, ?_⟩, ?_⟩
  · intro h
    have hc := (profileComplete_iff _).mpr h
    exact ⟨by unfold loadHwModuleOutput; simp only [if_pos hc],
      loadHwModuleOutput_complete cv root module hc⟩
  · intro h
    exact loadHwModuleOutput_incomplete cv root module
      (fun hc => h ((profileComplete_iff _).mp hc))
  · intro h
    have hc := (profileComplete_iff _).mpr h
    exact ⟨by unfold loadHwModuleInput; simp only [if_pos hc],
      loadHwModuleInput_complete cv root module hc⟩
  · intro h
    exact loadHwModuleInput_incomplete cv root module
      (fun hc => h ((profileComplete_iff _).mp hc))
  · intro h
    exact ⟨loadHwModuleOutput_incomplete cv root module
        (loadHwModuleOutputWalk_missing_key cv root module h),
      loadHwModuleInput_incomplete cv root module
        (loadHwModuleInputWalk_missing_key cv root module h)⟩

theorem loadHwModuleProfile_attached_iff_complete_witness :
    (∀ n ∈ sampleOutputProfileNoFormats.children, ¬ n.name = FORMATS_TAG) ∧
      loadHwModuleOutput sampleConverters sampleOutputProfileNoFormats sampleModule
        = (BAD_VALUE, sampleModule) ∧
      loadHwModuleOutput sampleConverters sampleOutputProfile sampleModule
        = (NO_ERROR, { sampleModule with
            mOutputProfiles :=
              [loadHwModuleOutputWalk sampleConverters sampleOutputProfile sampleModule] }) :=
  ⟨by decide,
    ((loadHwModuleProfile_attached_iff_complete sampleConverters sampleOutputProfileNoFormats
      sampleModule).2.2 (Or.inr (Or.inr (Or.inr (by decide))))).1,
    ((loadHwModuleProfile_attached_iff_complete sampleConverters sampleOutputProfile
      sampleModule).1.1 (by decide)).2⟩

theorem loadHwModuleOutputNode_set (cv : Converters) (module : HwModule) (p : IOProfile)
    (node : cnode) :
    (node.name = DEVICES_TAG →
        (loadHwModuleOutputNode cv module p node).mSupportedDevices
          = loadDevicesFromTag cv node.value [] module.mDeclaredDevices) ∧
      (node.name = CHANNELS_TAG →
        (loadHwModuleOutputNode cv module p node).mChannelMasks
          = cv.outputChannelMasks node.value) ∧
      (node.name = SAMPLING_RATES_TAG →
        (loadHwModuleOutputNode cv module p node).mSamplingRates
          = cv.samplingRates node.value) ∧
      (node.name = FORMATS_TAG →
        (loadHwModuleOutputNode cv module p node).mFormats = cv.formats node.value) := by
  obtain ⟨t1, t2, t3, t4, t5, t6⟩ := profile_tags_ne
  unfold loadHwModuleOutputNode
  refine ⟨fun h => ?_, fun h => ?_, fun h => ?_, fun h => ?_⟩ <;>
    simp only [h, if_neg t1, if_neg t2, if_neg t3, if_neg t4, if_neg t5, if_neg t6, if_true]

theorem loadHwModuleInputNode_set (cv : Converters) (module : HwModule) (p : IOProfile)
    (node : cnode) :
    (node.name = DEVICES_TAG →
        (loadHwModuleInputNode cv module p node).mSupportedDevices
          = loadDevicesFromTag cv node.value [] module.mDeclaredDevices) ∧
      (node.name = CHANNELS_TAG →
        (loadHwModuleInputNode cv module p node).mChannelMasks
          = cv.inputChannelMasks node.value) ∧
      (node.name = SAMPLING_RATES_TAG →
        (loadHwModuleInputNode cv module p node).mSamplingRates
          = cv.samplingRates node.value) ∧
      (node.name = FORMATS_TAG →
        (loadHwModuleInputNode cv module p node).mFormats = cv.formats node.value) := by
  obtain ⟨t1, t2, t3, t4, t5, t6⟩ := profile_tags_ne
  unfold loadHwModuleInputNode
  refine ⟨fun h => ?_, fun h => ?_, fun h => ?_, fun h => ?_⟩ <;>
    simp only [h, if_neg t1, if_neg t2, if_neg t3, if_neg t4, if_neg t5, if_neg t6, if_true]

theorem foldl_last_set_ne_nil {α β γ : Type} (f : α → β → α) (g : α → List γ) (P : β → Prop)
    (v : β → List γ) (hset : ∀ a b, P b → g (f a b) = v b)
    (hkeep : ∀ a b, ¬ P b → g (f a b) = g a) (l : List β) (a : α)
    (h : (∃ b ∈ l, P b) ∧ ∀ b ∈ l, P b → v b ≠ []) : g (l.foldl f a) ≠ [] := by
  obtain ⟨b, hb, hP, hg⟩ := foldl_last_set f g P v hset hkeep l a h.1
  rw [hg]
  exact h.2 b hb hP

theorem loadHwModuleOutputWalk_complete_of_decoded (cv : Converters) (root : cnode)
    (module : HwModule)
    (hdev : (∃ n ∈ root.children, n.name = DEVICES_TAG) ∧
      ∀ n ∈ root.children, n.name = DEVICES_TAG →
        loadDevicesFromTag cv n.value [] module.mDeclaredDevices ≠ [])
    (hrate : (∃ n ∈ root.children, n.name = SAMPLING_RATES_TAG) ∧
      ∀ n ∈ root.children, n.name = SAMPLING_RATES_TAG → cv.samplingRates n.value ≠ [])
    (hfmt : (∃ n ∈ root.children, n.name = FORMATS_TAG) ∧
      ∀ n ∈ root.children, n.name = FORMATS_TAG → cv.formats n.value ≠ [])
    (hchan : (∃ n ∈ root.children, n.name = CHANNELS_TAG) ∧
      ∀ n ∈ root.children, n.name = CHANNELS_TAG → cv.outputChannelMasks n.value ≠ []) :
    profileComplete (loadHwModuleOutputWalk cv root module) := by
  rw [profileComplete_iff]
  unfold loadHwModuleOutputWalk
  exact ⟨foldl_last_set_ne_nil _ (fun p : IOProfile => p.mSupportedDevices) _ _
      (fun a b => (loadHwModuleOutputNode_set cv module a b).1)
      (fun a b => (loadHwModuleOutputNode_keep cv module a b).1) _ _ hdev,
    foldl_last_set_ne_nil _ (fun p : IOProfile => p.mChannelMasks) _ _
      (fun a b => (loadHwModuleOutputNode_set cv module a b).2.1)
      (fun a b => (loadHwModuleOutputNode_keep cv module a b).2.1) _ _ hchan,
    foldl_last_set_ne_nil _ (fun p : IOProfile => p.mSamplingRates) _ _
      (fun a b => (loadHwModuleOutputNode_set cv module a b).2.2.1)
      (fun a b => (loadHwModuleOutputNode_keep cv module a b).2.2.1) _ _ hrate,
    foldl_last_set_ne_nil _ (fun p : IOProfile => p.mFormats) _ _
      (fun a b => (loadHwModuleOutputNode_set cv module a b).2.2.2)
      (fun a b => (loadHwModuleOutputNode_keep cv module a b).2.2.2) _ _ hfmt⟩

theorem loadHwModuleInputWalk_complete_of_decoded (cv : Converters) (root : cnode)
    (module : HwModule)
    (hdev : (∃ n ∈ root.children, n.name = DEVICES_TAG) ∧
      ∀ n ∈ root.children, n.name = DEVICES_TAG →
        loadDevicesFromTag cv n.value [] module.mDeclaredDevices ≠ [])
    (hrate : (∃ n ∈ root.children, n.name = SAMPLING_RATES_TAG) ∧
      ∀ n ∈ root.children, n.name = SAMPLING_RATES_TAG → cv.samplingRates n.value ≠ [])
    (hfmt : (∃ n ∈ root.children, n.name = FORMATS_TAG) ∧
      ∀ n ∈ root.children, n.name = FORMATS_TAG → cv.formats n.value ≠ [])
    (hchan : (∃ n ∈ root.children, n.name = CHANNELS_TAG) ∧
      ∀ n ∈ root.children, n.name = CHANNELS_TAG → cv.inputChannelMasks n.value ≠ []) :
    profileComplete (loadHwModuleInputWalk cv root module) := by
  rw [profileComplete_iff]
  unfold loadHwModuleInputWalk
  exact ⟨foldl_last_set_ne_nil _ (fun p : IOProfile => p.mSupportedDevices) _ _
      (fun a b => (loadHwModuleInputNode_set cv module a b).1)
      (fun a b => (loadHwModuleInputNode_keep cv module a b).1) _ _ hdev,
    foldl_last_set_ne_nil _ (fun p : IOProfile => p.mChannelMasks) _ _
      (fun a b => (loadHwModuleInputNode_set cv module a b).2.1)
      (fun a b => (loadHwModuleInputNode_keep cv module a b).2.1) _ _ hchan,
    foldl_last_set_ne_nil _ (fun p : IOProfile => p.mSamplingRates) _ _
      (fun a b => (loadHwModuleInputNode_set cv module a b).2.2.1)
      (fun a b => (loadHwModuleInputNode_keep cv module a b).2.2.1) _ _ hrate,
    foldl_last_set_ne_nil _ (fun p : IOProfile => p.mFormats) _ _
      (fun a b => (loadHwModuleInputNode_set cv module a b).2.2.2)
      (fun a b => (loadHwModuleInputNode_keep cv module a b).2.2.2) _ _ hfmt⟩

/-- C3, as amended: when each of the four keys is present and every value given
for it decodes to a non-empty collection (the devices value resolves to at
least one endpoint against the declared devices of the module, and the
converters of rates, formats and channel masks return non-empty collections),
the profile is appended to the output, or input, profile sequence of its
module and the build reports success. -/
theorem loadHwModuleProfile_attached_of_decoded_nonempty (cv : Converters) (root : cnode)
    (module : HwModule)
    (hdev : (∃ n ∈ root.children, n.name = DEVICES_TAG) ∧
      ∀ n ∈ root.children, n.name = DEVICES_TAG →
        loadDevicesFromTag cv n.value [] module.mDeclaredDevices ≠ [])
    (hrate : (∃ n ∈ root.children, n.name = SAMPLING_RATES_TAG) ∧
      ∀ n ∈ root.children, n.name = SAMPLING_RATES_TAG → cv.samplingRates n.value ≠ [])
    (hfmt : (∃ n ∈ root.children, n.name = FORMATS_TAG) ∧
      ∀ n ∈ root.children, n.name = FORMATS_TAG → cv.formats n.value ≠ [])
    (hchan : ∃ n ∈ root.children, n.name = CHANNELS_TAG) :
    ((∀ n ∈ root.children, n.name = CHANNELS_TAG → cv.outputChannelMasks n.value ≠ []) →
        loadHwModuleOutput cv root module
          = (NO_ERROR, { module with
              mOutputProfiles :=
                module.mOutputProfiles ++ [loadHwModuleOutputWalk cv root module] })) ∧
      ((∀ n ∈ root.children, n.name = CHANNELS_TAG → cv.inputChannelMasks n.value ≠ []) →
        loadHwModuleInput cv root module
          = (NO_ERROR, { module with
              mInputProfiles :=
                module.mInputProfiles ++ [loadHwModuleInputWalk cv root module] })) := by
  constructor
  · intro hc
    exact loadHwModuleOutput_complete cv root module
      (loadHwModuleOutputWalk_complete_of_decoded cv root module hdev hrate hfmt ⟨hchan, hc⟩)
  · intro hc
    exact loadHwModuleInput_complete cv root module
      (loadHwModuleInputWalk_complete_of_decoded cv root module hdev hrate hfmt ⟨hchan, hc⟩)

theorem loadHwModuleProfile_attached_of_decoded_nonempty_witness :
    (loadHwModuleOutput sampleConverters sampleOutputProfile sampleModule).1 = NO_ERROR ∧
      ((loadHwModuleOutput sampleConverters sampleOutputProfile sampleModule).2.mOutputProfiles.map
        (fun p => p.mSupportedDevices)) = [sampleDeclaredSpeaker] :=
  ⟨congrArg Prod.fst
      ((loadHwModuleProfile_attached_of_decoded_nonempty sampleConverters sampleOutputProfile
        sampleModule (by decide) (by decide) (by decide) (by decide)).1 (by decide)),
    by decide⟩

/-- C3, as stated, fails: every one of the four keys is present with a
non-empty string value, the devices value names a tag that the module does not
declare, and `loadHwModuleOutput` and `loadHwModuleInput` return `BAD_VALUE`
and attach nothing. -/
theorem loadHwModuleProfile_nonempty_values_rejected :
    (∀ key ∈ [DEVICES_TAG, CHANNELS_TAG, SAMPLING_RATES_TAG, FORMATS_TAG],
        ∃ n ∈ sampleOutputProfile.children, n.name = key ∧ n.value ≠ "") ∧
      loadHwModuleOutput sampleConverters sampleOutputProfile (HwModule.new "primary")
        = (BAD_VALUE, HwModule.new "primary") ∧
      loadHwModuleInput sampleConverters sampleOutputProfile (HwModule.new "primary")
        = (BAD_VALUE, HwModule.new "primary") := by
  decide

/-! ## Modules -/

theorem loadModuleGlobalConfigNode_some (cv : Converters) (declaredDevices : DeviceVector)
    (m : HwModule) (node : cnode) :
    ∃ v : Nat, ∀ c : AudioPolicyConfig, ∃ c2 : AudioPolicyConfig,
      loadModuleGlobalConfigNode cv declaredDevices (some m, c) node
        = some (some (m.setHalVersion v), c2) := by
  unfold loadModuleGlobalConfigNode
  by_cases h1 : ATTACHED_OUTPUT_DEVICES_TAG = node.name
  · exact ⟨m.mHalVersion, fun c => ⟨_, by simp only [if_pos h1]; rfl⟩⟩
  · by_cases h2 : DEFAULT_OUTPUT_DEVICE_TAG = node.name
    · refine ⟨m.mHalVersion, fun c => ?_⟩
      simp only [if_neg h1, if_pos h2]
      split
      · exact ⟨_, rfl⟩
      · exact ⟨_, rfl⟩
    · by_cases h3 : ATTACHED_INPUT_DEVICES_TAG = node.name
      · exact ⟨m.mHalVersion, fun c => ⟨_, by simp only [if_neg h1, if_neg h2, if_pos h3]; rfl⟩⟩
      · by_cases h4 : AUDIO_HAL_VERSION_TAG = node.name
        · exact ⟨cv.halVersion node.value, fun c =>
            ⟨c, by simp only [if_neg h1, if_neg h2, if_neg h3, if_pos h4]⟩⟩
        · exact ⟨m.mHalVersion, fun c =>
            ⟨_, by simp only [if_neg h1, if_neg h2, if_neg h3, if_neg h4]; rfl⟩⟩

theorem foldlM_globalConfigNode_some (cv : Converters) (declaredDevices : DeviceVector)
    (nodes : List cnode) :
    ∀ m : HwModule, ∃ v : Nat, ∀ c : AudioPolicyConfig, ∃ c2 : AudioPolicyConfig,
      nodes.foldlM (loadModuleGlobalConfigNode cv declaredDevices) (some m, c)
        = some (some (m.setHalVersion v), c2) := by
  induction nodes with
  | nil =>
    intro m
    exact ⟨m.mHalVersion, fun c => ⟨c, rfl⟩⟩
  | cons n rest ih =>
    intro m
    obtain ⟨v1, h1⟩ := loadModuleGlobalConfigNode_some cv declaredDevices m n
    obtain ⟨v2, h2⟩ := ih (m.setHalVersion v1)
    refine ⟨v2, fun c => ?_⟩
    obtain ⟨c1, hc1⟩ := h1 c
    obtain ⟨c2, hc2⟩ := h2 c1
    refine ⟨c2, ?_⟩
    rw [List.foldlM_cons, hc1]
    exact hc2

theorem loadModuleGlobalConfig_some (cv : Converters) (root : cnode) (m : HwModule) :
    ∃ v : Nat, ∀ c : AudioPolicyConfig, ∃ c2 : AudioPolicyConfig,
      loadModuleGlobalConfig cv root (some m) c = some (some (m.setHalVersion v), c2) := by
  unfold loadModuleGlobalConfig
  cases config_find root GLOBAL_CONFIG_TAG with
  | none => exact ⟨m.mHalVersion, fun c => ⟨c, rfl⟩⟩
  | some node => exact foldlM_globalConfigNode_some cv _ node.children m

theorem loadHwModule_some (cv : Converters) (root : cnode) (m : HwModule) :
    ∃ v : Nat, ∀ c : AudioPolicyConfig, ∃ c2 : AudioPolicyConfig,
      loadHwModule cv root m c
        = some ((loadHwModuleScans cv root m).1,
            (loadHwModuleScans cv root m).2.setHalVersion v, c2) := by
  obtain ⟨v, hv⟩ := loadModuleGlobalConfig_some cv root (loadHwModuleScans cv root m).2
  refine ⟨v, fun c => ?_⟩
  obtain ⟨c2, hc2⟩ := hv c
  refine ⟨c2, ?_⟩
  unfold loadHwModule
  simp only [hc2]

theorem foldlM_loadHwModulesNode (cv : Converters) (nodes : List cnode) :
    ∀ (hwModules : HwModuleCollection) (config : AudioPolicyConfig),
      ∃ config2 : AudioPolicyConfig,
        nodes.foldlM (loadHwModulesNode cv) (hwModules, config)
          = some (hwModules ++ nodes.filterMap (fun n =>
              match loadHwModule cv n (HwModule.new n.name) emptyConfig with
              | some (status, module, _) => if status = NO_ERROR then some module else none
              | none => none), config2) := by
  induction nodes with
  | nil =>
    intro hwModules config
    exact ⟨config, by simp⟩
  | cons n rest ih =>
    intro hwModules config
    obtain ⟨v, hv⟩ := loadHwModule_some cv n (HwModule.new n.name)
    obtain ⟨c0, h0⟩ := hv emptyConfig
    obtain ⟨c1, h1⟩ := hv config
    by_cases hs : (loadHwModuleScans cv n (HwModule.new n.name)).1 = NO_ERROR
    · obtain ⟨c2, h2⟩ := ih
        (hwModules ++ [(loadHwModuleScans cv n (HwModule.new n.name)).2.setHalVersion v]) c1
      refine ⟨c2, ?_⟩
      rw [List.foldlM_cons]
      have hstep : loadHwModulesNode cv (hwModules, config) n
          = some (hwModules
              ++ [(loadHwModuleScans cv n (HwModule.new n.name)).2.setHalVersion v], c1) := by
        unfold loadHwModulesNode
        simp only [h1, if_pos hs]
      rw [hstep]
      simp only [List.filterMap_cons, h0, if_pos hs]
      simpa using h2
    · obtain ⟨c2, h2⟩ := ih hwModules c1
      refine ⟨c2, ?_⟩
      rw [List.foldlM_cons]
      have hstep : loadHwModulesNode cv (hwModules, config) n = some (hwModules, c1) := by
        unfold loadHwModulesNode
        simp only [h1, if_neg hs]
      rw [hstep]
      simp only [List.filterMap_cons, h0, if_neg hs]
      simpa using h2

/-- C8: `loadHwModules` leaves the collection as it was when there is no
hardware-modules section, and otherwise appends to it, in document order,
exactly the modules built from the module nodes whose `loadHwModule` status is
`NO_ERROR`; a node with any other status adds nothing. The status and the
module that `loadHwModule` yields for a node do not depend on the aggregate,
and `loadHwModule` always returns. -/
theorem loadHwModules_keeps_successes (cv : Converters) (root : cnode)
    (hwModules : HwModuleCollection) (config : AudioPolicyConfig) :
    (config_find root AUDIO_HW_MODULE_TAG = none →
        loadHwModules cv root hwModules config = some (hwModules, config)) ∧
      (∀ node : cnode, config_find root AUDIO_HW_MODULE_TAG = some node →
        ∃ config2 : AudioPolicyConfig,
          loadHwModules cv root hwModules config
            = some (hwModules ++ node.children.filterMap (fun n =>
                match loadHwModule cv n (HwModule.new n.name) emptyConfig with
                | some (status, module, _) => if status = NO_ERROR then some module else none
                | none => none), config2)) ∧
      (∀ (n : cnode) (c : AudioPolicyConfig),
        ∃ (status : status_t) (module : HwModule) (c0 c2 : AudioPolicyConfig),
          loadHwModule cv n (HwModule.new n.name) emptyConfig = some (status, module, c0) ∧
            loadHwModule cv n (HwModule.new n.name) c = some (status, module, c2)) := by
  refine ⟨?_, ?_, ?_⟩
  · intro h
    unfold loadHwModules
    rw [h]
  · intro node h
    unfold loadHwModules
    rw [h]
    exact foldlM_loadHwModulesNode cv node.children hwModules config
  · intro n c
    obtain ⟨v, hv⟩ := loadHwModule_some cv n (HwModule.new n.name)
    obtain ⟨c0, h0⟩ := hv emptyConfig
    obtain ⟨c2, h2⟩ := hv c
    exact ⟨_, _, c0, c2, h0, h2⟩

theorem loadHwModules_keeps_successes_witness :
    (∃ config2 : AudioPolicyConfig,
      loadHwModules sampleConverters sampleRoot [] emptyConfig
        = some ([] ++ sampleModulesNode.children.filterMap (fun n =>
            match loadHwModule sampleConverters n (HwModule.new n.name) emptyConfig with
            | some (status, module, _) => if status = NO_ERROR then some module else none
            | none => none), config2)) ∧
      (loadHwModules sampleConverters sampleRoot [] emptyConfig).map
          (fun r => r.1.map (fun m => m.mName)) = some ["primary"] ∧
      (loadHwModule sampleConverters sampleUsbNode (HwModule.new "usb") emptyConfig).map
          (fun r => r.1) = some BAD_VALUE :=
  ⟨(loadHwModules_keeps_successes sampleConverters sampleRoot [] emptyConfig).2.1
      sampleModulesNode rfl, by decide, by decide⟩

/-! ## Declared devices referenced by profiles -/

theorem loadHwModuleDevice_extra (cv : Converters) (n : cnode) (ds : DeviceVector) :
    ∃ extra : DeviceVector, (loadHwModuleDevice cv n ds).2 = ds ++ extra ∧
      ∀ e ∈ extra, e.mTag = n.name := by
  by_cases h : loadHwModuleDeviceType cv n.children = AUDIO_DEVICE_NONE ∨
      (cv.audio_is_input_device (loadHwModuleDeviceType cv n.children) = false ∧
        cv.audio_is_output_device (loadHwModuleDeviceType cv n.children) = false)
  · refine ⟨[], ?_, ?_⟩
    · rw [(loadHwModuleDevice_of_type cv n ds).1 h, List.append_nil]
    · intro e he
      cases he
  · obtain ⟨d, hd, ht, _⟩ := (loadHwModuleDevice_of_type cv n ds).2 h
    refine ⟨[d], ?_, ?_⟩
    · rw [hd]
    · intro e he
      rw [List.mem_singleton.mp he]
      exact ht

theorem loadHwModuleDevices_cons (cv : Converters) (n : cnode) (rest : List cnode)
    (s : status_t) (ds : DeviceVector) :
    loadHwModuleDevices cv (n :: rest) s ds
      = loadHwModuleDevices cv rest (updateStatus s (loadHwModuleDevice cv n ds).1)
          (loadHwModuleDevice cv n ds).2 := rfl

theorem loadHwModuleDevices_append (cv : Converters) (l1 l2 : List cnode) (s : status_t)
    (ds : DeviceVector) :
    loadHwModuleDevices cv (l1 ++ l2) s ds
      = loadHwModuleDevices cv l2 (loadHwModuleDevices cv l1 s ds).1
          (loadHwModuleDevices cv l1 s ds).2 := by
  unfold loadHwModuleDevices
  rw [List.foldl_append]

theorem loadHwModuleDevices_extra (cv : Converters) (nodes : List cnode) :
    ∀ (s : status_t) (ds : DeviceVector),
      ∃ extra : DeviceVector, (loadHwModuleDevices cv nodes s ds).2 = ds ++ extra ∧
        ∀ e ∈ extra, ∃ n ∈ nodes, e.mTag = n.name := by
  induction nodes with
  | nil =>
    intro s ds
    refine ⟨[], ?_, ?_⟩
    · rw [List.append_nil]; rfl
    · intro e he
      cases he
  | cons n rest ih =>
    intro s ds
    obtain ⟨e1, h1, t1⟩ := loadHwModuleDevice_extra cv n ds
    obtain ⟨e2, h2, t2⟩ := ih (updateStatus s (loadHwModuleDevice cv n ds).1)
      (loadHwModuleDevice cv n ds).2
    refine ⟨e1 ++ e2, ?_, ?_⟩
    · rw [loadHwModuleDevices_cons, h2, h1, List.append_assoc]
    · intro e he
      rcases List.mem_append.mp he with h | h
      · exact ⟨n, List.mem_cons_self _ _, t1 e h⟩
      · obtain ⟨m, hm, hme⟩ := t2 e h
        exact ⟨m, List.mem_cons_of_mem _ hm, hme⟩

theorem loadHwModuleDevices_declares (cv : Converters) (before after : List cnode)
    (dnode : cnode) (T : String) (type : Nat) (s : status_t)
    (hb : ∀ n ∈ before, n.name ≠ T) (hn : dnode.name = T)
    (hty : loadHwModuleDeviceType cv dnode.children = type)
    (h0 : type ≠ AUDIO_DEVICE_NONE) (hout : cv.audio_is_output_device type = true) :
    ∃ d : DeviceDescriptor,
      (loadHwModuleDevices cv (before ++ dnode :: after) s []).2.getDeviceFromTag T = some d ∧
        d ∈ (loadHwModuleDevices cv (before ++ dnode :: after) s []).2 ∧
        d.mTag = T ∧ d.mDeviceType = type := by
  obtain ⟨e0, he0, ht0⟩ := loadHwModuleDevices_extra cv before s []
  have hgood : ¬ (loadHwModuleDeviceType cv dnode.children = AUDIO_DEVICE_NONE ∨
      (cv.audio_is_input_device (loadHwModuleDeviceType cv dnode.children) = false ∧
        cv.audio_is_output_device (loadHwModuleDeviceType cv dnode.children) = false)) := by
    rw [hty]
    rintro (h | ⟨_, h⟩)
    · exact h0 h
    · rw [hout] at h
      exact Bool.noConfusion h
  obtain ⟨d, hd, htag, htype⟩ :=
    (loadHwModuleDevice_of_type cv dnode (loadHwModuleDevices cv before s []).2).2 hgood
  obtain ⟨e2, he2, _⟩ := loadHwModuleDevices_extra cv after
    (updateStatus (loadHwModuleDevices cv before s []).1
      (loadHwModuleDevice cv dnode (loadHwModuleDevices cv before s []).2).1)
    (loadHwModuleDevice cv dnode (loadHwModuleDevices cv before s []).2).2
  have hres : (loadHwModuleDevices cv (before ++ dnode :: after) s []).2
      = e0 ++ d :: e2 := by
    rw [loadHwModuleDevices_append, loadHwModuleDevices_cons, he2, hd, he0]
    simp
  have hnone : e0.find? (fun x => decide (x.mTag = T)) = none := by
    rw [List.find?_eq_none]
    intro e he
    obtain ⟨n, hn1, hn2⟩ := ht0 e he
    simpa [hn2] using hb n hn1
  refine ⟨d, ?_, ?_, htag.trans hn, htype.trans hty⟩
  · rw [hres]
    unfold DeviceVector.getDeviceFromTag
    rw [List.find?_append, hnone]
    simp [List.find?_cons, htag, hn]
  · rw [hres]
    simp

theorem loadHwModuleOutput_frame (cv : Converters) (n : cnode) (m : HwModule) :
    (loadHwModuleOutput cv n m).2.mDeclaredDevices = m.mDeclaredDevices ∧
      ∃ extra : List IOProfile,
        (loadHwModuleOutput cv n m).2.mOutputProfiles = m.mOutputProfiles ++ extra := by
  by_cases h : profileComplete (loadHwModuleOutputWalk cv n m)
  · rw [loadHwModuleOutput_complete cv n m h]
    exact ⟨rfl, _, rfl⟩
  · rw [loadHwModuleOutput_incomplete cv n m h]
    exact ⟨rfl, [], (List.append_nil _).symm⟩

theorem loadHwModuleOutputs_cons (cv : Converters) (n : cnode) (rest : List cnode)
    (s : status_t) (m : HwModule) :
    loadHwModuleOutputs cv (n :: rest) s m
      = loadHwModuleOutputs cv rest (updateStatus s (loadHwModuleOutput cv n m).1)
          (loadHwModuleOutput cv n m).2 := rfl

theorem loadHwModuleOutputs_append (cv : Converters) (l1 l2 : List cnode) (s : status_t)
    (m : HwModule) :
    loadHwModuleOutputs cv (l1 ++ l2) s m
      = loadHwModuleOutputs cv l2 (loadHwModuleOutputs cv l1 s m).1
          (loadHwModuleOutputs cv l1 s m).2 := by
  unfold loadHwModuleOutputs
  rw [List.foldl_append]

theorem loadHwModuleOutputs_frame (cv : Converters) (nodes : List cnode) :
    ∀ (s : status_t) (m : HwModule),
      (loadHwModuleOutputs cv nodes s m).2.mDeclaredDevices = m.mDeclaredDevices ∧
        ∃ extra : List IOProfile,
          (loadHwModuleOutputs cv nodes s m).2.mOutputProfiles = m.mOutputProfiles ++ extra := by
  induction nodes with
  | nil =>
    intro s m
    exact ⟨rfl, [], (List.append_nil _).symm⟩
  | cons n rest ih =>
    intro s m
    obtain ⟨h1, e1, h2⟩ := loadHwModuleOutput_frame cv n m
    obtain ⟨h3, e2, h4⟩ := ih (updateStatus s (loadHwModuleOutput cv n m).1)
      (loadHwModuleOutput cv n m).2
    rw [loadHwModuleOutputs_cons]
    refine ⟨h3.trans h1, e1 ++ e2, ?_⟩
    rw [h4, h2, List.append_assoc]

theorem loadHwModuleInput_frame (cv : Converters) (n : cnode) (m : HwModule) :
    (loadHwModuleInput cv n m).2.mDeclaredDevices = m.mDeclaredDevices ∧
      (loadHwModuleInput cv n m).2.mOutputProfiles = m.mOutputProfiles := by
  by_cases h : profileComplete (loadHwModuleInputWalk cv n m)
  · rw [loadHwModuleInput_complete cv n m h]
    exact ⟨rfl, rfl⟩
  · rw [loadHwModuleInput_incomplete cv n m h]
    exact ⟨rfl, rfl⟩

theorem loadHwModuleInputs_frame (cv : Converters) (nodes : List cnode) :
    ∀ (s : status_t) (m : HwModule),
      (loadHwModuleInputs cv nodes s m).2.mDeclaredDevices = m.mDeclaredDevices ∧
        (loadHwModuleInputs cv nodes s m).2.mOutputProfiles = m.mOutputProfiles := by
  induction nodes with
  | nil =>
    intro s m
    exact ⟨rfl, rfl⟩
  | cons n rest ih =>
    intro s m
    obtain ⟨h1, h2⟩ := loadHwModuleInput_frame cv n m
    obtain ⟨h3, h4⟩ := ih (updateStatus s (loadHwModuleInput cv n m).1)
      (loadHwModuleInput cv n m).2
    exact ⟨h3.trans h1, h4.trans h2⟩

theorem loadHwModuleOutputNode_name (cv : Converters) (module : HwModule) (p : IOProfile)
    (node : cnode) : (loadHwModuleOutputNode cv module p node).mName = p.mName := by
  have hg := loadAudioPortGains_frame cv node p.toAudioPort
  unfold loadHwModuleOutputNode
  split_ifs <;>
    first
      | rfl
      | exact hg.2.2.2.1

theorem loadHwModuleOutputWalk_name (cv : Converters) (root : cnode) (module : HwModule) :
    (loadHwModuleOutputWalk cv root module).mName = root.name := by
  unfold loadHwModuleOutputWalk
  exact foldl_keep _ (fun p : IOProfile => p.mName) (fun _ => False)
    (fun a b _ => loadHwModuleOutputNode_name cv module a b) _ _ (fun _ _ h => h)

theorem loadDevicesFromTag_declared_tag (cv : Converters) (T : String) (d : DeviceDescriptor)
    (declaredDevices : DeviceVector) (hT1 : '|' ∉ T.data) (hT2 : T.length ≠ 0)
    (hT3 : DeviceConverter.fromString cv T = none)
    (hget : declaredDevices.getDeviceFromTag T = some d) :
    loadDevicesFromTag cv T [] declaredDevices = [d] := by
  rw [loadDevicesFromTag_token cv T hT1]
  unfold loadDevicesFromTagToken
  simp only [if_pos hT2, hT3, hget, DeviceVector.add, List.nil_append]

theorem loadHwModuleOutputWalk_declared (cv : Converters) (pnode : cnode) (mm : HwModule)
    (T : String) (d : DeviceDescriptor) (hT1 : '|' ∉ T.data) (hT2 : T.length ≠ 0)
    (hT3 : DeviceConverter.fromString cv T = none)
    (hget : mm.mDeclaredDevices.getDeviceFromTag T = some d)
    (hdev : (∃ n ∈ pnode.children, n.name = DEVICES_TAG) ∧
      ∀ n ∈ pnode.children, n.name = DEVICES_TAG → n.value = T)
    (hrate : (∃ n ∈ pnode.children, n.name = SAMPLING_RATES_TAG) ∧
      ∀ n ∈ pnode.children, n.name = SAMPLING_RATES_TAG → cv.samplingRates n.value ≠ [])
    (hfmt : (∃ n ∈ pnode.children, n.name = FORMATS_TAG) ∧
      ∀ n ∈ pnode.children, n.name = FORMATS_TAG → cv.formats n.value ≠ [])
    (hchan : (∃ n ∈ pnode.children, n.name = CHANNELS_TAG) ∧
      ∀ n ∈ pnode.children, n.name = CHANNELS_TAG → cv.outputChannelMasks n.value ≠ []) :
    profileComplete (loadHwModuleOutputWalk cv pnode mm) ∧
      (loadHwModuleOutputWalk cv pnode mm).mSupportedDevices = [d] := by
  have hres := loadDevicesFromTag_declared_tag cv T d mm.mDeclaredDevices hT1 hT2 hT3 hget
  constructor
  · apply loadHwModuleOutputWalk_complete_of_decoded cv pnode mm _ hrate hfmt hchan
    refine ⟨hdev.1, fun n hn hname => ?_⟩
    rw [hdev.2 n hn hname, hres]
    exact List.cons_ne_nil _ _
  · obtain ⟨b, hb, hP, hg⟩ := foldl_last_set (loadHwModuleOutputNode cv mm)
      (fun p : IOProfile => p.mSupportedDevices) (fun n => n.name = DEVICES_TAG)
      (fun n => loadDevicesFromTag cv n.value [] mm.mDeclaredDevices)
      (fun a b => (loadHwModuleOutputNode_set cv mm a b).1)
      (fun a b => (loadHwModuleOutputNode_keep cv mm a b).1) pnode.children
      (OutputProfile.new pnode.name) hdev.1
    unfold loadHwModuleOutputWalk
    rw [hg, hdev.2 b hb hP, hres]

theorem loadHwModuleOutputs_attaches (cv : Converters) (before after : List cnode)
    (pnode : cnode) (s : status_t) (m : HwModule)
    (hc : profileComplete
      (loadHwModuleOutputWalk cv pnode (loadHwModuleOutputs cv before s m).2)) :
    loadHwModuleOutputWalk cv pnode (loadHwModuleOutputs cv before s m).2
      ∈ (loadHwModuleOutputs cv (before ++ pnode :: after) s m).2.mOutputProfiles := by
  obtain ⟨_, e2, h2⟩ := loadHwModuleOutputs_frame cv after
    (updateStatus (loadHwModuleOutputs cv before s m).1
      (loadHwModuleOutput cv pnode (loadHwModuleOutputs cv before s m).2).1)
    (loadHwModuleOutput cv pnode (loadHwModuleOutputs cv before s m).2).2
  rw [loadHwModuleOutputs_append, loadHwModuleOutputs_cons, h2,
    loadHwModuleOutput_complete cv pnode _ hc]
  simp

theorem loadHwModuleScans_sections (cv : Converters) (root devs outs : cnode)
    (module : HwModule) (hdevs : config_find root DEVICES_TAG = some devs)
    (houts : config_find root OUTPUTS_TAG = some outs) :
    (loadHwModuleScans cv root module).2.mDeclaredDevices
        = (loadHwModuleDevices cv devs.children NAME_NOT_FOUND []).2 ∧
      (loadHwModuleScans cv root module).2.mOutputProfiles
        = (loadHwModuleOutputs cv outs.children
            (loadHwModuleDevices cv devs.children NAME_NOT_FOUND []).1
            (module.setDeclaredDevices
              (loadHwModuleDevices cv devs.children NAME_NOT_FOUND []).2)).2.mOutputProfiles := by
  have ho := loadHwModuleOutputs_frame cv outs.children
    (loadHwModuleDevices cv devs.children NAME_NOT_FOUND []).1
    (module.setDeclaredDevices (loadHwModuleDevices cv devs.children NAME_NOT_FOUND []).2)
  unfold loadHwModuleScans
  simp only [hdevs, houts]
  cases config_find root INPUTS_TAG with
  | none => exact ⟨ho.1, rfl⟩
  | some ins =>
    have hi := loadHwModuleInputs_frame cv ins.children
      (loadHwModuleOutputs cv outs.children
        (loadHwModuleDevices cv devs.children NAME_NOT_FOUND []).1
        (module.setDeclaredDevices
          (loadHwModuleDevices cv devs.children NAME_NOT_FOUND []).2)).1
      (loadHwModuleOutputs cv outs.children
        (loadHwModuleDevices cv devs.children NAME_NOT_FOUND []).1
        (module.setDeclaredDevices
          (loadHwModuleDevices cv devs.children NAME_NOT_FOUND []).2)).2
    exact ⟨hi.1.trans ho.1, hi.2⟩

/-- C10: a module subtree has a devices section that declares a device tagged
T whose first `type` child converts to a valid output type, with no earlier
device subtree named T, and an outputs section with a profile whose devices
value is T (T a single token that is not a literal device-type name) and whose
rates, formats and channel masks decode to non-empty collections. Then
`loadHwModule` returns, the profile is in the output profiles of the module,
and its supported devices are exactly the declared endpoint: the element of the
declared-device set found under tag T, with tag T, not an untagged new one.
The sections are found by name, so their order in the document plays no part. -/
theorem loadHwModule_profile_references_declared (cv : Converters)
    (root devs outs dnode tnode pnode : cnode)
    (dbefore dafter tbefore tafter obefore oafter : List cnode) (T : String) (type : Nat)
    (module : HwModule) (config : AudioPolicyConfig)
    (hdevs : config_find root DEVICES_TAG = some devs)
    (houts : config_find root OUTPUTS_TAG = some outs)
    (hdc : devs.children = dbefore ++ dnode :: dafter)
    (hdb : ∀ n ∈ dbefore, n.name ≠ T) (hdn : dnode.name = T)
    (htc : dnode.children = tbefore ++ tnode :: tafter)
    (htb : ∀ n ∈ tbefore, n.name ≠ APM_DEVICE_TYPE) (htn : tnode.name = APM_DEVICE_TYPE)
    (htv : DeviceConverter.fromString cv tnode.value = some type)
    (hty0 : type ≠ AUDIO_DEVICE_NONE) (hout : cv.audio_is_output_device type = true)
    (hT1 : '|' ∉ T.data) (hT2 : T.length ≠ 0)
    (hT3 : DeviceConverter.fromString cv T = none)
    (hoc : outs.children = obefore ++ pnode :: oafter)
    (hpdev : (∃ n ∈ pnode.children, n.name = DEVICES_TAG) ∧
      ∀ n ∈ pnode.children, n.name = DEVICES_TAG → n.value = T)
    (hprate : (∃ n ∈ pnode.children, n.name = SAMPLING_RATES_TAG) ∧
      ∀ n ∈ pnode.children, n.name = SAMPLING_RATES_TAG → cv.samplingRates n.value ≠ [])
    (hpfmt : (∃ n ∈ pnode.children, n.name = FORMATS_TAG) ∧
      ∀ n ∈ pnode.children, n.name = FORMATS_TAG → cv.formats n.value ≠ [])
    (hpchan : (∃ n ∈ pnode.children, n.name = CHANNELS_TAG) ∧
      ∀ n ∈ pnode.children, n.name = CHANNELS_TAG → cv.outputChannelMasks n.value ≠ []) :
    ∃ (status : status_t) (m2 : HwModule) (c2 : AudioPolicyConfig) (d : DeviceDescriptor)
      (p : IOProfile),
      loadHwModule cv root module config = some (status, m2, c2) ∧
        d ∈ m2.mDeclaredDevices ∧ m2.mDeclaredDevices.getDeviceFromTag T = some d ∧
        d.mTag = T ∧ d.mTag ≠ "" ∧ d.mDeviceType = type ∧
        p ∈ m2.mOutputProfiles ∧ p.mName = pnode.name ∧ p.mSupportedDevices = [d] := by
  obtain ⟨v, hv⟩ := loadHwModule_some cv root module
  obtain ⟨c2, hc2⟩ := hv config
  have hty : loadHwModuleDeviceType cv dnode.children = type := by
    rw [htc, loadHwModuleDeviceType_first cv tbefore tafter tnode htb htn, htv]
    rfl
  obtain ⟨d, hget, hmem, htag, htype⟩ := loadHwModuleDevices_declares cv dbefore dafter
    dnode T type NAME_NOT_FOUND hdb hdn hty hty0 hout
  rw [← hdc] at hget hmem
  obtain ⟨hD, hO⟩ := loadHwModuleScans_sections cv root devs outs module hdevs houts
  have hmb := (loadHwModuleOutputs_frame cv obefore
    (loadHwModuleDevices cv devs.children NAME_NOT_FOUND []).1
    (module.setDeclaredDevices (loadHwModuleDevices cv devs.children NAME_NOT_FOUND []).2)).1
  have hget2 : (loadHwModuleOutputs cv obefore
      (loadHwModuleDevices cv devs.children NAME_NOT_FOUND []).1
      (module.setDeclaredDevices
        (loadHwModuleDevices cv devs.children NAME_NOT_FOUND []).2)).2.mDeclaredDevices.getDeviceFromTag
        T = some d := by
    rw [hmb]
    exact hget
  have hw := loadHwModuleOutputWalk_declared cv pnode _ T d hT1 hT2 hT3 hget2 hpdev hprate
    hpfmt hpchan
  have hat := loadHwModuleOutputs_attaches cv obefore oafter pnode _ _ hw.1
  rw [← hoc, ← hO] at hat
  have hne : d.mTag ≠ "" := by
    rw [htag]
    intro h
    apply hT2
    rw [h]
    rfl
  refine ⟨_, _, c2, d, _, hc2, ?_, ?_, htag, hne, htype, hat,
    loadHwModuleOutputWalk_name cv pnode _, hw.2⟩
  · show d ∈ (loadHwModuleScans cv root module).2.mDeclaredDevices
    rw [hD]
    exact hmem
  · show (loadHwModuleScans cv root module).2.mDeclaredDevices.getDeviceFromTag T = some d
    rw [hD]
    exact hget

theorem loadHwModule_profile_references_declared_witness :
    ∃ (status : status_t) (m2 : HwModule) (c2 : AudioPolicyConfig) (d : DeviceDescriptor)
      (p : IOProfile),
      loadHwModule sampleConverters samplePrimaryNode (HwModule.new "primary") emptyConfig
          = some (status, m2, c2) ∧
        d ∈ m2.mDeclaredDevices ∧ m2.mDeclaredDevices.getDeviceFromTag "Speaker" = some d ∧
        d.mTag = "Speaker" ∧ d.mTag ≠ "" ∧ d.mDeviceType = 0x2 ∧
        p ∈ m2.mOutputProfiles ∧ p.mName = sampleOutputProfile.name ∧
        p.mSupportedDevices = [d] :=
  loadHwModule_profile_references_declared sampleConverters samplePrimaryNode
    (.mk "devices" "" [sampleSpeakerNode]) (.mk "outputs" "" [sampleOutputProfile])
    sampleSpeakerNode (.mk "type" "AUDIO_DEVICE_OUT_SPEAKER" []) sampleOutputProfile
    [] [] []
    [.mk "address" "bus0" [],
      .mk "gains" "" [.mk "gain_1" "" [.mk "mode" "AUDIO_GAIN_MODE_JOINT" [],
        .mk "min_value_mB" "-8400" [], .mk "max_value_mB" "4000" []]]]
    [] [] "Speaker" 0x2 (HwModule.new "primary") emptyConfig
    rfl rfl rfl (by decide) (by decide) rfl (by decide) (by decide) (by decide) (by decide)
    (by decide) (by decide) (by decide) (by decide) rfl (by decide) (by decide) (by decide)
    (by decide)

/-! ## Ad-hoc endpoints -/

/-- C17: for a token that the device-type converter accepts, the endpoint that
`loadDevicesFromTag` makes has the converted type, and its address is "0"
exactly when the type is `AUDIO_DEVICE_IN_REMOTE_SUBMIX` or
`AUDIO_DEVICE_OUT_REMOTE_SUBMIX`; for every other type it is the empty
string. -/
theorem loadDevicesFromTag_adhoc_address (cv : Converters) (tok : String) (type : Nat)
    (hne : tok.length ≠ 0) (hd : '|' ∉ tok.data)
    (hconv : DeviceConverter.fromString cv tok = some type)
    (declaredDevices devices : DeviceVector) :
    ∃ dev : DeviceDescriptor,
      loadDevicesFromTag cv tok devices declaredDevices = devices ++ [dev] ∧
        dev.mDeviceType = type ∧ dev.mTag = "" ∧
        (dev.mAddress = "0" ↔
          (type = AUDIO_DEVICE_IN_REMOTE_SUBMIX ∨ type = AUDIO_DEVICE_OUT_REMOTE_SUBMIX)) ∧
        (¬ (type = AUDIO_DEVICE_IN_REMOTE_SUBMIX ∨ type = AUDIO_DEVICE_OUT_REMOTE_SUBMIX) →
          dev.mAddress = "") := by
  refine ⟨{ DeviceDescriptor.new cv type with
    mAddress := if type = AUDIO_DEVICE_IN_REMOTE_SUBMIX ∨
      type = AUDIO_DEVICE_OUT_REMOTE_SUBMIX then "0" else "" }, ?_, rfl, rfl, ?_, ?_⟩
  · rw [loadDevicesFromTag_token cv tok hd]
    exact loadDevicesFromTagToken_literal cv tok type hne hconv _ _
  · show (if type = AUDIO_DEVICE_IN_REMOTE_SUBMIX ∨ type = AUDIO_DEVICE_OUT_REMOTE_SUBMIX
      then "0" else "") = "0" ↔ _
    by_cases h : type = AUDIO_DEVICE_IN_REMOTE_SUBMIX ∨ type = AUDIO_DEVICE_OUT_REMOTE_SUBMIX
    · rw [if_pos h]
      exact ⟨fun _ => h, fun _ => rfl⟩
    · rw [if_neg h]
      exact ⟨fun h0 => absurd h0 (by decide), fun h1 => absurd h1 h⟩
  · intro h
    show (if type = AUDIO_DEVICE_IN_REMOTE_SUBMIX ∨ type = AUDIO_DEVICE_OUT_REMOTE_SUBMIX
      then "0" else "") = ""
    rw [if_neg h]

theorem loadDevicesFromTag_adhoc_address_witness :
    (∃ dev : DeviceDescriptor,
      loadDevicesFromTag sampleConverters "AUDIO_DEVICE_IN_REMOTE_SUBMIX" [] sampleDeclaredSpeaker
          = [] ++ [dev] ∧
        dev.mDeviceType = AUDIO_DEVICE_IN_REMOTE_SUBMIX ∧ dev.mTag = "" ∧
        (dev.mAddress = "0" ↔
          (AUDIO_DEVICE_IN_REMOTE_SUBMIX = AUDIO_DEVICE_IN_REMOTE_SUBMIX ∨
            AUDIO_DEVICE_IN_REMOTE_SUBMIX = AUDIO_DEVICE_OUT_REMOTE_SUBMIX)) ∧
        (¬ (AUDIO_DEVICE_IN_REMOTE_SUBMIX = AUDIO_DEVICE_IN_REMOTE_SUBMIX ∨
            AUDIO_DEVICE_IN_REMOTE_SUBMIX = AUDIO_DEVICE_OUT_REMOTE_SUBMIX) →
          dev.mAddress = "")) ∧
      (loadDevicesFromTag sampleConverters
          "AUDIO_DEVICE_IN_REMOTE_SUBMIX|AUDIO_DEVICE_OUT_SPEAKER|AUDIO_DEVICE_OUT_REMOTE_SUBMIX"
          [] []).map (fun d => d.mAddress) = ["0", "", "0"] :=
  ⟨loadDevicesFromTag_adhoc_address sampleConverters "AUDIO_DEVICE_IN_REMOTE_SUBMIX"
      AUDIO_DEVICE_IN_REMOTE_SUBMIX (by decide) (by decide) (by decide) sampleDeclaredSpeaker [],
    by decide⟩

/-! ## Modules without entries -/

theorem loadHwModuleScans_no_entry (cv : Converters) (root : cnode) (module : HwModule)
    (hd : ∀ n, config_find root DEVICES_TAG = some n → n.children = [])
    (ho : ∀ n, config_find root OUTPUTS_TAG = some n → n.children = [])
    (hi : ∀ n, config_find root INPUTS_TAG = some n → n.children = []) :
    (loadHwModuleScans cv root module).1 = NAME_NOT_FOUND := by
  unfold loadHwModuleScans
  cases h1 : config_find root DEVICES_TAG with
  | none =>
    cases h2 : config_find root OUTPUTS_TAG with
    | none =>
      cases h3 : config_find root INPUTS_TAG with
      | none => rfl
      | some n3 => simp only [hi n3 h3]; rfl
    | some n2 =>
      cases h3 : config_find root INPUTS_TAG with
      | none => simp only [ho n2 h2]; rfl
      | some n3 => simp only [ho n2 h2, hi n3 h3]; rfl
  | some n1 =>
    cases h2 : config_find root OUTPUTS_TAG with
    | none =>
      cases h3 : config_find root INPUTS_TAG with
      | none => simp only [hd n1 h1]; rfl
      | some n3 => simp only [hd n1 h1, hi n3 h3]; rfl
    | some n2 =>
      cases h3 : config_find root INPUTS_TAG with
      | none => simp only [hd n1 h1, ho n2 h2]; rfl
      | some n3 => simp only [hd n1 h1, ho n2 h2, hi n3 h3]; rfl

/-- C19: for a module subtree with no entry under the devices, outputs and
inputs sections (each section is absent or has no children), `loadHwModule`
returns with status `NAME_NOT_FOUND`, which is not success, and `loadHwModules`
does not add the module to the collection. -/
theorem loadHwModule_no_entry_not_found (cv : Converters) (root : cnode) (module : HwModule)
    (config : AudioPolicyConfig) (hwModules : HwModuleCollection)
    (hd : ∀ n, config_find root DEVICES_TAG = some n → n.children = [])
    (ho : ∀ n, config_find root OUTPUTS_TAG = some n → n.children = [])
    (hi : ∀ n, config_find root INPUTS_TAG = some n → n.children = []) :
    (∃ (m2 : HwModule) (c2 : AudioPolicyConfig),
        loadHwModule cv root module config = some (NAME_NOT_FOUND, m2, c2)) ∧
      NAME_NOT_FOUND ≠ NO_ERROR ∧
      (∃ c3 : AudioPolicyConfig,
        loadHwModulesNode cv (hwModules, config) root = some (hwModules, c3)) := by
  refine ⟨?_, by decide, ?_⟩
  · obtain ⟨v, hv⟩ := loadHwModule_some cv root module
    obtain ⟨c2, hc2⟩ := hv config
    rw [loadHwModuleScans_no_entry cv root module hd ho hi] at hc2
    exact ⟨_, c2, hc2⟩
  · obtain ⟨v, hv⟩ := loadHwModule_some cv root (HwModule.new root.name)
    obtain ⟨c2, hc2⟩ := hv config
    rw [loadHwModuleScans_no_entry cv root _ hd ho hi] at hc2
    refine ⟨c2, ?_⟩
    unfold loadHwModulesNode
    simp only [hc2]
    rfl

theorem loadHwModule_no_entry_not_found_witness :
    ((∃ (m2 : HwModule) (c2 : AudioPolicyConfig),
        loadHwModule sampleConverters sampleGlobalOnlyNode (HwModule.new "r_submix") emptyConfig
          = some (NAME_NOT_FOUND, m2, c2)) ∧
      NAME_NOT_FOUND ≠ NO_ERROR ∧
      (∃ c3 : AudioPolicyConfig,
        loadHwModulesNode sampleConverters ([], emptyConfig) sampleGlobalOnlyNode
          = some ([], c3))) ∧
      (loadHwModule sampleConverters sampleEmptySectionsNode (HwModule.new "hdmi")
        emptyConfig).map (fun r => r.1) = some NAME_NOT_FOUND :=
  ⟨loadHwModule_no_entry_not_found sampleConverters sampleGlobalOnlyNode
      (HwModule.new "r_submix") emptyConfig []
      (fun n h => by cases h) (fun n h => by cases h) (fun n h => by cases h),
    by decide⟩

/-! ## Gain indices -/

theorem loadAudioPortGainNode_index (cv : Converters) (u : Bool) (gain : AudioGain)
    (node : cnode) : (loadAudioPortGainNode cv u gain node).mIndex = gain.mIndex := by
  unfold loadAudioPortGainNode
  repeat' split
  all_goals rfl

theorem loadAudioPortGainWalk_index (cv : Converters) (root : cnode) (audioPort : AudioPort)
    (index : Int) : (loadAudioPortGainWalk cv root audioPort index).mIndex = index := by
  unfold loadAudioPortGainWalk
  exact foldl_keep _ (fun g : AudioGain => g.mIndex) (fun _ => False)
    (fun a b _ => loadAudioPortGainNode_index cv _ a b) _ _ (fun _ _ h => h)

theorem loadAudioPortGainWalk_congr (cv : Converters) (root : cnode) (p1 p2 : AudioPort)
    (index : Int) (h : p1.useInputChannelMask = p2.useInputChannelMask) :
    loadAudioPortGainWalk cv root p1 index = loadAudioPortGainWalk cv root p2 index := by
  unfold loadAudioPortGainWalk
  rw [h]

theorem loadAudioPortGain_gains (cv : Converters) (node : cnode) (p : AudioPort)
    (index : Int) :
    (loadAudioPortGain cv node p index).mGains
      = p.mGains ++ (if (loadAudioPortGainWalk cv node p index).mode = 0 then none
          else some (loadAudioPortGainWalk cv node p index)).toList := by
  unfold loadAudioPortGain
  dsimp only
  split <;> simp

theorem loadAudioPortGainsFrom_gains (cv : Converters) (nodes : List cnode) :
    ∀ (p : AudioPort) (s : Nat),
      (loadAudioPortGainsFrom cv nodes p (s : Int)).1.mGains
        = p.mGains ++ (nodes.enumFrom s).filterMap (fun kn =>
            if (loadAudioPortGainWalk cv kn.2 p (kn.1 : Int)).mode = 0 then none
            else some (loadAudioPortGainWalk cv kn.2 p (kn.1 : Int))) := by
  induction nodes with
  | nil =>
    intro p s
    simp [loadAudioPortGainsFrom]
  | cons n rest ih =>
    intro p s
    have hu := (loadAudioPortGain_frame cv n p (s : Int)).2.2.2.2
    have hcongr : ∀ kn : Nat × cnode,
        loadAudioPortGainWalk cv kn.2 (loadAudioPortGain cv n p (s : Int)) (kn.1 : Int)
          = loadAudioPortGainWalk cv kn.2 p (kn.1 : Int) :=
      fun kn => loadAudioPortGainWalk_congr cv kn.2 _ _ _ hu
    have hstep : loadAudioPortGainsFrom cv (n :: rest) p (s : Int)
        = loadAudioPortGainsFrom cv rest (loadAudioPortGain cv n p (s : Int))
            ((s + 1 : Nat) : Int) := by
      unfold loadAudioPortGainsFrom
      rw [List.foldl_cons]
      push_cast
      rfl
    rw [hstep, ih, loadAudioPortGain_gains, List.enumFrom_cons, List.filterMap_cons]
    simp only [hcongr]
    by_cases hm : (loadAudioPortGainWalk cv n p (s : Int)).mode = 0
    · simp [hm]
    · simp [hm]

theorem enumFrom_gain_indices (cv : Converters) (p : AudioPort) (nodes : List cnode) :
    ∀ s : Nat,
      (∀ g ∈ (nodes.enumFrom s).filterMap (fun kn =>
          if (loadAudioPortGainWalk cv kn.2 p (kn.1 : Int)).mode = 0 then none
          else some (loadAudioPortGainWalk cv kn.2 p (kn.1 : Int))), (s : Int) ≤ g.mIndex) ∧
      List.Pairwise (fun a b : AudioGain => a.mIndex < b.mIndex)
        ((nodes.enumFrom s).filterMap (fun kn =>
          if (loadAudioPortGainWalk cv kn.2 p (kn.1 : Int)).mode = 0 then none
          else some (loadAudioPortGainWalk cv kn.2 p (kn.1 : Int)))) ∧
      (∀ (i : Nat) (g : AudioGain),
        ((nodes.enumFrom s).filterMap (fun kn =>
          if (loadAudioPortGainWalk cv kn.2 p (kn.1 : Int)).mode = 0 then none
          else some (loadAudioPortGainWalk cv kn.2 p (kn.1 : Int))))[i]? = some g →
        (s : Int) + (i : Int) ≤ g.mIndex) := by
  induction nodes with
  | nil =>
    intro s
    simp
  | cons n rest ih =>
    intro s
    obtain ⟨h1, h2, h3⟩ := ih (s + 1)
    have hcast : ((s + 1 : Nat) : Int) = (s : Int) + 1 := by push_cast; rfl
    rw [hcast] at h1 h3
    rw [List.enumFrom_cons, List.filterMap_cons]
    by_cases hm : (loadAudioPortGainWalk cv n p (s : Int)).mode = 0
    · simp only [hm, if_true]
      refine ⟨fun g hg => ?_, h2, fun i g hg => ?_⟩
      · have := h1 g hg
        omega
      · have := h3 i g hg
        omega
    · simp only [hm, if_false]
      have hidx := loadAudioPortGainWalk_index cv n p (s : Int)
      refine ⟨fun g hg => ?_, ?_, fun i g hg => ?_⟩
      · rcases List.mem_cons.mp hg with h | h
        · rw [h, hidx]
        · have := h1 g h
          omega
      · rw [List.pairwise_cons]
        refine ⟨fun g hg => ?_, h2⟩
        have := h1 g hg
        rw [hidx]
        omega
      · cases i with
        | zero =>
          simp only [List.getElem?_cons_zero, Option.some.injEq] at hg
          rw [← hg, hidx]
          simp
        | succ j =>
          simp only [List.getElem?_cons_succ] at hg
          have := h3 j g hg
          push_cast
          omega

/-- C20: `loadAudioPortGains` builds the gain of the k-th child of the gains
subtree with index k, and appends, in document order, those whose mode is not
0: a discarded child still uses up its index. So the indices of the appended
gains are strictly increasing, and the gain at position i among them has an
index of at least i. -/
theorem loadAudioPortGains_indices (cv : Converters) (root : cnode) (audioPort : AudioPort) :
    ∃ appended : List AudioGain,
      appended = root.children.enum.filterMap (fun kn =>
          if (loadAudioPortGainWalk cv kn.2 audioPort (kn.1 : Int)).mode = 0 then none
          else some (loadAudioPortGainWalk cv kn.2 audioPort (kn.1 : Int))) ∧
        (loadAudioPortGains cv root audioPort).mGains = audioPort.mGains ++ appended ∧
        (∀ (node : cnode) (k : Int), (loadAudioPortGainWalk cv node audioPort k).mIndex = k) ∧
        List.Pairwise (fun a b : AudioGain => a.mIndex < b.mIndex) appended ∧
        (∀ (i : Nat) (g : AudioGain), appended[i]? = some g → (i : Int) ≤ g.mIndex) := by
  obtain ⟨_, h2, h3⟩ := enumFrom_gain_indices cv audioPort root.children 0
  refine ⟨_, rfl, ?_, fun node k => loadAudioPortGainWalk_index cv node audioPort k, h2,
    fun i g hg => ?_⟩
  · exact loadAudioPortGainsFrom_gains cv root.children audioPort 0
  · have := h3 i g hg
    simpa using this

theorem loadAudioPortGains_indices_witness :
    (∃ appended : List AudioGain,
      appended = sampleGainsNode.children.enum.filterMap (fun kn =>
          if (loadAudioPortGainWalk sampleConverters kn.2 sampleBarePort (kn.1 : Int)).mode = 0
          then none
          else some (loadAudioPortGainWalk sampleConverters kn.2 sampleBarePort (kn.1 : Int))) ∧
        (loadAudioPortGains sampleConverters sampleGainsNode sampleBarePort).mGains
          = sampleBarePort.mGains ++ appended ∧
        (∀ (node : cnode) (k : Int),
          (loadAudioPortGainWalk sampleConverters node sampleBarePort k).mIndex = k) ∧
        List.Pairwise (fun a b : AudioGain => a.mIndex < b.mIndex) appended ∧
        (∀ (i : Nat) (g : AudioGain), appended[i]? = some g → (i : Int) ≤ g.mIndex)) ∧
      (loadAudioPortGains sampleConverters sampleGainsNode sampleBarePort).mGains.map
        (fun g => g.mIndex) = [1, 2] :=
  ⟨loadAudioPortGains_indices sampleConverters sampleGainsNode sampleBarePort, by decide⟩

/-! ## Status aggregation -/

theorem foldl_updateStatus_definite (l : List status_t) (s : status_t)
    (h : isDefiniteError s = true) : l.foldl updateStatus s = s := by
  have hs : ¬ (s = NAME_NOT_FOUND ∨ s = NO_ERROR) := by
    unfold isDefiniteError at h
    have h2 := of_decide_eq_true h
    rintro (h3 | h3)
    · exact h2.2 h3
    · exact h2.1 h3
  induction l with
  | nil => rfl
  | cons t rest ih =>
    rw [List.foldl_cons]
    have : updateStatus s t = s := by
      unfold updateStatus
      rw [if_neg hs]
    rw [this]
    exact ih

theorem foldl_updateStatus_eq (l : List status_t) :
    ∀ s : status_t, isDefiniteError s = false →
      l.foldl updateStatus s
        = match l.find? isDefiniteError with
          | some e => e
          | none => l.getLast?.getD s := by
  induction l with
  | nil =>
    intro s _
    rfl
  | cons t rest ih =>
    intro s hs
    have hst : updateStatus s t = t := by
      unfold updateStatus
      unfold isDefiniteError at hs
      have h2 := of_decide_eq_false hs
      by_cases h3 : s = NAME_NOT_FOUND ∨ s = NO_ERROR
      · rw [if_pos h3]
      · exfalso
        apply h2
        constructor
        · exact fun h => h3 (Or.inr h)
        · exact fun h => h3 (Or.inl h)
    rw [List.foldl_cons, hst]
    by_cases ht : isDefiniteError t = true
    · rw [foldl_updateStatus_definite rest t ht, List.find?_cons_of_pos _ ht]
    · have ht2 : isDefiniteError t = false := by
        cases h : isDefiniteError t
        · rfl
        · exact absurd h ht
      rw [ih t ht2, List.find?_cons_of_neg _ ht]
      cases rest.find? isDefiniteError with
      | some e => rfl
      | none =>
        cases rest with
        | nil => rfl
        | cons u us =>
          simp only [List.getLast?_cons_cons]
          rw [List.getLast?_eq_getLast _ (List.cons_ne_nil u us)]
          rfl

theorem foldl_trace_status {σ : Type} (g : σ → cnode → status_t × σ) (l : List cnode) :
    ∀ (s : status_t) (t : List status_t) (x : σ),
      (l.foldl (fun st n => (updateStatus st.1 (g st.2 n).1, (g st.2 n).2)) (s, x)).2
          = (l.foldl (fun st n => (st.1 ++ [(g st.2 n).1], (g st.2 n).2)) (t, x)).2 ∧
        ∃ ext : List status_t,
          (l.foldl (fun st n => (st.1 ++ [(g st.2 n).1], (g st.2 n).2)) (t, x)).1 = t ++ ext ∧
            (l.foldl (fun st n => (updateStatus st.1 (g st.2 n).1, (g st.2 n).2)) (s, x)).1
              = ext.foldl updateStatus s := by
  induction l with
  | nil =>
    intro s t x
    exact ⟨rfl, [], (List.append_nil _).symm, rfl⟩
  | cons n rest ih =>
    intro s t x
    obtain ⟨h1, ext, h2, h3⟩ := ih (updateStatus s (g x n).1) (t ++ [(g x n).1]) (g x n).2
    refine ⟨h1, (g x n).1 :: ext, ?_, ?_⟩
    · rw [List.foldl_cons, h2, List.append_assoc]
      rfl
    · rw [List.foldl_cons, h3]
      rfl

theorem loadHwModuleDevices_trace (cv : Converters) (nodes : List cnode) (module : HwModule) :
    ((loadHwModuleDevices cv nodes NAME_NOT_FOUND []).1,
        module.setDeclaredDevices (loadHwModuleDevices cv nodes NAME_NOT_FOUND []).2).2
        = ((loadHwModuleDevicesTrace cv nodes [] []).1,
            module.setDeclaredDevices (loadHwModuleDevicesTrace cv nodes [] []).2).2 ∧
      ((loadHwModuleDevices cv nodes NAME_NOT_FOUND []).1,
        module.setDeclaredDevices (loadHwModuleDevices cv nodes NAME_NOT_FOUND []).2).1
        = ((loadHwModuleDevicesTrace cv nodes [] []).1,
            module.setDeclaredDevices
              (loadHwModuleDevicesTrace cv nodes [] []).2).1.foldl updateStatus
            NAME_NOT_FOUND := by
  obtain ⟨h1, ext, h2, h3⟩ := foldl_trace_status (fun ds n => loadHwModuleDevice cv n ds)
    nodes NAME_NOT_FOUND [] []
  have h1' : (loadHwModuleDevices cv nodes NAME_NOT_FOUND []).2
      = (loadHwModuleDevicesTrace cv nodes [] []).2 := h1
  have h2' : (loadHwModuleDevicesTrace cv nodes [] []).1 = [] ++ ext := h2
  have h3' : (loadHwModuleDevices cv nodes NAME_NOT_FOUND []).1
      = ext.foldl updateStatus NAME_NOT_FOUND := h3
  constructor
  · show module.setDeclaredDevices _ = module.setDeclaredDevices _
    rw [h1']
  · show (loadHwModuleDevices cv nodes NAME_NOT_FOUND []).1
      = (loadHwModuleDevicesTrace cv nodes [] []).1.foldl updateStatus NAME_NOT_FOUND
    rw [h3', h2', List.nil_append]

theorem loadHwModuleOutputs_trace (cv : Converters) (nodes : List cnode)
    (a : status_t × HwModule) (b : List status_t × HwModule)
    (h : a.2 = b.2 ∧ a.1 = b.1.foldl updateStatus NAME_NOT_FOUND) :
    (loadHwModuleOutputs cv nodes a.1 a.2).2 = (loadHwModuleOutputsTrace cv nodes b.1 b.2).2 ∧
      (loadHwModuleOutputs cv nodes a.1 a.2).1
        = (loadHwModuleOutputsTrace cv nodes b.1 b.2).1.foldl updateStatus NAME_NOT_FOUND := by
  obtain ⟨hm, hs⟩ := h
  rw [hm]
  obtain ⟨h1, ext, h2, h3⟩ := foldl_trace_status (fun m n => loadHwModuleOutput cv n m)
    nodes a.1 b.1 b.2
  have h1' : (loadHwModuleOutputs cv nodes a.1 b.2).2
      = (loadHwModuleOutputsTrace cv nodes b.1 b.2).2 := h1
  have h2' : (loadHwModuleOutputsTrace cv nodes b.1 b.2).1 = b.1 ++ ext := h2
  have h3' : (loadHwModuleOutputs cv nodes a.1 b.2).1 = ext.foldl updateStatus a.1 := h3
  exact ⟨h1', by rw [h3', h2', List.foldl_append, hs]⟩

theorem loadHwModuleInputs_trace (cv : Converters) (nodes : List cnode)
    (a : status_t × HwModule) (b : List status_t × HwModule)
    (h : a.2 = b.2 ∧ a.1 = b.1.foldl updateStatus NAME_NOT_FOUND) :
    (loadHwModuleInputs cv nodes a.1 a.2).2 = (loadHwModuleInputsTrace cv nodes b.1 b.2).2 ∧
      (loadHwModuleInputs cv nodes a.1 a.2).1
        = (loadHwModuleInputsTrace cv nodes b.1 b.2).1.foldl updateStatus NAME_NOT_FOUND := by
  obtain ⟨hm, hs⟩ := h
  rw [hm]
  obtain ⟨h1, ext, h2, h3⟩ := foldl_trace_status (fun m n => loadHwModuleInput cv n m)
    nodes a.1 b.1 b.2
  have h1' : (loadHwModuleInputs cv nodes a.1 b.2).2
      = (loadHwModuleInputsTrace cv nodes b.1 b.2).2 := h1
  have h2' : (loadHwModuleInputsTrace cv nodes b.1 b.2).1 = b.1 ++ ext := h2
  have h3' : (loadHwModuleInputs cv nodes a.1 b.2).1 = ext.foldl updateStatus a.1 := h3
  exact ⟨h1', by rw [h3', h2', List.foldl_append, hs]⟩

theorem loadHwModuleScans_trace (cv : Converters) (root : cnode) (module : HwModule) :
    (loadHwModuleScans cv root module).2 = (loadHwModuleTrace cv root module).2 ∧
      (loadHwModuleScans cv root module).1
        = (loadHwModuleTrace cv root module).1.foldl updateStatus NAME_NOT_FOUND := by
  have h0 : ((NAME_NOT_FOUND, module) : status_t × HwModule).2
        = (([], module) : List status_t × HwModule).2 ∧
      ((NAME_NOT_FOUND, module) : status_t × HwModule).1
        = (([], module) : List status_t × HwModule).1.foldl updateStatus NAME_NOT_FOUND :=
    ⟨rfl, rfl⟩
  unfold loadHwModuleScans loadHwModuleTrace
  cases config_find root DEVICES_TAG with
  | none =>
    cases config_find root OUTPUTS_TAG with
    | none =>
      cases config_find root INPUTS_TAG with
      | none => exact h0
      | some n3 => exact loadHwModuleInputs_trace cv n3.children _ _ h0
    | some n2 =>
      cases config_find root INPUTS_TAG with
      | none => exact loadHwModuleOutputs_trace cv n2.children _ _ h0
      | some n3 =>
        exact loadHwModuleInputs_trace cv n3.children _ _
          (loadHwModuleOutputs_trace cv n2.children _ _ h0)
  | some n1 =>
    have h1 := loadHwModuleDevices_trace cv n1.children module
    cases config_find root OUTPUTS_TAG with
    | none =>
      cases config_find root INPUTS_TAG with
      | none => exact h1
      | some n3 => exact loadHwModuleInputs_trace cv n3.children _ _ h1
    | some n2 =>
      cases config_find root INPUTS_TAG with
      | none => exact loadHwModuleOutputs_trace cv n2.children _ _ h1
      | some n3 =>
        exact loadHwModuleInputs_trace cv n3.children _ _
          (loadHwModuleOutputs_trace cv n2.children _ _ h1)

theorem loadHwModule_status_of_trace (cv : Converters) (root : cnode) (module : HwModule)
    (config : AudioPolicyConfig) :
    ∃ (m2 : HwModule) (c2 : AudioPolicyConfig) (v : Nat),
      loadHwModule cv root module config
          = some (match (loadHwModuleTrace cv root module).1.find? isDefiniteError with
              | some e => e
              | none => (loadHwModuleTrace cv root module).1.getLast?.getD NAME_NOT_FOUND,
            m2, c2) ∧
        m2 = (loadHwModuleTrace cv root module).2.setHalVersion v := by
  obtain ⟨v, hv⟩ := loadHwModule_some cv root module
  obtain ⟨c2, hc2⟩ := hv config
  obtain ⟨h1, h2⟩ := loadHwModuleScans_trace cv root module
  rw [h2, h1, foldl_updateStatus_eq _ NAME_NOT_FOUND (by decide)] at hc2
  exact ⟨_, c2, v, hc2, rfl⟩

/-- C14, as amended: the status returned by `loadHwModule` is the first status
other than `NO_ERROR` and `NAME_NOT_FOUND` reported by an entry, in scan order
(devices, outputs, inputs); when no entry reports such a status it is the
status of the last entry, and `NAME_NOT_FOUND` when there is no entry at all,
in particular when none of the three keys is present. -/
theorem loadHwModule_status_aggregation (cv : Converters) (root : cnode) (module : HwModule)
    (config : AudioPolicyConfig) :
    (∃ (m2 : HwModule) (c2 : AudioPolicyConfig),
        loadHwModule cv root module config
          = some (match (loadHwModuleTrace cv root module).1.find? isDefiniteError with
              | some e => e
              | none => (loadHwModuleTrace cv root module).1.getLast?.getD NAME_NOT_FOUND,
            m2, c2)) ∧
      (config_find root DEVICES_TAG = none → config_find root OUTPUTS_TAG = none →
        config_find root INPUTS_TAG = none →
        (loadHwModuleTrace cv root module).1 = [] ∧
          ∃ (m2 : HwModule) (c2 : AudioPolicyConfig),
            loadHwModule cv root module config = some (NAME_NOT_FOUND, m2, c2)) := by
  obtain ⟨m2, c2, v, h, _⟩ := loadHwModule_status_of_trace cv root module config
  refine ⟨⟨m2, c2, h⟩, fun hd ho hi => ?_⟩
  have ht : (loadHwModuleTrace cv root module).1 = [] := by
    unfold loadHwModuleTrace
    simp only [hd, ho, hi]
  rw [ht] at h
  exact ⟨ht, m2, c2, h⟩

theorem loadHwModule_status_aggregation_witness :
    ((loadHwModuleTrace sampleConverters sampleGlobalOnlyNode (HwModule.new "r_submix")).1 = [] ∧
        ∃ (m2 : HwModule) (c2 : AudioPolicyConfig),
          loadHwModule sampleConverters sampleGlobalOnlyNode (HwModule.new "r_submix")
            emptyConfig = some (NAME_NOT_FOUND, m2, c2)) ∧
      (loadHwModule sampleConverters samplePrimaryNode (HwModule.new "primary")
        emptyConfig).map (fun r => r.1) = some NO_ERROR :=
  ⟨(loadHwModule_status_aggregation sampleConverters sampleGlobalOnlyNode
      (HwModule.new "r_submix") emptyConfig).2 rfl rfl rfl,
    by decide⟩

/-- C14, as stated, fails: the entries of the module report `NO_ERROR`,
`BAD_VALUE`, `BAD_VALUE`, `NO_ERROR` in scan order, so the first status other
than `NAME_NOT_FOUND` is `NO_ERROR`, and `loadHwModule` returns `BAD_VALUE`. -/
theorem loadHwModule_first_status_not_returned :
    (loadHwModuleTrace sampleConverters sampleMixedNode (HwModule.new "primary")).1
        = [NO_ERROR, BAD_VALUE, BAD_VALUE, NO_ERROR] ∧
      (loadHwModuleTrace sampleConverters sampleMixedNode (HwModule.new "primary")).1.find?
        (fun s => decide (s ≠ NAME_NOT_FOUND)) = some NO_ERROR ∧
      (loadHwModule sampleConverters sampleMixedNode (HwModule.new "primary")
        emptyConfig).map (fun r => r.1) = some BAD_VALUE ∧
      BAD_VALUE ≠ NO_ERROR := by
  decide

/-! ## Processing continues after an error -/

theorem loadHwModuleDevice_built (cv : Converters) (n : cnode) (ds : DeviceVector) :
    loadHwModuleDevice cv n ds
      = ((loadHwModuleDevice cv n []).1,
          ds ++ ((loadHwModuleDevice cv n []).2.head?).toList) := by
  unfold loadHwModuleDevice
  by_cases h : loadHwModuleDeviceType cv n.children = AUDIO_DEVICE_NONE ∨
      (cv.audio_is_input_device (loadHwModuleDeviceType cv n.children) = false ∧
        cv.audio_is_output_device (loadHwModuleDeviceType cv n.children) = false)
  · simp only [if_pos h]
    simp
  · simp only [if_neg h, DeviceVector.add]
    simp

theorem loadHwModuleDevices_built (cv : Converters) (nodes : List cnode) :
    ∀ (s : status_t) (ds : DeviceVector),
      (loadHwModuleDevices cv nodes s ds).2
        = ds ++ nodes.filterMap (fun n => (loadHwModuleDevice cv n []).2.head?) := by
  induction nodes with
  | nil =>
    intro s ds
    simp [loadHwModuleDevices]
  | cons n rest ih =>
    intro s ds
    rw [loadHwModuleDevices_cons, ih, loadHwModuleDevice_built cv n ds, List.filterMap_cons]
    cases (loadHwModuleDevice cv n []).2.head? <;> simp

theorem loadHwModuleOutputWalk_congr (cv : Converters) (n : cnode) (m1 m2 : HwModule)
    (h : m1.mDeclaredDevices = m2.mDeclaredDevices) :
    loadHwModuleOutputWalk cv n m1 = loadHwModuleOutputWalk cv n m2 := by
  have hf : loadHwModuleOutputNode cv m1 = loadHwModuleOutputNode cv m2 := by
    funext p node
    unfold loadHwModuleOutputNode
    rw [h]
  unfold loadHwModuleOutputWalk
  rw [hf]

theorem loadHwModuleInputWalk_congr (cv : Converters) (n : cnode) (m1 m2 : HwModule)
    (h : m1.mDeclaredDevices = m2.mDeclaredDevices) :
    loadHwModuleInputWalk cv n m1 = loadHwModuleInputWalk cv n m2 := by
  have hf : loadHwModuleInputNode cv m1 = loadHwModuleInputNode cv m2 := by
    funext p node
    unfold loadHwModuleInputNode
    rw [h]
  unfold loadHwModuleInputWalk
  rw [hf]

theorem outputProfileOf_congr (cv : Converters) (m1 m2 : HwModule)
    (h : m1.mDeclaredDevices = m2.mDeclaredDevices) :
    (fun n : cnode => if profileComplete (loadHwModuleOutputWalk cv n m1)
        then some (loadHwModuleOutputWalk cv n m1) else none)
      = (fun n : cnode => if profileComplete (loadHwModuleOutputWalk cv n m2)
        then some (loadHwModuleOutputWalk cv n m2) else none) := by
  funext n
  rw [loadHwModuleOutputWalk_congr cv n m1 m2 h]

theorem inputProfileOf_congr (cv : Converters) (m1 m2 : HwModule)
    (h : m1.mDeclaredDevices = m2.mDeclaredDevices) :
    (fun n : cnode => if profileComplete (loadHwModuleInputWalk cv n m1)
        then some (loadHwModuleInputWalk cv n m1) else none)
      = (fun n : cnode => if profileComplete (loadHwModuleInputWalk cv n m2)
        then some (loadHwModuleInputWalk cv n m2) else none) := by
  funext n
  rw [loadHwModuleInputWalk_congr cv n m1 m2 h]

theorem loadHwModuleOutputs_profiles (cv : Converters) (nodes : List cnode) :
    ∀ (s : status_t) (m : HwModule),
      (loadHwModuleOutputs cv nodes s m).2
        = { m with
            mOutputProfiles := m.mOutputProfiles ++ nodes.filterMap (fun n =>
              if profileComplete (loadHwModuleOutputWalk cv n m)
              then some (loadHwModuleOutputWalk cv n m) else none) } := by
  induction nodes with
  | nil =>
    intro s m
    simp [loadHwModuleOutputs]
  | cons n rest ih =>
    intro s m
    rw [loadHwModuleOutputs_cons, ih]
    by_cases hc : profileComplete (loadHwModuleOutputWalk cv n m)
    · rw [loadHwModuleOutput_complete cv n m hc, List.filterMap_cons]
      simp only [if_pos hc]
      simp
      exact congrArg (fun f => List.filterMap f rest) (outputProfileOf_congr cv _ m rfl)
    · rw [loadHwModuleOutput_incomplete cv n m hc, List.filterMap_cons]
      simp only [if_neg hc]

theorem loadHwModuleInputs_profiles (cv : Converters) (nodes : List cnode) :
    ∀ (s : status_t) (m : HwModule),
      (loadHwModuleInputs cv nodes s m).2
        = { m with
            mInputProfiles := m.mInputProfiles ++ nodes.filterMap (fun n =>
              if profileComplete (loadHwModuleInputWalk cv n m)
              then some (loadHwModuleInputWalk cv n m) else none) } := by
  induction nodes with
  | nil =>
    intro s m
    simp [loadHwModuleInputs]
  | cons n rest ih =>
    intro s m
    have hcons : loadHwModuleInputs cv (n :: rest) s m
        = loadHwModuleInputs cv rest (updateStatus s (loadHwModuleInput cv n m).1)
            (loadHwModuleInput cv n m).2 := rfl
    rw [hcons, ih]
    by_cases hc : profileComplete (loadHwModuleInputWalk cv n m)
    · rw [loadHwModuleInput_complete cv n m hc, List.filterMap_cons]
      simp only [if_pos hc]
      simp
      exact congrArg (fun f => List.filterMap f rest) (inputProfileOf_congr cv _ m rfl)
    · rw [loadHwModuleInput_incomplete cv n m hc, List.filterMap_cons]
      simp only [if_neg hc]

theorem loadHwModuleScans_module (cv : Converters) (root : cnode) (module : HwModule) :
    (loadHwModuleScans cv root module).2.mDeclaredDevices
        = (match config_find root DEVICES_TAG with
          | some devs =>
            devs.children.filterMap (fun n => (loadHwModuleDevice cv n []).2.head?)
          | none => module.mDeclaredDevices) ∧
      (loadHwModuleScans cv root module).2.mOutputProfiles
        = module.mOutputProfiles ++ (match config_find root OUTPUTS_TAG with
          | some outs =>
            outs.children.filterMap (fun n =>
              if profileComplete (loadHwModuleOutputWalk cv n (loadHwModuleScans cv root module).2)
              then some (loadHwModuleOutputWalk cv n (loadHwModuleScans cv root module).2)
              else none)
          | none => []) ∧
      (loadHwModuleScans cv root module).2.mInputProfiles
        = module.mInputProfiles ++ (match config_find root INPUTS_TAG with
          | some ins =>
            ins.children.filterMap (fun n =>
              if profileComplete (loadHwModuleInputWalk cv n (loadHwModuleScans cv root module).2)
              then some (loadHwModuleInputWalk cv n (loadHwModuleScans cv root module).2)
              else none)
          | none => []) := by
  have hO := fun (m1 m2 : HwModule) (h : m1.mDeclaredDevices = m2.mDeclaredDevices)
    (l : List cnode) => congrArg (fun f => List.filterMap f l) (outputProfileOf_congr cv m1 m2 h)
  have hI := fun (m1 m2 : HwModule) (h : m1.mDeclaredDevices = m2.mDeclaredDevices)
    (l : List cnode) => congrArg (fun f => List.filterMap f l) (inputProfileOf_congr cv m1 m2 h)
  unfold loadHwModuleScans
  cases config_find root DEVICES_TAG with
  | none =>
    cases config_find root OUTPUTS_TAG with
    | none =>
      cases config_find root INPUTS_TAG with
      | none => simp
      | some n3 =>
        simp only [loadHwModuleInputs_profiles]
        exact ⟨trivial, by simp, congrArg _ (hI _ _ rfl _)⟩
    | some n2 =>
      cases config_find root INPUTS_TAG with
      | none =>
        simp only [loadHwModuleOutputs_profiles]
        exact ⟨trivial, congrArg _ (hO _ _ rfl _), by simp⟩
      | some n3 =>
        simp only [loadHwModuleInputs_profiles, loadHwModuleOutputs_profiles]
        exact ⟨trivial, congrArg _ (hO _ _ rfl _), congrArg _ (hI _ _ rfl _)⟩
  | some n1 =>
    cases config_find root OUTPUTS_TAG with
    | none =>
      cases config_find root INPUTS_TAG with
      | none =>
        simp only [loadHwModuleDevices_built]
        exact ⟨by simp [HwModule.setDeclaredDevices], by simp [HwModule.setDeclaredDevices],
          by simp [HwModule.setDeclaredDevices]⟩
      | some n3 =>
        simp only [loadHwModuleInputs_profiles, loadHwModuleDevices_built]
        exact ⟨by simp [HwModule.setDeclaredDevices], by simp [HwModule.setDeclaredDevices],
          congrArg _ (hI _ _ rfl _)⟩
    | some n2 =>
      cases config_find root INPUTS_TAG with
      | none =>
        simp only [loadHwModuleOutputs_profiles, loadHwModuleDevices_built]
        exact ⟨by simp [HwModule.setDeclaredDevices], congrArg _ (hO _ _ rfl _),
          by simp [HwModule.setDeclaredDevices]⟩
      | some n3 =>
        simp only [loadHwModuleInputs_profiles, loadHwModuleOutputs_profiles,
          loadHwModuleDevices_built]
        exact ⟨by simp [HwModule.setDeclaredDevices], congrArg _ (hO _ _ rfl _),
          congrArg _ (hI _ _ rfl _)⟩

/-- C15: when some entry of a module subtree reports a definite error (a status
other than `NO_ERROR` and `NAME_NOT_FOUND`), `loadHwModule` returns the error
of the first such entry in scan order, which is not success. The module is
built from every entry all the same: its declared devices are the endpoints of
all device subtrees that pass the type check, and its output and input
profiles are the old ones followed by the profiles of all complete profile
subtrees, in document order, whether they come before or after a failing
entry. -/
theorem loadHwModule_error_keeps_processing (cv : Converters) (root : cnode)
    (module : HwModule) (config : AudioPolicyConfig) (e : status_t)
    (herr : (loadHwModuleTrace cv root module).1.find? isDefiniteError = some e) :
    ∃ (m2 : HwModule) (c2 : AudioPolicyConfig),
      loadHwModule cv root module config = some (e, m2, c2) ∧ e ≠ NO_ERROR ∧
        m2.mDeclaredDevices
          = (match config_find root DEVICES_TAG with
            | some devs =>
              devs.children.filterMap (fun n => (loadHwModuleDevice cv n []).2.head?)
            | none => module.mDeclaredDevices) ∧
        m2.mOutputProfiles
          = module.mOutputProfiles ++ (match config_find root OUTPUTS_TAG with
            | some outs =>
              outs.children.filterMap (fun n =>
                if profileComplete (loadHwModuleOutputWalk cv n m2)
                then some (loadHwModuleOutputWalk cv n m2) else none)
            | none => []) ∧
        m2.mInputProfiles
          = module.mInputProfiles ++ (match config_find root INPUTS_TAG with
            | some ins =>
              ins.children.filterMap (fun n =>
                if profileComplete (loadHwModuleInputWalk cv n m2)
                then some (loadHwModuleInputWalk cv n m2) else none)
            | none => []) := by
  obtain ⟨m2, c2, v, h, hm⟩ := loadHwModule_status_of_trace cv root module config
  rw [herr] at h
  rw [← (loadHwModuleScans_trace cv root module).1] at hm
  obtain ⟨hD, hO, hI⟩ := loadHwModuleScans_module cv root module
  have hne : e ≠ NO_ERROR := by
    have h1 := List.find?_some herr
    unfold isDefiniteError at h1
    exact (of_decide_eq_true h1).1
  have hdecl : m2.mDeclaredDevices = (loadHwModuleScans cv root module).2.mDeclaredDevices := by
    rw [hm]
    rfl
  refine ⟨m2, c2, h, hne, ?_, ?_, ?_⟩
  · rw [hdecl]
    exact hD
  · rw [outputProfileOf_congr cv m2 _ hdecl, hm]
    exact hO
  · rw [inputProfileOf_congr cv m2 _ hdecl, hm]
    exact hI

theorem loadHwModule_error_keeps_processing_witness :
    (∃ (m2 : HwModule) (c2 : AudioPolicyConfig),
      loadHwModule sampleConverters sampleMixedNode (HwModule.new "primary") emptyConfig
        = some (BAD_VALUE, m2, c2)) ∧
      (loadHwModule sampleConverters sampleMixedNode (HwModule.new "primary") emptyConfig).map
          (fun r => (r.2.1.mDeclaredDevices.map (fun d => d.mTag),
            r.2.1.mOutputProfiles.map (fun p => p.mSupportedDevices.map (fun d => d.mTag))))
        = some (["Speaker"], [["Speaker"]]) := by
  constructor
  · obtain ⟨m2, c2, h, _⟩ := loadHwModule_error_keeps_processing sampleConverters
      sampleMixedNode (HwModule.new "primary") emptyConfig BAD_VALUE (by decide)
    exact ⟨m2, c2, h⟩
  · decide

/-! ## The global configuration -/

theorem global_tags_ne :
    ATTACHED_OUTPUT_DEVICES_TAG ≠ DEFAULT_OUTPUT_DEVICE_TAG ∧
      ATTACHED_OUTPUT_DEVICES_TAG ≠ ATTACHED_INPUT_DEVICES_TAG ∧
      DEFAULT_OUTPUT_DEVICE_TAG ≠ ATTACHED_INPUT_DEVICES_TAG ∧
      ATTACHED_OUTPUT_DEVICES_TAG ≠ AUDIO_HAL_VERSION_TAG ∧
      DEFAULT_OUTPUT_DEVICE_TAG ≠ AUDIO_HAL_VERSION_TAG ∧
      ATTACHED_INPUT_DEVICES_TAG ≠ AUDIO_HAL_VERSION_TAG := by decide

theorem loadModuleGlobalConfigNode_default_unrecognised (cv : Converters)
    (declaredDevices : DeviceVector) (st : Option HwModule × AudioPolicyConfig) (node : cnode)
    (hn : node.name = DEFAULT_OUTPUT_DEVICE_TAG)
    (h : DeviceConverter.fromString cv node.value = none ∨
      DeviceConverter.fromString cv node.value = some AUDIO_DEVICE_NONE) :
    loadModuleGlobalConfigNode cv declaredDevices st node = some st := by
  unfold loadModuleGlobalConfigNode
  rw [hn, if_neg global_tags_ne.1, if_pos rfl]
  rcases h with h | h <;> simp [h]

theorem loadModuleGlobalConfigNode_default_frame (cv : Converters)
    (declaredDevices : DeviceVector) (st st2 : Option HwModule × AudioPolicyConfig)
    (node : cnode) (h : loadModuleGlobalConfigNode cv declaredDevices st node = some st2)
    (hu : node.name = DEFAULT_OUTPUT_DEVICE_TAG →
      (DeviceConverter.fromString cv node.value = none ∨
        DeviceConverter.fromString cv node.value = some AUDIO_DEVICE_NONE)) :
    st2.2.mDefaultOutputDevices = st.2.mDefaultOutputDevices := by
  by_cases hn : node.name = DEFAULT_OUTPUT_DEVICE_TAG
  · rw [loadModuleGlobalConfigNode_default_unrecognised cv declaredDevices st node hn (hu hn)]
      at h
    rw [← Option.some.inj h]
  · unfold loadModuleGlobalConfigNode at h
    have hn2 : ¬ DEFAULT_OUTPUT_DEVICE_TAG = node.name := fun e => hn e.symm
    rw [if_neg hn2] at h
    split_ifs at h
    · rw [← Option.some.inj h]
      rfl
    · rw [← Option.some.inj h]
      rfl
    · cases hm : st.1 with
      | none => rw [hm] at h; cases h
      | some m =>
        rw [hm] at h
        rw [← Option.some.inj h]
    · rw [← Option.some.inj h]

theorem foldlM_globalConfigNode_default_frame (cv : Converters)
    (declaredDevices : DeviceVector) (nodes : List cnode) :
    ∀ st st2 : Option HwModule × AudioPolicyConfig,
      nodes.foldlM (loadModuleGlobalConfigNode cv declaredDevices) st = some st2 →
      (∀ n ∈ nodes, n.name = DEFAULT_OUTPUT_DEVICE_TAG →
        (DeviceConverter.fromString cv n.value = none ∨
          DeviceConverter.fromString cv n.value = some AUDIO_DEVICE_NONE)) →
      st2.2.mDefaultOutputDevices = st.2.mDefaultOutputDevices := by
  induction nodes with
  | nil =>
    intro st st2 h _
    rw [← Option.some.inj h]
  | cons n rest ih =>
    intro st st2 h hu
    rw [List.foldlM_cons] at h
    cases hs : loadModuleGlobalConfigNode cv declaredDevices st n with
    | none => rw [hs] at h; cases h
    | some st1 =>
      rw [hs] at h
      have h1 := loadModuleGlobalConfigNode_default_frame cv declaredDevices st st1 n hs
        (hu n (List.mem_cons_self _ _))
      have h2 := ih st1 st2 h (fun m hm => hu m (List.mem_cons_of_mem _ hm))
      exact h2.trans h1

theorem foldlM_skip {σ β : Type} (f : σ → β → Option σ) (l1 l2 : List β) (b : β)
    (hb : ∀ s, f s b = some s) (s0 : σ) :
    (l1 ++ b :: l2).foldlM f s0 = (l1 ++ l2).foldlM f s0 := by
  rw [List.foldlM_append, List.foldlM_append]
  cases l1.foldlM f s0 with
  | none => rfl
  | some s =>
    show (b :: l2).foldlM f s = l2.foldlM f s
    rw [List.foldlM_cons, hb s]
    rfl

theorem config_find_replace (name value : String) (pre post : List cnode) (g g2 : cnode)
    (K : String) (hg : g.name ≠ K) (hg2 : g2.name ≠ K) :
    config_find (.mk name value (pre ++ g :: post)) K
      = config_find (.mk name value (pre ++ g2 :: post)) K := by
  unfold config_find
  simp only [cnode.children, List.find?_append, List.find?_cons]
  simp [hg, hg2]

theorem loadHwModuleScans_congr (cv : Converters) (r1 r2 : cnode) (module : HwModule)
    (hD : config_find r1 DEVICES_TAG = config_find r2 DEVICES_TAG)
    (hO : config_find r1 OUTPUTS_TAG = config_find r2 OUTPUTS_TAG)
    (hI : config_find r1 INPUTS_TAG = config_find r2 INPUTS_TAG) :
    loadHwModuleScans cv r1 module = loadHwModuleScans cv r2 module := by
  unfold loadHwModuleScans
  rw [hD, hO, hI]

theorem loadHwModule_config (cv : Converters) (root : cnode) (module : HwModule)
    (config : AudioPolicyConfig) (status : status_t) (m2 : HwModule) (c2 : AudioPolicyConfig)
    (h : loadHwModule cv root module config = some (status, m2, c2)) :
    loadModuleGlobalConfig cv root (some (loadHwModuleScans cv root module).2) config
      = some (some m2, c2) := by
  obtain ⟨v, hv⟩ := loadModuleGlobalConfig_some cv root (loadHwModuleScans cv root module).2
  obtain ⟨c3, hc3⟩ := hv config
  unfold loadHwModule at h
  simp only [hc3] at h
  have h2 := Option.some.inj h
  rw [hc3]
  have hm : (loadHwModuleScans cv root module).2.setHalVersion v = m2 :=
    congrArg (fun r : status_t × HwModule × AudioPolicyConfig => r.2.1) h2
  have hc : c3 = c2 := congrArg (fun r : status_t × HwModule × AudioPolicyConfig => r.2.2) h2
  rw [hm, hc]

theorem loadModuleGlobalConfig_drop_key (cv : Converters) (name v gv : String)
    (pre post gpre gpost : List cnode) (key : cnode)
    (hkey : ∀ (declared : DeviceVector) (st : Option HwModule × AudioPolicyConfig),
      loadModuleGlobalConfigNode cv declared st key = some st)
    (module : Option HwModule) (config : AudioPolicyConfig) :
    loadModuleGlobalConfig cv
        (.mk name v (pre ++ .mk GLOBAL_CONFIG_TAG gv (gpre ++ key :: gpost) :: post))
        module config
      = loadModuleGlobalConfig cv
        (.mk name v (pre ++ .mk GLOBAL_CONFIG_TAG gv (gpre ++ gpost) :: post)) module config := by
  unfold loadModuleGlobalConfig config_find
  simp only [cnode.children, List.find?_append]
  cases pre.find? (fun n => decide (n.name = GLOBAL_CONFIG_TAG)) with
  | some x => rfl
  | none =>
    simp only [Option.none_or, List.find?_cons, cnode.name, decide_True, cnode.children]
    exact foldlM_skip _ gpre gpost key (hkey _) _

theorem loadHwModule_drop_key (cv : Converters) (name v gv : String)
    (pre post gpre gpost : List cnode) (key : cnode)
    (hkey : ∀ (declared : DeviceVector) (st : Option HwModule × AudioPolicyConfig),
      loadModuleGlobalConfigNode cv declared st key = some st)
    (module : HwModule) (config : AudioPolicyConfig) :
    loadHwModule cv
        (.mk name v (pre ++ .mk GLOBAL_CONFIG_TAG gv (gpre ++ key :: gpost) :: post))
        module config
      = loadHwModule cv
        (.mk name v (pre ++ .mk GLOBAL_CONFIG_TAG gv (gpre ++ gpost) :: post)) module config := by
  have hs := loadHwModuleScans_congr cv
    (.mk name v (pre ++ .mk GLOBAL_CONFIG_TAG gv (gpre ++ key :: gpost) :: post))
    (.mk name v (pre ++ .mk GLOBAL_CONFIG_TAG gv (gpre ++ gpost) :: post)) module
    (config_find_replace name v pre post _ _ DEVICES_TAG
      (show GLOBAL_CONFIG_TAG ≠ DEVICES_TAG by decide)
      (show GLOBAL_CONFIG_TAG ≠ DEVICES_TAG by decide))
    (config_find_replace name v pre post _ _ OUTPUTS_TAG
      (show GLOBAL_CONFIG_TAG ≠ OUTPUTS_TAG by decide)
      (show GLOBAL_CONFIG_TAG ≠ OUTPUTS_TAG by decide))
    (config_find_replace name v pre post _ _ INPUTS_TAG
      (show GLOBAL_CONFIG_TAG ≠ INPUTS_TAG by decide)
      (show GLOBAL_CONFIG_TAG ≠ INPUTS_TAG by decide))
  unfold loadHwModule
  simp only [hs, loadModuleGlobalConfig_drop_key cv name v gv pre post gpre gpost key hkey]

/-- C11: a default-output-device key whose value the device-type converter
rejects, or decodes to `AUDIO_DEVICE_NONE`, leaves the module and the aggregate
as they are. `loadHwModule` gives the same status, module and aggregate as for
the subtree without that key; and when every default-output-device key of the
global-config subtree has such a value, `loadHwModule` returns with the default
output device of the aggregate unchanged and with the status of the three
scans. -/
theorem loadHwModule_unrecognised_default (cv : Converters) (value : String)
    (sub : List cnode)
    (hval : DeviceConverter.fromString cv value = none ∨
      DeviceConverter.fromString cv value = some AUDIO_DEVICE_NONE) :
    (∀ (declared : DeviceVector) (st : Option HwModule × AudioPolicyConfig),
        loadModuleGlobalConfigNode cv declared st (.mk DEFAULT_OUTPUT_DEVICE_TAG value sub)
          = some st) ∧
      (∀ (name v gv : String) (pre post gpre gpost : List cnode) (module : HwModule)
        (config : AudioPolicyConfig),
        loadHwModule cv
            (.mk name v (pre ++ .mk GLOBAL_CONFIG_TAG gv
              (gpre ++ .mk DEFAULT_OUTPUT_DEVICE_TAG value sub :: gpost) :: post))
            module config
          = loadHwModule cv
            (.mk name v (pre ++ .mk GLOBAL_CONFIG_TAG gv (gpre ++ gpost) :: post))
            module config) ∧
      (∀ (root : cnode) (module : HwModule) (config : AudioPolicyConfig),
        (∀ g, config_find root GLOBAL_CONFIG_TAG = some g →
          ∀ n ∈ g.children, n.name = DEFAULT_OUTPUT_DEVICE_TAG → n.value = value) →
        ∃ (status : status_t) (m2 : HwModule) (c2 : AudioPolicyConfig),
          loadHwModule cv root module config = some (status, m2, c2) ∧
            c2.mDefaultOutputDevices = config.mDefaultOutputDevices ∧
            status = (loadHwModuleScans cv root module).1) := by
  have hkey : ∀ (declared : DeviceVector) (st : Option HwModule × AudioPolicyConfig),
      loadModuleGlobalConfigNode cv declared st (.mk DEFAULT_OUTPUT_DEVICE_TAG value sub)
        = some st :=
    fun declared st =>
      loadModuleGlobalConfigNode_default_unrecognised cv declared st _ rfl hval
  refine ⟨hkey, ?_, ?_⟩
  · intro name v gv pre post gpre gpost module config
    exact loadHwModule_drop_key cv name v gv pre post gpre gpost _ hkey module config
  · intro root module config hall
    obtain ⟨v, hv⟩ := loadHwModule_some cv root module
    obtain ⟨c2, hc2⟩ := hv config
    refine ⟨_, _, c2, hc2, ?_, rfl⟩
    have hg := loadHwModule_config cv root module config _ _ _ hc2
    unfold loadModuleGlobalConfig at hg
    cases hf : config_find root GLOBAL_CONFIG_TAG with
    | none =>
      rw [hf] at hg
      exact (congrArg (fun r : Option HwModule × AudioPolicyConfig =>
        r.2.mDefaultOutputDevices) (Option.some.inj hg)).symm
    | some g =>
      rw [hf] at hg
      exact foldlM_globalConfigNode_default_frame cv _ g.children _ _ hg
        (fun n hn hname => by rw [hall g hf n hn hname]; exact hval)

theorem loadHwModule_unrecognised_default_witness :
    (∃ (status : status_t) (m2 : HwModule) (c2 : AudioPolicyConfig),
      loadHwModule sampleConverters sampleBadDefaultNode (HwModule.new "primary") emptyConfig
          = some (status, m2, c2) ∧
        c2.mDefaultOutputDevices = emptyConfig.mDefaultOutputDevices ∧
        status = (loadHwModuleScans sampleConverters sampleBadDefaultNode
          (HwModule.new "primary")).1) ∧
      (loadHwModule sampleConverters sampleBadDefaultNode (HwModule.new "primary")
        emptyConfig).map (fun r => (r.1, r.2.2.mDefaultOutputDevices)) = some (NO_ERROR, none) :=
  ⟨(loadHwModule_unrecognised_default sampleConverters "Loudspeaker" [] (by decide)).2.2
      sampleBadDefaultNode (HwModule.new "primary") emptyConfig
      (fun g hg => by
        cases hg
        decide),
    by decide⟩

theorem loadModuleGlobalConfigNode_config_indep (cv : Converters)
    (declaredDevices : DeviceVector) (mo1 mo2 : Option HwModule) (c : AudioPolicyConfig)
    (node : cnode) (st1 st2 : Option HwModule × AudioPolicyConfig)
    (h1 : loadModuleGlobalConfigNode cv declaredDevices (mo1, c) node = some st1)
    (h2 : loadModuleGlobalConfigNode cv declaredDevices (mo2, c) node = some st2) :
    st1.2 = st2.2 := by
  unfold loadModuleGlobalConfigNode at h1 h2
  by_cases t1 : ATTACHED_OUTPUT_DEVICES_TAG = node.name
  · rw [if_pos t1] at h1 h2
    rw [← Option.some.inj h1, ← Option.some.inj h2]
  · rw [if_neg t1] at h1 h2
    by_cases t2 : DEFAULT_OUTPUT_DEVICE_TAG = node.name
    · rw [if_pos t2] at h1 h2
      dsimp only at h1 h2
      split_ifs at h1 h2
      · rw [← Option.some.inj h1, ← Option.some.inj h2]
      · rw [← Option.some.inj h1, ← Option.some.inj h2]
    · rw [if_neg t2] at h1 h2
      by_cases t3 : ATTACHED_INPUT_DEVICES_TAG = node.name
      · rw [if_pos t3] at h1 h2
        rw [← Option.some.inj h1, ← Option.some.inj h2]
      · rw [if_neg t3] at h1 h2
        by_cases t4 : AUDIO_HAL_VERSION_TAG = node.name
        · rw [if_pos t4] at h1 h2
          cases mo1 with
          | none => cases h1
          | some m1 =>
            cases mo2 with
            | none => cases h2
            | some m2 => rw [← Option.some.inj h1, ← Option.some.inj h2]
        · rw [if_neg t4] at h1 h2
          rw [← Option.some.inj h1, ← Option.some.inj h2]

theorem foldlM_globalConfigNode_config_indep (cv : Converters)
    (declaredDevices : DeviceVector) (nodes : List cnode) :
    ∀ (mo1 mo2 : Option HwModule) (c : AudioPolicyConfig)
      (st1 st2 : Option HwModule × AudioPolicyConfig),
      nodes.foldlM (loadModuleGlobalConfigNode cv declaredDevices) (mo1, c) = some st1 →
      nodes.foldlM (loadModuleGlobalConfigNode cv declaredDevices) (mo2, c) = some st2 →
      st1.2 = st2.2 := by
  induction nodes with
  | nil =>
    intro mo1 mo2 c st1 st2 h1 h2
    rw [← Option.some.inj h1, ← Option.some.inj h2]
  | cons n rest ih =>
    intro mo1 mo2 c st1 st2 h1 h2
    rw [List.foldlM_cons] at h1 h2
    cases ha : loadModuleGlobalConfigNode cv declaredDevices (mo1, c) n with
    | none => rw [ha] at h1; cases h1
    | some a =>
      cases hb : loadModuleGlobalConfigNode cv declaredDevices (mo2, c) n with
      | none => rw [hb] at h2; cases h2
      | some b =>
        rw [ha] at h1
        rw [hb] at h2
        have hab := loadModuleGlobalConfigNode_config_indep cv declaredDevices mo1 mo2 c n a b
          ha hb
        obtain ⟨a1, a2⟩ := a
        obtain ⟨b1, b2⟩ := b
        simp only at hab
        subst hab
        exact ih a1 b1 a2 st1 st2 h1 h2

theorem loadModuleGlobalConfig_config_indep (cv : Converters) (root : cnode)
    (mo1 mo2 : Option HwModule) (c : AudioPolicyConfig)
    (st1 st2 : Option HwModule × AudioPolicyConfig)
    (hd : (match mo1 with
        | some m => m.mDeclaredDevices
        | none => ([] : DeviceVector))
      = (match mo2 with
        | some m => m.mDeclaredDevices
        | none => ([] : DeviceVector)))
    (h1 : loadModuleGlobalConfig cv root mo1 c = some st1)
    (h2 : loadModuleGlobalConfig cv root mo2 c = some st2) : st1.2 = st2.2 := by
  unfold loadModuleGlobalConfig at h1 h2
  cases hf : config_find root GLOBAL_CONFIG_TAG with
  | none =>
    rw [hf] at h1 h2
    rw [← Option.some.inj h1, ← Option.some.inj h2]
  | some g =>
    rw [hf] at h1 h2
    simp only at h1 h2
    rw [hd] at h1
    exact foldlM_globalConfigNode_config_indep cv _ g.children mo1 mo2 c st1 st2 h1 h2

/-- C18: `loadHwModule` applies the global-config subtree of the module to the
aggregate whatever the status of the scans: it always returns, and the
aggregate it leaves is the one `loadModuleGlobalConfig` gives for the module as
built. `loadHwModules` keeps that aggregate whether or not it adds the module
to the collection, and any module with the same declared devices, successful or
not, gives the same aggregate. -/
theorem loadHwModule_global_config_unconditional (cv : Converters) (root : cnode)
    (config : AudioPolicyConfig) (hwModules : HwModuleCollection) :
    ∃ (status : status_t) (m2 : HwModule) (c2 : AudioPolicyConfig),
      loadHwModule cv root (HwModule.new root.name) config = some (status, m2, c2) ∧
        loadModuleGlobalConfig cv root
            (some (loadHwModuleScans cv root (HwModule.new root.name)).2) config
          = some (some m2, c2) ∧
        loadHwModulesNode cv (hwModules, config) root
          = some (if status = NO_ERROR then hwModules ++ [m2] else hwModules, c2) ∧
        (∀ other : HwModule, other.mDeclaredDevices = m2.mDeclaredDevices →
          ∃ o2 : HwModule,
            loadModuleGlobalConfig cv root (some other) config = some (some o2, c2)) := by
  obtain ⟨v, hv⟩ := loadHwModule_some cv root (HwModule.new root.name)
  obtain ⟨c2, hc2⟩ := hv config
  have hg := loadHwModule_config cv root _ config _ _ _ hc2
  refine ⟨_, _, c2, hc2, hg, ?_, ?_⟩
  · unfold loadHwModulesNode
    simp only [hc2]
    split <;> rfl
  · intro other ho
    obtain ⟨w, hw⟩ := loadModuleGlobalConfig_some cv root other
    obtain ⟨c3, hc3⟩ := hw config
    have heq := loadModuleGlobalConfig_config_indep cv root (some other)
      (some (loadHwModuleScans cv root (HwModule.new root.name)).2) config _ _ ho hc3 hg
    have hc : c3 = c2 := heq
    refine ⟨other.setHalVersion w, ?_⟩
    rw [hc3, hc]

theorem loadHwModule_global_config_unconditional_witness :
    (∃ (status : status_t) (m2 : HwModule) (c2 : AudioPolicyConfig),
      loadHwModule sampleConverters sampleFailingGlobalNode
          (HwModule.new sampleFailingGlobalNode.name) emptyConfig = some (status, m2, c2) ∧
        loadModuleGlobalConfig sampleConverters sampleFailingGlobalNode
            (some (loadHwModuleScans sampleConverters sampleFailingGlobalNode
              (HwModule.new sampleFailingGlobalNode.name)).2) emptyConfig
          = some (some m2, c2) ∧
        loadHwModulesNode sampleConverters ([], emptyConfig) sampleFailingGlobalNode
          = some (if status = NO_ERROR then [] ++ [m2] else [], c2) ∧
        (∀ other : HwModule, other.mDeclaredDevices = m2.mDeclaredDevices →
          ∃ o2 : HwModule,
            loadModuleGlobalConfig sampleConverters sampleFailingGlobalNode (some other)
              emptyConfig = some (some o2, c2))) ∧
      (loadHwModulesNode sampleConverters ([], emptyConfig) sampleFailingGlobalNode).map
          (fun r => (r.1.length, r.2.mAvailableOutputDevices.map (fun d => d.mDeviceType),
            r.2.mAvailableInputDevices.map (fun d => d.mDeviceType),
            r.2.mDefaultOutputDevices.map (fun d => d.mDeviceType)))
        = some (0, [0x2], [0x80000004], some 0x2) :=
  ⟨loadHwModule_global_config_unconditional sampleConverters sampleFailingGlobalNode
      emptyConfig [],
    by decide⟩

/-! ## The legacy global configuration -/

theorem foldlM_keep {σ β γ : Type} (f : σ → β → Option σ) (g : σ → γ) (P : β → Prop)
    (hkeep : ∀ s b s2, P b → f s b = some s2 → g s2 = g s) (l : List β) :
    ∀ s s2 : σ, (∀ b ∈ l, P b) → l.foldlM f s = some s2 → g s2 = g s := by
  induction l with
  | nil =>
    intro s s2 _ h
    rw [← Option.some.inj h]
  | cons b rest ih =>
    intro s s2 hP h
    rw [List.foldlM_cons] at h
    cases hs : f s b with
    | none => rw [hs] at h; cases h
    | some s1 =>
      rw [hs] at h
      exact (ih s1 s2 (fun c hc => hP c (List.mem_cons_of_mem _ hc)) h).trans
        (hkeep s b s1 (hP b (List.mem_cons_self _ _)) hs)

theorem loadModuleGlobalConfigNode_frames (cv : Converters) (declaredDevices : DeviceVector)
    (st st2 : Option HwModule × AudioPolicyConfig) (node : cnode)
    (h : loadModuleGlobalConfigNode cv declaredDevices st node = some st2) :
    st2.2.mHwModules = st.2.mHwModules ∧
      ((node.name = ATTACHED_OUTPUT_DEVICES_TAG →
          loadDevicesFromTag cv node.value [] declaredDevices = []) →
        st2.2.mAvailableOutputDevices = st.2.mAvailableOutputDevices) ∧
      ((node.name = ATTACHED_INPUT_DEVICES_TAG →
          loadDevicesFromTag cv node.value [] declaredDevices = []) →
        st2.2.mAvailableInputDevices = st.2.mAvailableInputDevices) := by
  obtain ⟨g1, g2, g3, g4, g5, g6⟩ := global_tags_ne
  unfold loadModuleGlobalConfigNode at h
  by_cases t1 : ATTACHED_OUTPUT_DEVICES_TAG = node.name
  · rw [if_pos t1] at h
    rw [← Option.some.inj h]
    refine ⟨rfl, fun he => ?_, fun _ => rfl⟩
    show DeviceVector.addAll _ (loadDevicesFromTag cv node.value [] declaredDevices) = _
    rw [he t1.symm]
    rfl
  · rw [if_neg t1] at h
    by_cases t2 : DEFAULT_OUTPUT_DEVICE_TAG = node.name
    · rw [if_pos t2] at h
      dsimp only at h
      split_ifs at h
      · rw [← Option.some.inj h]
        exact ⟨rfl, fun _ => rfl, fun _ => rfl⟩
      · rw [← Option.some.inj h]
        exact ⟨rfl, fun _ => rfl, fun _ => rfl⟩
    · rw [if_neg t2] at h
      by_cases t3 : ATTACHED_INPUT_DEVICES_TAG = node.name
      · rw [if_pos t3] at h
        rw [← Option.some.inj h]
        refine ⟨rfl, fun _ => rfl, fun he => ?_⟩
        show DeviceVector.addAll _ (loadDevicesFromTag cv node.value [] declaredDevices) = _
        rw [he t3.symm]
        rfl
      · rw [if_neg t3] at h
        by_cases t4 : AUDIO_HAL_VERSION_TAG = node.name
        · rw [if_pos t4] at h
          cases hm : st.1 with
          | none => rw [hm] at h; cases h
          | some m =>
            rw [hm] at h
            rw [← Option.some.inj h]
            exact ⟨rfl, fun _ => rfl, fun _ => rfl⟩
        · rw [if_neg t4] at h
          rw [← Option.some.inj h]
          exact ⟨rfl, fun _ => rfl, fun _ => rfl⟩

theorem loadModuleGlobalConfigNode_none (cv : Converters) (declaredDevices : DeviceVector)
    (c : AudioPolicyConfig) (node : cnode) (hn : node.name ≠ AUDIO_HAL_VERSION_TAG) :
    ∃ c2 : AudioPolicyConfig,
      loadModuleGlobalConfigNode cv declaredDevices (none, c) node = some (none, c2) := by
  have t4 : ¬ AUDIO_HAL_VERSION_TAG = node.name := fun e => hn e.symm
  unfold loadModuleGlobalConfigNode
  by_cases t1 : ATTACHED_OUTPUT_DEVICES_TAG = node.name
  · rw [if_pos t1]
    exact ⟨_, rfl⟩
  · rw [if_neg t1]
    by_cases t2 : DEFAULT_OUTPUT_DEVICE_TAG = node.name
    · rw [if_pos t2]
      dsimp only
      split_ifs
      · exact ⟨_, rfl⟩
      · exact ⟨_, rfl⟩
    · rw [if_neg t2]
      by_cases t3 : ATTACHED_INPUT_DEVICES_TAG = node.name
      · rw [if_pos t3]
        exact ⟨_, rfl⟩
      · rw [if_neg t3, if_neg t4]
        exact ⟨_, rfl⟩

theorem foldlM_globalConfigNode_none (cv : Converters) (declaredDevices : DeviceVector)
    (nodes : List cnode) :
    ∀ c : AudioPolicyConfig, (∀ n ∈ nodes, n.name ≠ AUDIO_HAL_VERSION_TAG) →
      ∃ c2 : AudioPolicyConfig,
        nodes.foldlM (loadModuleGlobalConfigNode cv declaredDevices) (none, c)
          = some (none, c2) := by
  induction nodes with
  | nil =>
    intro c _
    exact ⟨c, rfl⟩
  | cons n rest ih =>
    intro c h
    obtain ⟨c1, h1⟩ := loadModuleGlobalConfigNode_none cv declaredDevices c n
      (h n (List.mem_cons_self _ _))
    obtain ⟨c2, h2⟩ := ih c1 (fun m hm => h m (List.mem_cons_of_mem _ hm))
    refine ⟨c2, ?_⟩
    rw [List.foldlM_cons, h1]
    exact h2

theorem loadGlobalConfigNode_frame (cv : Converters) (config : AudioPolicyConfig)
    (node : cnode) :
    (loadGlobalConfigNode cv config node).mHwModules = config.mHwModules ∧
      (loadGlobalConfigNode cv config node).mAvailableOutputDevices
        = config.mAvailableOutputDevices ∧
      (loadGlobalConfigNode cv config node).mAvailableInputDevices
        = config.mAvailableInputDevices ∧
      (loadGlobalConfigNode cv config node).mDefaultOutputDevices
        = config.mDefaultOutputDevices := by
  unfold loadGlobalConfigNode
  split
  · split <;> exact ⟨rfl, rfl, rfl, rfl⟩
  · exact ⟨rfl, rfl, rfl, rfl⟩

theorem foldl_loadGlobalConfigNode_frame (cv : Converters) (nodes : List cnode) :
    ∀ config : AudioPolicyConfig,
      (nodes.foldl (loadGlobalConfigNode cv) config).mHwModules = config.mHwModules ∧
        (nodes.foldl (loadGlobalConfigNode cv) config).mAvailableOutputDevices
          = config.mAvailableOutputDevices ∧
        (nodes.foldl (loadGlobalConfigNode cv) config).mAvailableInputDevices
          = config.mAvailableInputDevices ∧
        (nodes.foldl (loadGlobalConfigNode cv) config).mDefaultOutputDevices
          = config.mDefaultOutputDevices := by
  induction nodes with
  | nil =>
    intro config
    exact ⟨rfl, rfl, rfl, rfl⟩
  | cons n rest ih =>
    intro config
    obtain ⟨a1, a2, a3, a4⟩ := ih (loadGlobalConfigNode cv config n)
    obtain ⟨b1, b2, b3, b4⟩ := loadGlobalConfigNode_frame cv config n
    exact ⟨a1.trans b1, a2.trans b2, a3.trans b3, a4.trans b4⟩

theorem loadDevicesFromTag_all_rejected (cv : Converters) (s : String)
    (h : ∀ t ∈ strtokAll s, DeviceConverter.fromString cv t = none) (devices : DeviceVector) :
    loadDevicesFromTag cv s devices [] = devices := by
  unfold loadDevicesFromTag
  generalize strtokAll s = toks at h
  induction toks with
  | nil => rfl
  | cons t rest ih =>
    rw [List.foldl_cons, loadDevicesFromTagToken_unknown cv t (h t (List.mem_cons_self _ _))
      [] rfl]
    exact ih (fun u hu => h u (List.mem_cons_of_mem _ hu))

/-- C12, as amended: with no primary module, `loadGlobalConfig` on a file-root
global-config section without an HAL-version key returns, writes no module and
leaves the module collection of the aggregate alone, and the aggregate it gives
is the one it gives for a primary module that declares no device: literal
device-type tokens are still applied. The available output devices, the
available input devices and the default output device are unchanged when no
attached-device list holds a token that the converter accepts and every
default-output-device value is rejected or is the none sentinel. -/
theorem loadGlobalConfig_without_primary (cv : Converters) (root : cnode)
    (config : AudioPolicyConfig)
    (hnohal : ∀ g, config_find root GLOBAL_CONFIG_TAG = some g →
      ∀ n ∈ g.children, n.name ≠ AUDIO_HAL_VERSION_TAG) :
    ∃ c2 : AudioPolicyConfig,
      loadGlobalConfig cv root config none = some (none, c2) ∧
        c2.mHwModules = config.mHwModules ∧
        (∀ m0 : HwModule, m0.mDeclaredDevices = [] →
          ∃ m1 : HwModule, loadGlobalConfig cv root config (some m0) = some (some m1, c2)) ∧
        ((∀ g, config_find root GLOBAL_CONFIG_TAG = some g → ∀ n ∈ g.children,
            ((n.name = ATTACHED_OUTPUT_DEVICES_TAG ∨ n.name = ATTACHED_INPUT_DEVICES_TAG) →
              ∀ t ∈ strtokAll n.value, DeviceConverter.fromString cv t = none) ∧
            (n.name = DEFAULT_OUTPUT_DEVICE_TAG →
              (DeviceConverter.fromString cv n.value = none ∨
                DeviceConverter.fromString cv n.value = some AUDIO_DEVICE_NONE))) →
          c2.mAvailableOutputDevices = config.mAvailableOutputDevices ∧
            c2.mAvailableInputDevices = config.mAvailableInputDevices ∧
            c2.mDefaultOutputDevices = config.mDefaultOutputDevices) := by
  unfold loadGlobalConfig
  cases hf : config_find root GLOBAL_CONFIG_TAG with
  | none =>
    exact ⟨config, rfl, rfl, fun m0 _ => ⟨m0, rfl⟩, fun _ => ⟨rfl, rfl, rfl⟩⟩
  | some g =>
    obtain ⟨f1, f2, f3, f4⟩ := foldl_loadGlobalConfigNode_frame cv g.children config
    have hrun : ∀ mo : Option HwModule,
        loadModuleGlobalConfig cv root mo (g.children.foldl (loadGlobalConfigNode cv) config)
          = g.children.foldlM
              (loadModuleGlobalConfigNode cv
                (match mo with
                  | some m => m.mDeclaredDevices
                  | none => []))
              (mo, g.children.foldl (loadGlobalConfigNode cv) config) := by
      intro mo
      unfold loadModuleGlobalConfig
      rw [hf]
    obtain ⟨c2, hc2⟩ := foldlM_globalConfigNode_none cv [] g.children
      (g.children.foldl (loadGlobalConfigNode cv) config) (hnohal g hf)
    have hnone : loadModuleGlobalConfig cv root none
        (g.children.foldl (loadGlobalConfigNode cv) config) = some (none, c2) := by
      rw [hrun none]
      exact hc2
    refine ⟨c2, hnone, ?_, ?_, ?_⟩
    · have := foldlM_keep (loadModuleGlobalConfigNode cv [])
        (fun st : Option HwModule × AudioPolicyConfig => st.2.mHwModules) (fun _ => True)
        (fun s b s2 _ h => (loadModuleGlobalConfigNode_frames cv [] s s2 b h).1)
        g.children _ _ (fun _ _ => trivial) hc2
      exact this.trans f1
    · intro m0 hm0
      obtain ⟨w, hw⟩ := loadModuleGlobalConfig_some cv root m0
      obtain ⟨c3, hc3⟩ := hw (g.children.foldl (loadGlobalConfigNode cv) config)
      have heq := loadModuleGlobalConfig_config_indep cv root (some m0) none _ _ _ hm0 hc3
        hnone
      have hc : c3 = c2 := heq
      rw [hc] at hc3
      exact ⟨m0.setHalVersion w, hc3⟩
    · intro hall
      have hempty : ∀ n ∈ g.children,
          (n.name = ATTACHED_OUTPUT_DEVICES_TAG ∨ n.name = ATTACHED_INPUT_DEVICES_TAG) →
          loadDevicesFromTag cv n.value [] [] = [] :=
        fun n hn hname => loadDevicesFromTag_all_rejected cv n.value ((hall g rfl n hn).1 hname) []
      refine ⟨?_, ?_, ?_⟩
      · have := foldlM_keep (loadModuleGlobalConfigNode cv [])
          (fun st : Option HwModule × AudioPolicyConfig => st.2.mAvailableOutputDevices)
          (fun n => n.name = ATTACHED_OUTPUT_DEVICES_TAG →
            loadDevicesFromTag cv n.value [] [] = [])
          (fun s b s2 hP h => (loadModuleGlobalConfigNode_frames cv [] s s2 b h).2.1 hP)
          g.children _ _ (fun n hn hname => hempty n hn (Or.inl hname)) hc2
        exact this.trans f2
      · have := foldlM_keep (loadModuleGlobalConfigNode cv [])
          (fun st : Option HwModule × AudioPolicyConfig => st.2.mAvailableInputDevices)
          (fun n => n.name = ATTACHED_INPUT_DEVICES_TAG →
            loadDevicesFromTag cv n.value [] [] = [])
          (fun s b s2 hP h => (loadModuleGlobalConfigNode_frames cv [] s s2 b h).2.2 hP)
          g.children _ _ (fun n hn hname => hempty n hn (Or.inr hname)) hc2
        exact this.trans f3
      · have := foldlM_globalConfigNode_default_frame cv [] g.children _ _ hc2
          (fun n hn hname => (hall g rfl n hn).2 hname)
        exact this.trans f4

theorem loadGlobalConfig_without_primary_witness :
    ∃ c2 : AudioPolicyConfig,
      loadGlobalConfig sampleConverters sampleLegacyTagsRoot emptyConfig none = some (none, c2) ∧
        c2.mAvailableOutputDevices = emptyConfig.mAvailableOutputDevices ∧
        c2.mAvailableInputDevices = emptyConfig.mAvailableInputDevices ∧
        c2.mDefaultOutputDevices = emptyConfig.mDefaultOutputDevices := by
  obtain ⟨c2, h1, _, _, h4⟩ := loadGlobalConfig_without_primary sampleConverters
    sampleLegacyTagsRoot emptyConfig (fun g hg => by cases hg; decide)
  exact ⟨c2, h1, h4 (fun g hg => by cases hg; decide)⟩

/-- C12, as stated, fails: with no primary module, the legacy section of the
sample file adds the speaker to the available output devices, the microphone
to the available input devices, and sets the default output device. -/
theorem loadGlobalConfig_null_primary_changes_devices :
    (loadGlobalConfig sampleConverters sampleLegacyRoot emptyConfig none).map
        (fun r => (r.1, r.2.mAvailableOutputDevices, r.2.mAvailableInputDevices,
          r.2.mDefaultOutputDevices))
      = some (none, [DeviceDescriptor.new sampleConverters 0x2],
          [DeviceDescriptor.new sampleConverters 0x80000004],
          some (DeviceDescriptor.new sampleConverters 0x2)) ∧
      emptyConfig.mAvailableOutputDevices = [] ∧ emptyConfig.mAvailableInputDevices = [] ∧
      emptyConfig.mDefaultOutputDevices = none := by
  decide

/-! ## The whole load -/

/-- C13: a readable legacy file whose file-root global-config section holds an
HAL-version key, with no primary module loaded, makes `loadConfig` set the HAL
version through the null primary module: the load does not return `NO_ERROR`,
it does not return at all. The same tree provider on an unreadable file gives
`-ENODEV` and on an empty file gives `NO_ERROR`. -/
theorem loadConfig_hal_version_without_primary :
    loadConfig sampleHalLegacyConverters
        (some "global_configuration \x7b audio_hal_version 3.0 \x7d") emptyConfig = none ∧
      loadGlobalConfig sampleHalLegacyConverters
        (.mk "" "" [.mk "global_configuration" "" [.mk "audio_hal_version" "3.0" []]])
        emptyConfig none = none ∧
      loadConfig sampleHalLegacyConverters none emptyConfig = some (-ENODEV, emptyConfig) ∧
      loadConfig sampleHalLegacyConverters (some "") emptyConfig
        = some (NO_ERROR, emptyConfig) := by
  decide

theorem loadConfig_status (cv : Converters) (config : AudioPolicyConfig) :
    loadConfig cv none config = some (-ENODEV, config) ∧
      ∀ (data : String) (s : status_t) (c : AudioPolicyConfig),
        loadConfig cv (some data) config = some (s, c) → s = NO_ERROR := by
  refine ⟨rfl, fun data s c h => ?_⟩
  unfold loadConfig at h
  dsimp only at h
  split at h
  · cases h
  · split at h
    · cases h
    · exact (congrArg Prod.fst (Option.some.inj h)).symm

/-! ## Endpoint types -/

theorem loadDevicesFromTagToken_types (cv : Converters)
    (hconv : ∀ (s : String) (t : Nat), DeviceConverter.fromString cv s = some t →
      t ≠ AUDIO_DEVICE_NONE)
    (declaredDevices devices : DeviceVector) (tok : String) :
    ∀ d ∈ loadDevicesFromTagToken cv declaredDevices devices tok,
      d ∈ devices ∨ d ∈ declaredDevices ∨ d.mDeviceType ≠ AUDIO_DEVICE_NONE := by
  intro d hd
  unfold loadDevicesFromTagToken at hd
  by_cases hne : tok.length ≠ 0
  · rw [if_pos hne] at hd
    cases hc : DeviceConverter.fromString cv tok with
    | some type =>
      rw [hc] at hd
      simp only [DeviceVector.add] at hd
      rcases List.mem_append.mp hd with h | h
      · exact Or.inl h
      · right
        right
        rw [List.mem_singleton.mp h]
        split_ifs <;> exact hconv tok type hc
    | none =>
      rw [hc] at hd
      cases hg : declaredDevices.getDeviceFromTag tok with
      | some x =>
        rw [hg] at hd
        simp only [DeviceVector.add] at hd
        rcases List.mem_append.mp hd with h | h
        · exact Or.inl h
        · right
          left
          rw [List.mem_singleton.mp h]
          exact List.mem_of_find?_eq_some hg
      | none =>
        rw [hg] at hd
        exact Or.inl hd
  · rw [if_neg hne] at hd
    exact Or.inl hd

theorem foldl_token_types (cv : Converters)
    (hconv : ∀ (s : String) (t : Nat), DeviceConverter.fromString cv s = some t →
      t ≠ AUDIO_DEVICE_NONE)
    (declaredDevices : DeviceVector) (toks : List String) :
    ∀ devices : DeviceVector,
      ∀ d ∈ toks.foldl (loadDevicesFromTagToken cv declaredDevices) devices,
        d ∈ devices ∨ d ∈ declaredDevices ∨ d.mDeviceType ≠ AUDIO_DEVICE_NONE := by
  induction toks with
  | nil =>
    intro devices d hd
    exact Or.inl hd
  | cons t rest ih =>
    intro devices d hd
    rw [List.foldl_cons] at hd
    rcases ih _ d hd with h | h
    · exact loadDevicesFromTagToken_types cv hconv declaredDevices devices t d h
    · exact Or.inr h

theorem sampleConverters_never_none (s : String) (t : Nat)
    (h : DeviceConverter.fromString sampleConverters s = some t) : t ≠ AUDIO_DEVICE_NONE := by
  unfold DeviceConverter.fromString at h
  have hs : sampleConverters.deviceType s = sampleDeviceType s := rfl
  rw [hs] at h
  unfold sampleDeviceType at h
  split_ifs at h <;> simp at h <;> rw [← h] <;> decide

/-- C16, as amended: an endpoint added by `loadHwModuleDevice`, and a default
output device set by `loadModuleGlobalConfig`, has a type other than
`AUDIO_DEVICE_NONE` for every tree and every behaviour of the device-type
converter. An endpoint that `loadDevicesFromTag` makes from a literal token has
the type that the converter decoded; so when the converter never decodes a
token to `AUDIO_DEVICE_NONE`, every endpoint that `loadDevicesFromTag` adds is
a declared one or has a type other than `AUDIO_DEVICE_NONE`. -/
theorem created_endpoint_types (cv : Converters) :
    (∀ (root : cnode) (devices : DeviceVector),
        ∀ d ∈ (loadHwModuleDevice cv root devices).2,
          d ∈ devices ∨ d.mDeviceType ≠ AUDIO_DEVICE_NONE) ∧
      (∀ (declared : DeviceVector) (st st2 : Option HwModule × AudioPolicyConfig)
        (node : cnode) (d : DeviceDescriptor),
        loadModuleGlobalConfigNode cv declared st node = some st2 →
        st2.2.mDefaultOutputDevices = some d →
        st.2.mDefaultOutputDevices = some d ∨ d.mDeviceType ≠ AUDIO_DEVICE_NONE) ∧
      (∀ (tok : String) (type : Nat), tok.length ≠ 0 →
        DeviceConverter.fromString cv tok = some type →
        ∀ declared devices : DeviceVector,
          ∃ d : DeviceDescriptor,
            loadDevicesFromTagToken cv declared devices tok = devices ++ [d] ∧
              d.mDeviceType = type) ∧
      ((∀ (s : String) (t : Nat), DeviceConverter.fromString cv s = some t →
          t ≠ AUDIO_DEVICE_NONE) →
        ∀ (tag : String) (devices declared : DeviceVector),
          ∀ d ∈ loadDevicesFromTag cv tag devices declared,
            d ∈ devices ∨ d ∈ declared ∨ d.mDeviceType ≠ AUDIO_DEVICE_NONE) := by
  refine ⟨?_, ?_, ?_, ?_⟩
  · intro root devices d hd
    by_cases h : loadHwModuleDeviceType cv root.children = AUDIO_DEVICE_NONE ∨
        (cv.audio_is_input_device (loadHwModuleDeviceType cv root.children) = false ∧
          cv.audio_is_output_device (loadHwModuleDeviceType cv root.children) = false)
    · rw [(loadHwModuleDevice_of_type cv root devices).1 h] at hd
      exact Or.inl hd
    · obtain ⟨e, he, _, hty⟩ := (loadHwModuleDevice_of_type cv root devices).2 h
      rw [he] at hd
      rcases List.mem_append.mp hd with h1 | h1
      · exact Or.inl h1
      · right
        rw [List.mem_singleton.mp h1, hty]
        exact fun h0 => h (Or.inl h0)
  · intro declared st st2 node d h hd
    by_cases hn : node.name = DEFAULT_OUTPUT_DEVICE_TAG
    · unfold loadModuleGlobalConfigNode at h
      rw [hn, if_neg global_tags_ne.1, if_pos rfl] at h
      dsimp only at h
      split_ifs at h with hdev
      · right
        rw [← Option.some.inj h] at hd
        have hd2 := Option.some.inj hd
        rw [← hd2]
        exact hdev
      · left
        rw [← Option.some.inj h] at hd
        exact hd
    · left
      rw [← loadModuleGlobalConfigNode_default_frame cv declared st st2 node h
        (fun e => absurd e hn)]
      exact hd
  · intro tok type hne hconv declared devices
    exact ⟨_, loadDevicesFromTagToken_literal cv tok type hne hconv declared devices, rfl⟩
  · intro hconv tag devices declared d hd
    exact foldl_token_types cv hconv declared (strtokAll tag) devices d hd

theorem created_endpoint_types_witness :
    (∀ d ∈ loadDevicesFromTag sampleConverters "AUDIO_DEVICE_OUT_SPEAKER|Speaker" []
        sampleDeclaredSpeaker,
      d ∈ ([] : DeviceVector) ∨ d ∈ sampleDeclaredSpeaker ∨
        d.mDeviceType ≠ AUDIO_DEVICE_NONE) ∧
      (loadDevicesFromTag sampleConverters "AUDIO_DEVICE_OUT_SPEAKER|Speaker" []
        sampleDeclaredSpeaker).map (fun d => d.mDeviceType) = [0x2, 0x2] :=
  ⟨(created_endpoint_types sampleConverters).2.2.2 sampleConverters_never_none
      "AUDIO_DEVICE_OUT_SPEAKER|Speaker" [] sampleDeclaredSpeaker,
    by decide⟩

/-- C16, as stated, fails: for a device-type converter that decodes the token
`AUDIO_DEVICE_NONE` to the none sentinel, `loadDevicesFromTag` makes an
endpoint whose type is `AUDIO_DEVICE_NONE`, in a profile as well. -/
theorem loadDevicesFromTag_none_endpoint :
    DeviceConverter.fromString sampleNoneConverters "AUDIO_DEVICE_NONE"
        = some AUDIO_DEVICE_NONE ∧
      (loadDevicesFromTag sampleNoneConverters "AUDIO_DEVICE_NONE" [] []).map
        (fun d => d.mDeviceType) = [AUDIO_DEVICE_NONE] ∧
      (loadHwModuleOutputWalk sampleNoneConverters
        (.mk "primary" "" [.mk "devices" "AUDIO_DEVICE_NONE" []])
        (HwModule.new "primary")).mSupportedDevices.map (fun d => d.mDeviceType)
        = [AUDIO_DEVICE_NONE] := by
  decide

end android
